import Mathlib

/-!
# Trajectory evaluator core (op_trajectory_evaluator_core.cpp)

A shallow embedding of `TrajectoryEvaluatorNS::TrajectoryEvalCore`: the node's member
variables become an explicit state record, every subscriber callback becomes a function on
that record, and one iteration of `MainLoop` becomes a function returning the new state
together with the list of effects (evaluator invocation, publications) it performed.

Doubles are modelled as rationals, `int` as `Int`, `unsigned` loop counters as `Nat`.
A bounds-checked `std::vector::at` that is not guarded by a size test is modelled as a
lookup in `Option`; `none` stands for the escaping `std::out_of_range`.

Functions that the translation unit calls but does not define (ROS helpers, planning
helpers, the cost calculator, libm) are collected in the record `External` and are left
uninterpreted: every general theorem holds for all of them, under the assumptions it
names. The selection rule of the cost calculator, which the sources do not contain, is
modelled separately from the words of the specification.
-/

namespace geometry_msgs

/-- The message type geometry_msgs/Point. -/
structure Point where
  x : ℚ
  y : ℚ
  z : ℚ
deriving DecidableEq

/-- The message type geometry_msgs/Quaternion. -/
structure Quaternion where
  x : ℚ
  y : ℚ
  z : ℚ
  w : ℚ
deriving DecidableEq

/-- The message type geometry_msgs/Pose. -/
structure Pose where
  position : Point
  orientation : Quaternion
deriving DecidableEq

/-- The message type geometry_msgs/PoseStamped (header omitted, it is never read). -/
structure PoseStamped where
  pose : Pose
deriving DecidableEq

/-- The message type geometry_msgs/Vector3. -/
structure Vector3 where
  x : ℚ
  y : ℚ
  z : ℚ
deriving DecidableEq

/-- The message type geometry_msgs/Twist. -/
structure Twist where
  linear : Vector3
  angular : Vector3
deriving DecidableEq

/-- The message type geometry_msgs/TwistStamped (header omitted, it is never read). -/
structure TwistStamped where
  twist : Twist
deriving DecidableEq

end geometry_msgs

namespace nav_msgs

/-- The part of nav_msgs/Odometry that callbackGetRobotOdom reads: `twist.twist`. -/
structure Odometry where
  twist : geometry_msgs.TwistStamped
deriving DecidableEq

end nav_msgs

namespace autoware_can_msgs

/-- The part of autoware_can_msgs/CANInfo that callbackGetCANInfo reads. -/
structure CANInfo where
  speed : ℚ
  angle : ℚ
deriving DecidableEq

end autoware_can_msgs

namespace autoware_msgs

/-- One waypoint of an autoware_msgs/Lane: pose, commanded speed and global path id. -/
structure Waypoint where
  gid : Int
  pose : geometry_msgs.Pose
  v : ℚ
deriving DecidableEq

/-- The message type autoware_msgs/Lane with the fields the node reads or writes. -/
structure Lane where
  waypoints : List Waypoint
  lane_index : Int
  cost : ℚ
  closest_object_distance : ℚ
  closest_object_velocity : ℚ
  is_blocked : Bool
deriving DecidableEq

/-- The message type autoware_msgs/LaneArray. -/
structure LaneArray where
  lanes : List Lane
deriving DecidableEq

/-- The message type autoware_msgs/DetectedObject: the id tested by the obstacle filter and
the geometry that the conversion helper consumes. -/
structure DetectedObject where
  id : Int
  pose : geometry_msgs.Pose
  velocity : geometry_msgs.Twist
  convex_hull : List geometry_msgs.Point
  candidate_trajectories : LaneArray
deriving DecidableEq

/-- The message type autoware_msgs/DetectedObjectArray. -/
structure DetectedObjectArray where
  objects : List DetectedObject
deriving DecidableEq

end autoware_msgs

namespace PlannerHNS

/-- The class PlannerHNS::GPSPoint as constructed by `GPSPoint(x, y, z, yaw)`. -/
structure GPSPoint where
  x : ℚ
  y : ℚ
  z : ℚ
  a : ℚ
deriving DecidableEq

/-- The class PlannerHNS::WayPoint: position with heading, velocity, accumulated cost (set
when a path is annotated) and the id of the global path it stems from. -/
structure WayPoint where
  pos : GPSPoint
  v : ℚ
  cost : ℚ
  gid : Int
deriving DecidableEq

/-- The class PlannerHNS::DetectedObject: id, current footprint and predicted trajectories. -/
structure DetectedObject where
  id : Int
  center : WayPoint
  contour : List GPSPoint
  predTrajectories : List (List WayPoint)
deriving DecidableEq

/-- The class PlannerHNS::TrajectoryCost with the five fields MainLoop copies out. -/
structure TrajectoryCost where
  index : Int
  cost : ℚ
  closest_obj_distance : ℚ
  closest_obj_velocity : ℚ
  bBlocked : Bool
deriving DecidableEq

/-- The class PlannerHNS::PlanningParams, restricted to the members UpdatePlanningParams
assigns. -/
structure PlanningParams where
  horizontalSafetyDistancel : ℚ
  verticalSafetyDistance : ℚ
  enableSwerving : Bool
  enableFollowing : Bool
  enableTrafficLightBehavior : Bool
  enableStopSignBehavior : Bool
  maxSpeed : ℚ
  minSpeed : ℚ
  microPlanDistance : ℚ
  pathDensity : ℚ
  rollOutDensity : ℚ
  rollOutNumber : Int
  horizonDistance : ℚ
  minFollowingDistance : ℚ
  minDistanceToAvoid : ℚ
  maxDistanceToAvoid : ℚ
  speedProfileFactor : ℚ
  enableLaneChange : Bool
deriving DecidableEq

/-- The class PlannerHNS::CAR_BASIC_INFO, restricted to the members this node touches. -/
structure CAR_BASIC_INFO where
  width : ℚ
  length : ℚ
  wheel_base : ℚ
  turning_radius : ℚ
  max_steer_angle : ℚ
  max_steer_value : ℚ
  max_acceleration : ℚ
  max_deceleration : ℚ
  max_speed_forward : ℚ
  min_speed_forward : ℚ
deriving DecidableEq

/-- The struct timespec filled by UtilityH::GetTickCount. -/
structure timespec where
  tv_sec : Int
  tv_nsec : Int
deriving DecidableEq

/-- The class PlannerHNS::VehicleState: speed, steering angle and time of last update. -/
structure VehicleState where
  speed : ℚ
  steer : ℚ
  tStamp : timespec
deriving DecidableEq

/-- The class PlannerHNS::BehaviorState, restricted to the candidate index the node stores. -/
structure BehaviorState where
  iTrajectory : Int
deriving DecidableEq

/-- The publicly readable members of the cost calculator `m_TrajectoryCostsCalculator`. -/
structure TrajectoryCostsCalculator where
  local_roll_outs_ : List (List WayPoint)
  trajectory_costs_ : List TrajectoryCost
  collision_points_ : List WayPoint
  safety_border_ : List GPSPoint
deriving DecidableEq

/-- The nine arguments of one call of `doOneStep`, in the order of line 292. -/
structure DoOneStepCall where
  rollOuts : List (List WayPoint)
  totalPaths : List WayPoint
  currState : WayPoint
  params : PlanningParams
  carInfo : CAR_BASIC_INFO
  vehicleState : VehicleState
  obj_list : List DetectedObject
  bStaticOnly : Bool
  iCurrentIndex : Int
deriving DecidableEq

end PlannerHNS

/-!
# Utility functions (utility.cpp)

The static functions of `op_utility_ns::UtilityH` and the class
`op_utility_ns::PIDController`. The angle functions are written over an arbitrary linearly
ordered field with a floor function, so that they can be evaluated on rationals and read
on the real numbers; the constant `M_PI` of the C library is a parameter. The types `long`
and `time_t` are signed 64-bit integers and `int` is a signed 32-bit integer: the result
of an integer operation is reduced into the range of its type. The controller is written
over its number type, which is instantiated by the type `Double` of finite numbers,
infinities and NaN.
-/

namespace op_utility_ns

/-- The C library function `trunc` followed by the conversion to an integer: the argument
rounded toward zero. -/
def trunc {α : Type} [LinearOrderedField α] [FloorRing α] (x : α) : ℤ :=
  if 0 ≤ x then ⌊x⌋ else ⌈x⌉

/-- The C library function `fmod` on exact numbers: `x - n * y`, where `n` is the quotient
`x / y` rounded toward zero. -/
def fmod {α : Type} [LinearOrderedField α] [FloorRing α] (x y : α) : α :=
  x - (trunc (x / y) : α) * y

/-- The value a signed 64-bit variable holds after it is assigned the exact result `n`. -/
def wrapLong (n : Int) : Int :=
  (n + 2 ^ 63) % 2 ^ 64 - 2 ^ 63

/-- The value a signed 32-bit variable holds after it is assigned the exact result `n`. -/
def wrapInt (n : Int) : Int :=
  (n + 2 ^ 31) % 2 ^ 32 - 2 ^ 31

/-- UtilityH::getMomentumScaleFactor, utility.cpp lines 32-44. -/
def UtilityH.getMomentumScaleFactor (v : ℚ) : ℚ :=
  if v < 3 / 10 then 6 / 10
  else if v < 64 / 10 then 3 / 10
  else if v < 20 then
    let m : ℚ := (7 / 10) / (36 / 10)
    m * (v - 64 / 10) + 3 / 10
  else 9 / 10

/-- UtilityH::fixNegativeAngle, utility.cpp lines 55-69. -/
def UtilityH.fixNegativeAngle {α : Type} [LinearOrderedField α] [FloorRing α]
    (M_PI : α) (a : α) : α :=
  let angle := if a < -2 * M_PI ∨ a ≥ 2 * M_PI then fmod a (2 * M_PI) else a
  if angle < 0 then 2 * M_PI + angle else angle

/-- UtilityH::splitPositiveAngle, utility.cpp lines 71-86. -/
def UtilityH.splitPositiveAngle {α : Type} [LinearOrderedField α] [FloorRing α]
    (M_PI : α) (a : α) : α :=
  let angle := if a < -2 * M_PI ∨ a ≥ 2 * M_PI then fmod a (2 * M_PI) else a
  if angle ≥ M_PI then angle - 2 * M_PI
  else if angle < -M_PI then angle + 2 * M_PI
  else angle

/-- UtilityH::tsCompare, utility.cpp lines 202-222. The difference of the nanosecond fields
is stored in a `long`; the tolerance is an `int`, negated as an `int`. -/
def UtilityH.tsCompare (time1 time2 : PlannerHNS.timespec) (micro_tolerance : Int) : Int :=
  if time1.tv_sec < time2.tv_sec then -1
  else if time1.tv_sec > time2.tv_sec then 1
  else
    let diff := wrapLong (time1.tv_nsec - time2.tv_nsec)
    if diff < wrapInt (-micro_tolerance) then -1
    else if diff > micro_tolerance then 1
    else 0

/-- UtilityH::getTimeSpec, utility.cpp lines 224-230. The division of C++ rounds toward
zero. -/
def UtilityH.getTimeSpec (srcT : Int) : PlannerHNS.timespec :=
  let tv_sec := wrapLong (Int.tdiv srcT 1000000000)
  { tv_sec := tv_sec
    tv_nsec := wrapLong (srcT - wrapLong (tv_sec * 1000000000)) }

/-- UtilityH::getLongTime, utility.cpp lines 232-237. -/
def UtilityH.getLongTime (srcT : PlannerHNS.timespec) : Int :=
  wrapLong (wrapLong (srcT.tv_sec * 1000000000) + srcT.tv_nsec)

/-- A value of the type `double`, rounding and overflow of finite results aside: a finite
number, one of the two infinities, or NaN. -/
inductive Double where
  | finite (x : ℚ)
  | posInf
  | negInf
  | nan
deriving DecidableEq

/-- The negation of a double. -/
def Double.neg : Double → Double
  | Double.finite x => Double.finite (-x)
  | Double.posInf => Double.negInf
  | Double.negInf => Double.posInf
  | Double.nan => Double.nan

/-- The sum of two doubles: NaN when a term is NaN or the two infinities meet. -/
def Double.add : Double → Double → Double
  | Double.finite x, Double.finite y => Double.finite (x + y)
  | Double.nan, _ => Double.nan
  | _, Double.nan => Double.nan
  | Double.posInf, Double.negInf => Double.nan
  | Double.negInf, Double.posInf => Double.nan
  | Double.posInf, _ => Double.posInf
  | _, Double.posInf => Double.posInf
  | Double.negInf, _ => Double.negInf
  | _, Double.negInf => Double.negInf

/-- The product of an infinity, positive when `positive` is true, and the finite `x`: NaN for
`x = 0`. -/
def Double.scaleInf (positive : Bool) (x : ℚ) : Double :=
  if x = 0 then Double.nan
  else if (0 < x) = (positive = true) then Double.posInf
  else Double.negInf

/-- The product of two doubles: NaN when a factor is NaN or zero meets an infinity. -/
def Double.mul : Double → Double → Double
  | Double.finite x, Double.finite y => Double.finite (x * y)
  | Double.nan, _ => Double.nan
  | _, Double.nan => Double.nan
  | Double.finite x, Double.posInf => Double.scaleInf true x
  | Double.finite x, Double.negInf => Double.scaleInf false x
  | Double.posInf, Double.finite y => Double.scaleInf true y
  | Double.negInf, Double.finite y => Double.scaleInf false y
  | Double.posInf, Double.posInf => Double.posInf
  | Double.posInf, Double.negInf => Double.negInf
  | Double.negInf, Double.posInf => Double.negInf
  | Double.negInf, Double.negInf => Double.posInf

/-- The comparison `a < b` of two doubles: false when one of them is NaN. -/
def Double.blt : Double → Double → Bool
  | Double.finite x, Double.finite y => decide (x < y)
  | Double.finite _, Double.posInf => true
  | Double.negInf, Double.finite _ => true
  | Double.negInf, Double.posInf => true
  | _, _ => false

/-- The comparison `a <= b` of two doubles: false when one of them is NaN. -/
def Double.ble : Double → Double → Bool
  | Double.finite x, Double.finite y => decide (x ≤ y)
  | Double.finite _, Double.posInf => true
  | Double.negInf, Double.finite _ => true
  | Double.negInf, Double.posInf => true
  | Double.posInf, Double.posInf => true
  | Double.negInf, Double.negInf => true
  | _, _ => false

instance : Zero Double := ⟨Double.finite 0⟩

instance : Add Double := ⟨Double.add⟩

instance : Sub Double := ⟨fun a b => Double.add a (Double.neg b)⟩

instance : Mul Double := ⟨Double.mul⟩

instance : LT Double := ⟨fun a b => Double.blt a b = true⟩

instance : LE Double := ⟨fun a b => Double.ble a b = true⟩

instance (a b : Double) : Decidable (a < b) :=
  inferInstanceAs (Decidable (Double.blt a b = true))

instance (a b : Double) : Decidable (a ≤ b) :=
  inferInstanceAs (Decidable (Double.ble a b = true))

instance : AddZeroClass Double where
  zero_add := by
    intro a
    cases a with
    | finite x => exact congrArg Double.finite (zero_add x)
    | posInf => rfl
    | negInf => rfl
    | nan => rfl
  add_zero := by
    intro a
    cases a with
    | finite x => exact congrArg Double.finite (add_zero x)
    | posInf => rfl
    | negInf => rfl
    | nan => rfl

/-- The member variables of the class PIDController. The member variables of type `double`
have the number type `α`: the rationals when doubles are read as real numbers, `Double`
when infinities and NaN are followed as well. -/
structure PIDController (α : Type) where
  kp_ : α
  kp_v_ : α
  ki_ : α
  ki_v_ : α
  kd_ : α
  kd_v_ : α
  pid_lim_ : α
  pid_v_ : α
  upper_limit_ : α
  lower_limit_ : α
  enable_limit_ : Bool
  accum_err_ : α
  prev_err_ : α
  reset_d_ : Bool
  reset_i_ : Bool
deriving DecidableEq

/-- The constructor `PIDController(double kp, double ki, double kd)`, lines 251-261. -/
def PIDController.withGains {α : Type} [Zero α] (kp ki kd : α) : PIDController α :=
  { kp_ := kp, kp_v_ := 0, ki_ := ki, ki_v_ := 0, kd_ := kd, kd_v_ := 0, pid_lim_ := 0,
    pid_v_ := 0, upper_limit_ := 0, lower_limit_ := 0, enable_limit_ := false,
    accum_err_ := 0, prev_err_ := 0, reset_d_ := false, reset_i_ := false }

/-- The default constructor `PIDController()`, lines 239-249: all gains are zero. -/
def PIDController.default {α : Type} [Zero α] : PIDController α :=
  { kp_ := 0, kp_v_ := 0, ki_ := 0, ki_v_ := 0, kd_ := 0, kd_v_ := 0, pid_lim_ := 0,
    pid_v_ := 0, upper_limit_ := 0, lower_limit_ := 0, enable_limit_ := false,
    accum_err_ := 0, prev_err_ := 0, reset_d_ := false, reset_i_ := false }

/-- PIDController::setLimit, lines 263-268. -/
def PIDController.setLimit {α : Type} (c : PIDController α) (upper lower : α) :
    PIDController α :=
  { c with upper_limit_ := upper, lower_limit_ := lower, enable_limit_ := true }

/-- Lines 282-290 of getPID: a pending reset of the integral empties the accumulated error,
a pending reset of the derivative makes the previous error the present one. -/
def PIDController.applyResets {α : Type} [Zero α] (c : PIDController α) (e : α) :
    PIDController α :=
  let c1 := if c.reset_i_ then { c with reset_i_ := false, accum_err_ := 0 } else c
  if c1.reset_d_ then { c1 with reset_d_ := false, prev_err_ := e } else c1

/-- Lines 292-294 of getPID: the error is accumulated unless the limits are enabled and the
stored output `pid_v_` is not strictly between them. -/
def PIDController.accumulate {α : Type} [Add α] [LT α] [∀ a b : α, Decidable (a < b)]
    (c : PIDController α) (e : α) : PIDController α :=
  if c.enable_limit_ = false ∨ (c.pid_v_ < c.upper_limit_ ∧ c.pid_v_ > c.lower_limit_) then
    { c with accum_err_ := c.accum_err_ + e }
  else c

/-- Lines 296-303 of getPID: the three terms, their sum `pid_v_`, and `pid_lim_` set to the
sum. -/
def PIDController.evaluate {α : Type} [Add α] [Sub α] [Mul α] (c : PIDController α)
    (e : α) : PIDController α :=
  let edot := e - c.prev_err_
  let kp_v := c.kp_ * e
  let ki_v := c.ki_ * c.accum_err_
  let kd_v := c.kd_ * edot
  let pid_v := kp_v + ki_v + kd_v
  { c with kp_v_ := kp_v, ki_v_ := ki_v, kd_v_ := kd_v, pid_v_ := pid_v, pid_lim_ := pid_v }

/-- Lines 304-310 of getPID: with the limits enabled, `pid_lim_` is cut to the upper limit
when the sum is above it, else to the lower limit when the sum is below it. -/
def PIDController.limit {α : Type} [LT α] [∀ a b : α, Decidable (a < b)]
    (c : PIDController α) : PIDController α :=
  if c.enable_limit_ then
    if c.pid_v_ > c.upper_limit_ then { c with pid_lim_ := c.upper_limit_ }
    else if c.pid_v_ < c.lower_limit_ then { c with pid_lim_ := c.lower_limit_ }
    else c
  else c

/-- PIDController::getPID(double e), lines 276-315: the controller after the call and the
returned value. -/
def PIDController.getPID {α : Type} [Zero α] [Add α] [Sub α] [Mul α] [LT α]
    [∀ a b : α, Decidable (a < b)] (c : PIDController α) (e : α) : PIDController α × α :=
  let c1 := ((c.applyResets e).accumulate e).evaluate e
  let c2 := c1.limit
  ({ c2 with prev_err_ := e }, c2.pid_lim_)

/-- PIDController::getPID(double curr_value, double target_value), lines 270-274. -/
def PIDController.getPIDFrom {α : Type} [Zero α] [Add α] [Sub α] [Mul α] [LT α]
    [∀ a b : α, Decidable (a < b)] (c : PIDController α) (curr_value target_value : α) :
    PIDController α × α :=
  let e := target_value - curr_value
  c.getPID e

/-- PIDController::resetD, lines 341-344. -/
def PIDController.resetD {α : Type} (c : PIDController α) : PIDController α :=
  { c with reset_d_ := true }

/-- PIDController::resetI, lines 346-349. -/
def PIDController.resetI {α : Type} (c : PIDController α) : PIDController α :=
  { c with reset_i_ := true }

/-- PIDController::init, lines 351-356. -/
def PIDController.init {α : Type} (c : PIDController α) (kp ki kd : α) : PIDController α :=
  { c with kp_ := kp, ki_ := ki, kd_ := kd }

/-- One call of a state-changing member function of a PIDController. -/
inductive PIDCall (α : Type) where
  | setLimit (upper lower : α)
  | getPID (e : α)
  | getPIDFrom (curr_value target_value : α)
  | resetD
  | resetI
  | init (kp ki kd : α)
deriving DecidableEq

/-- The controller after one call. -/
def PIDController.call {α : Type} [Zero α] [Add α] [Sub α] [Mul α] [LT α]
    [∀ a b : α, Decidable (a < b)] (c : PIDController α) : PIDCall α → PIDController α
  | PIDCall.setLimit upper lower => c.setLimit upper lower
  | PIDCall.getPID e => (c.getPID e).1
  | PIDCall.getPIDFrom curr_value target_value => (c.getPIDFrom curr_value target_value).1
  | PIDCall.resetD => c.resetD
  | PIDCall.resetI => c.resetI
  | PIDCall.init kp ki kd => c.init kp ki kd

/-- The controller after a sequence of calls, first call first. -/
def PIDController.calls {α : Type} [Zero α] [Add α] [Sub α] [Mul α] [LT α]
    [∀ a b : α, Decidable (a < b)] (c : PIDController α) :
    List (PIDCall α) → PIDController α
  | [] => c
  | op :: rest => (c.call op).calls rest

/-- Whether a call is a call of setLimit. -/
def PIDCall.isSetLimit {α : Type} : PIDCall α → Bool
  | PIDCall.setLimit _ _ => true
  | _ => false

/-- Whether a call is a call of one of the two getPID functions. -/
def PIDCall.isGetPID {α : Type} : PIDCall α → Bool
  | PIDCall.getPID _ => true
  | PIDCall.getPIDFrom _ _ => true
  | _ => false

end op_utility_ns

/-!
# Vector-map records (DataRW.h)

Every reader class of `DataRW.h` for a vector-map file declares the record type of one row,
assigns the column names of the file to `header_` in its constructor, and defines an
`operator<<` that writes one record to an output stream. The operator is modelled by the
list of its insertions, in the order of the source; a separator is the insertion of the
string `","`.
-/

namespace UtilityHNS

/-- One insertion `os << x` into an output stream, by the type of `x`. -/
inductive Inserted where
  | int (n : Int)
  | double (d : ℚ)
  | char (c : Char)
  | string (s : String)
deriving DecidableEq

/-- The characters one insertion writes. An `int` is written in decimal, a `char` and a
string as they are; how a `double` is written depends on the state of the stream, so its
formatting is a parameter. -/
def Inserted.text (fmt : ℚ → String) : Inserted → List Char
  | Inserted.int n => (toString n).toList
  | Inserted.double d => (fmt d).toList
  | Inserted.char c => [c]
  | Inserted.string s => s.toList

/-- The characters a sequence of insertions writes. -/
def written (fmt : ℚ → String) : List Inserted → List Char
  | [] => []
  | x :: rest => x.text fmt ++ written fmt rest

/-- The number of comma-separated fields of a line: one more than its commas. -/
def fieldCount (line : List Char) : Nat :=
  line.count ',' + 1

namespace AisanPointsFileReader

/-- The struct AisanPoints, DataRW.h lines 190-202. -/
structure AisanPoints where
  PID : Int
  B : ℚ
  L : ℚ
  H : ℚ
  Bx : ℚ
  Ly : ℚ
  Ref : Int
  MCODE1 : Int
  MCODE2 : Int
  MCODE3 : Int

/-- The column names the constructor assigns to `header_`, line 207. -/
def header_ : String :=
  "PID,B,L,H,Bx,Ly,Ref,MCODE1,MCODE2,MCODE3"

/-- The `operator<<` of AisanPoints, lines 220-233: its insertions, in order. -/
def AisanPoints.write (obj : AisanPoints) : List Inserted :=
  [Inserted.int obj.PID, Inserted.string ",", Inserted.double obj.B, Inserted.string ",",
    Inserted.double obj.L, Inserted.string ",", Inserted.double obj.H, Inserted.string ",",
    Inserted.double obj.Bx, Inserted.string ",", Inserted.double obj.Ly, Inserted.string ",",
    Inserted.int obj.Ref, Inserted.string ",", Inserted.int obj.MCODE1, Inserted.string ",",
    Inserted.int obj.MCODE2, Inserted.string ",", Inserted.int obj.MCODE3]

end AisanPointsFileReader

namespace AisanNodesFileReader

/-- The struct AisanNode, DataRW.h lines 244-248. -/
structure AisanNode where
  NID : Int
  PID : Int

/-- The column names the constructor assigns to `header_`, line 253. -/
def header_ : String :=
  "NID,PID"

/-- The `operator<<` of AisanNode, lines 266-271: its insertions, in order. -/
def AisanNode.write (obj : AisanNode) : List Inserted :=
  [Inserted.int obj.NID, Inserted.string ",", Inserted.int obj.PID]

end AisanNodesFileReader

namespace AisanLinesFileReader

/-- The struct AisanLine, DataRW.h lines 282-289. -/
structure AisanLine where
  LID : Int
  BPID : Int
  FPID : Int
  BLID : Int
  FLID : Int

/-- The column names the constructor assigns to `header_`, line 294. -/
def header_ : String :=
  "LID,BPID,FPID,BLID,FLID"

/-- The `operator<<` of AisanLine, lines 306-314: its insertions, in order. -/
def AisanLine.write (obj : AisanLine) : List Inserted :=
  [Inserted.int obj.LID, Inserted.string ",", Inserted.int obj.BPID, Inserted.string ",",
    Inserted.int obj.FPID, Inserted.string ",", Inserted.int obj.BLID, Inserted.string ",",
    Inserted.int obj.FLID]

end AisanLinesFileReader

namespace AisanCenterLinesFileReader

/-- The struct AisanCenterLine, DataRW.h lines 361-373. -/
structure AisanCenterLine where
  DID : Int
  Dist : Int
  PID : Int
  Dir : ℚ
  Apara : ℚ
  r : ℚ
  slope : ℚ
  cant : ℚ
  LW : ℚ
  RW : ℚ

/-- The column names the constructor assigns to `header_`, line 378. -/
def header_ : String :=
  "DID,Dist,PID,Dir,Apara,r,slope,cant,LW,RW"

/-- The `operator<<` of AisanCenterLine, lines 390-403: its insertions, in order. -/
def AisanCenterLine.write (obj : AisanCenterLine) : List Inserted :=
  [Inserted.int obj.DID, Inserted.string ",", Inserted.int obj.Dist, Inserted.string ",",
    Inserted.int obj.PID, Inserted.string ",", Inserted.double obj.Dir, Inserted.string ",",
    Inserted.double obj.Apara, Inserted.string ",", Inserted.double obj.r, Inserted.string ",",
    Inserted.double obj.slope, Inserted.string ",", Inserted.double obj.cant,
    Inserted.string ",", Inserted.double obj.LW, Inserted.string ",", Inserted.double obj.RW]

end AisanCenterLinesFileReader

namespace AisanAreasFileReader

/-- The struct AisanArea, DataRW.h lines 414-419. -/
structure AisanArea where
  AID : Int
  SLID : Int
  ELID : Int

/-- The column names the constructor assigns to `header_`, line 424. -/
def header_ : String :=
  "AID,SLID,ELID"

/-- The `operator<<` of AisanArea, lines 436-442: its insertions, in order. -/
def AisanArea.write (obj : AisanArea) : List Inserted :=
  [Inserted.int obj.AID, Inserted.string ",", Inserted.int obj.SLID, Inserted.string ",",
    Inserted.int obj.ELID]

end AisanAreasFileReader

namespace AisanIntersectionFileReader

/-- The struct AisanIntersection, DataRW.h lines 453-458. -/
structure AisanIntersection where
  ID : Int
  AID : Int
  LinkID : Int

/-- The column names the constructor assigns to `header_`, line 463. -/
def header_ : String :=
  "ID,AID,LinkID"

/-- The `operator<<` of AisanIntersection, lines 475-481: its insertions, in order. -/
def AisanIntersection.write (obj : AisanIntersection) : List Inserted :=
  [Inserted.int obj.ID, Inserted.string ",", Inserted.int obj.AID, Inserted.string ",",
    Inserted.int obj.LinkID]

end AisanIntersectionFileReader

namespace AisanLanesFileReader

/-- The struct AisanLane, DataRW.h lines 492-522. -/
structure AisanLane where
  LnID : Int
  DID : Int
  BLID : Int
  FLID : Int
  BNID : Int
  FNID : Int
  JCT : Int
  BLID2 : Int
  BLID3 : Int
  BLID4 : Int
  FLID2 : Int
  FLID3 : Int
  FLID4 : Int
  ClossID : Int
  Span : ℚ
  LCnt : Int
  Lno : Int
  LaneType : Int
  LimitVel : Int
  RefVel : Int
  RoadSecID : Int
  LaneChgFG : Int
  LinkWAID : Int
  LaneDir : Char
  LeftLaneId : Int
  RightLaneId : Int
  originalMapID : Int

/-- The column names the constructor assigns to `header_`, lines 527-528. -/
def header_ : String :=
  "LnID,DID,BLID,FLID,BNID,FNID,JCT,BLID2,BLID3,BLID4,FLID2,FLID3," ++
    "FLID4,ClossID,Span,LCnt,Lno,LaneType,LimitVel,RefVel,RoadSecID,LaneChgFG,LinkWAID"

/-- The `operator<<` of AisanLane, lines 540-569: its insertions, in order. -/
def AisanLane.write (obj : AisanLane) : List Inserted :=
  [Inserted.int obj.LnID, Inserted.string ",", Inserted.int obj.DID, Inserted.string ",",
    Inserted.int obj.BLID, Inserted.string ",", Inserted.int obj.FLID, Inserted.string ",",
    Inserted.int obj.BNID, Inserted.string ",", Inserted.int obj.FNID, Inserted.string ",",
    Inserted.int obj.JCT, Inserted.string ",", Inserted.int obj.BLID2, Inserted.string ",",
    Inserted.int obj.BLID3, Inserted.string ",", Inserted.int obj.BLID4, Inserted.string ",",
    Inserted.int obj.FLID2, Inserted.string ",", Inserted.int obj.FLID3, Inserted.string ",",
    Inserted.int obj.FLID4, Inserted.string ",", Inserted.int obj.ClossID, Inserted.string ",",
    Inserted.double obj.Span, Inserted.string ",", Inserted.int obj.LCnt, Inserted.string ",",
    Inserted.int obj.Lno, Inserted.string ",", Inserted.int obj.LaneType, Inserted.string ",",
    Inserted.int obj.LimitVel, Inserted.string ",", Inserted.int obj.RefVel,
    Inserted.string ",", Inserted.int obj.RoadSecID, Inserted.string ",",
    Inserted.int obj.LaneChgFG, Inserted.string ",", Inserted.int obj.LinkWAID,
    Inserted.string ",", Inserted.char obj.LaneDir, Inserted.string ",",
    Inserted.int obj.LeftLaneId, Inserted.string ",", Inserted.int obj.RightLaneId]

end AisanLanesFileReader

namespace AisanStopLineFileReader

/-- The struct AisanStopLine, DataRW.h lines 580-587. -/
structure AisanStopLine where
  ID : Int
  LID : Int
  TLID : Int
  SignID : Int
  LinkID : Int

/-- The column names the constructor assigns to `header_`, line 592. -/
def header_ : String :=
  "ID,LID,TLID,SignID,LinkID"

/-- The `operator<<` of AisanStopLine, lines 604-612: its insertions, in order. -/
def AisanStopLine.write (obj : AisanStopLine) : List Inserted :=
  [Inserted.int obj.ID, Inserted.string ",", Inserted.int obj.LID, Inserted.string ",",
    Inserted.int obj.TLID, Inserted.string ",", Inserted.int obj.SignID, Inserted.string ",",
    Inserted.int obj.LinkID]

end AisanStopLineFileReader

namespace AisanRoadSignFileReader

/-- The struct AisanRoadSign, DataRW.h lines 623-630. -/
structure AisanRoadSign where
  ID : Int
  VID : Int
  PLID : Int
  «Type» : Int
  LinkID : Int

/-- The column names the constructor assigns to `header_`, line 635. -/
def header_ : String :=
  "ID,VID,PLID,Type,LinkID"

/-- The `operator<<` of AisanRoadSign, lines 647-655: its insertions, in order. -/
def AisanRoadSign.write (obj : AisanRoadSign) : List Inserted :=
  [Inserted.int obj.ID, Inserted.string ",", Inserted.int obj.VID, Inserted.string ",",
    Inserted.int obj.PLID, Inserted.string ",", Inserted.int obj.«Type», Inserted.string ",",
    Inserted.int obj.LinkID]

end AisanRoadSignFileReader

namespace AisanSignalFileReader

/-- The struct AisanSignal, DataRW.h lines 666-673. -/
structure AisanSignal where
  ID : Int
  VID : Int
  PLID : Int
  «Type» : Int
  LinkID : Int

/-- The column names the constructor assigns to `header_`, line 678. -/
def header_ : String :=
  "ID,VID,PLID,Type,LinkID"

/-- The `operator<<` of AisanSignal, lines 690-698: its insertions, in order. -/
def AisanSignal.write (obj : AisanSignal) : List Inserted :=
  [Inserted.int obj.ID, Inserted.string ",", Inserted.int obj.VID, Inserted.string ",",
    Inserted.int obj.PLID, Inserted.string ",", Inserted.int obj.«Type», Inserted.string ",",
    Inserted.int obj.LinkID]

end AisanSignalFileReader

namespace AisanVectorFileReader

/-- The struct AisanVector, DataRW.h lines 709-715. -/
structure AisanVector where
  VID : Int
  PID : Int
  Hang : ℚ
  Vang : ℚ

/-- The column names the constructor assigns to `header_`, line 720. -/
def header_ : String :=
  "VID,PID,hang,Vang"

/-- The `operator<<` of AisanVector, lines 732-739: its insertions, in order. -/
def AisanVector.write (obj : AisanVector) : List Inserted :=
  [Inserted.int obj.VID, Inserted.string ",", Inserted.int obj.PID, Inserted.string ",",
    Inserted.double obj.Hang, Inserted.string ",", Inserted.double obj.Vang]

end AisanVectorFileReader

namespace AisanCurbFileReader

/-- The struct AisanCurb, DataRW.h lines 750-758. -/
structure AisanCurb where
  ID : Int
  LID : Int
  Height : ℚ
  Width : ℚ
  dir : Int
  LinkID : Int

/-- The column names the constructor assigns to `header_`, line 763. -/
def header_ : String :=
  "ID,LID,Height,Width,dir,LinkID"

/-- The `operator<<` of AisanCurb, lines 775-784: its insertions, in order. -/
def AisanCurb.write (obj : AisanCurb) : List Inserted :=
  [Inserted.int obj.ID, Inserted.string ",", Inserted.int obj.LID, Inserted.string ",",
    Inserted.double obj.Height, Inserted.string ",", Inserted.double obj.Width,
    Inserted.string ",", Inserted.int obj.dir, Inserted.string ",", Inserted.int obj.LinkID]

end AisanCurbFileReader

namespace AisanCrossWalkFileReader

/-- The struct AisanCrossWalk, DataRW.h lines 795-802. -/
structure AisanCrossWalk where
  ID : Int
  AID : Int
  «Type» : Int
  BdID : Int
  LinkID : Int

/-- The column names the constructor assigns to `header_`, line 807. -/
def header_ : String :=
  "ID,AID,Type,BdID,LinkID"

/-- The `operator<<` of AisanCrossWalk, lines 819-827: its insertions, in order. -/
def AisanCrossWalk.write (obj : AisanCrossWalk) : List Inserted :=
  [Inserted.int obj.ID, Inserted.string ",", Inserted.int obj.AID, Inserted.string ",",
    Inserted.int obj.«Type», Inserted.string ",", Inserted.int obj.BdID, Inserted.string ",",
    Inserted.int obj.LinkID]

end AisanCrossWalkFileReader

namespace AisanWayareaFileReader

/-- The struct AisanWayarea, DataRW.h lines 838-843. -/
structure AisanWayarea where
  ID : Int
  AID : Int
  LinkID : Int

/-- The column names the constructor assigns to `header_`, line 848. -/
def header_ : String :=
  "ID,AID,LinkID"

/-- The `operator<<` of AisanWayarea, lines 860-866: its insertions, in order. -/
def AisanWayarea.write (obj : AisanWayarea) : List Inserted :=
  [Inserted.int obj.ID, Inserted.string ",", Inserted.int obj.AID, Inserted.string ",",
    Inserted.int obj.LinkID]

end AisanWayareaFileReader

namespace AisanWhitelinesFileReader

/-- The struct AisanWhiteline, DataRW.h lines 877-885. -/
structure AisanWhiteline where
  ID : Int
  LID : Int
  Width : ℚ
  Color : String
  type : Int
  LinkID : Int

/-- The column names the constructor assigns to `header_`, line 890. -/
def header_ : String :=
  "ID,LID,Width,Color,type,LinkID"

/-- The `operator<<` of AisanWhiteline, lines 903-912: its insertions, in order. -/
def AisanWhiteline.write (obj : AisanWhiteline) : List Inserted :=
  [Inserted.int obj.ID, Inserted.string ",", Inserted.int obj.LID, Inserted.double obj.Width,
    Inserted.string obj.Color, Inserted.int obj.type, Inserted.int obj.LinkID]

end AisanWhitelinesFileReader

namespace AisanGutterFileReader

/-- The struct AisanGutter, DataRW.h lines 923-929. -/
structure AisanGutter where
  ID : Int
  AID : Int
  «Type» : Int
  LinkID : Int

/-- The column names the constructor assigns to `header_`, line 934. -/
def header_ : String :=
  "ID,AID,Type,LinkID"

/-- The `operator<<` of AisanGutter, lines 947-954: its insertions, in order. -/
def AisanGutter.write (obj : AisanGutter) : List Inserted :=
  [Inserted.int obj.ID, Inserted.string ",", Inserted.int obj.AID, Inserted.int obj.«Type»,
    Inserted.int obj.LinkID]

end AisanGutterFileReader

namespace AisanIdxFileReader

/-- The struct AisanIdx, DataRW.h lines 965-970. -/
structure AisanIdx where
  ID : Int
  KIND : String
  fname : String

/-- The column names the constructor assigns to `header_`, line 975. -/
def header_ : String :=
  "ID,KIND,fname"

/-- The `operator<<` of AisanIdx, lines 988-994: its insertions, in order. -/
def AisanIdx.write (obj : AisanIdx) : List Inserted :=
  [Inserted.int obj.ID, Inserted.string ",", Inserted.string obj.KIND,
    Inserted.string obj.fname]

end AisanIdxFileReader

namespace AisanPoleFileReader

/-- The struct AisanPole, DataRW.h lines 1005-1011. -/
structure AisanPole where
  PLID : Int
  VID : Int
  Length : ℚ
  Dim : ℚ

/-- The column names the constructor assigns to `header_`, line 1016. -/
def header_ : String :=
  "PLID,VID,Length,Dim"

/-- The `operator<<` of AisanPole, lines 1029-1036: its insertions, in order. -/
def AisanPole.write (obj : AisanPole) : List Inserted :=
  [Inserted.int obj.PLID, Inserted.string ",", Inserted.int obj.VID,
    Inserted.double obj.Length, Inserted.double obj.Dim]

end AisanPoleFileReader

namespace AisanPoledataFileReader

/-- The struct AisanPoledata, DataRW.h lines 1047-1052. -/
structure AisanPoledata where
  ID : Int
  PLID : Int
  LinkID : Int

/-- The column names the constructor assigns to `header_`, line 1057. -/
def header_ : String :=
  "ID,PLID,LinkID"

/-- The `operator<<` of AisanPoledata, lines 1070-1076: its insertions, in order. -/
def AisanPoledata.write (obj : AisanPoledata) : List Inserted :=
  [Inserted.int obj.ID, Inserted.string ",", Inserted.int obj.PLID, Inserted.int obj.LinkID]

end AisanPoledataFileReader

namespace AisanRoadEdgeFileReader

/-- The struct AisanRoadEdge, DataRW.h lines 1087-1092. -/
structure AisanRoadEdge where
  ID : Int
  LID : Int
  LinkID : Int

/-- The column names the constructor assigns to `header_`, line 1097. -/
def header_ : String :=
  "ID,LID,LinkID"

/-- The `operator<<` of AisanRoadEdge, lines 1110-1116: its insertions, in order. -/
def AisanRoadEdge.write (obj : AisanRoadEdge) : List Inserted :=
  [Inserted.int obj.ID, Inserted.string ",", Inserted.int obj.LID, Inserted.int obj.LinkID]

end AisanRoadEdgeFileReader

namespace AisanSurfacemarkFileReader

/-- The struct AisanSurfacemark, DataRW.h lines 1127-1133. -/
structure AisanSurfacemark where
  ID : Int
  AID : Int
  «Type» : Int
  LinkID : Int

/-- The column names the constructor assigns to `header_`, line 1138. -/
def header_ : String :=
  "ID,AID,Type,LinkID"

/-- The `operator<<` of AisanSurfacemark, lines 1151-1158: its insertions, in order. -/
def AisanSurfacemark.write (obj : AisanSurfacemark) : List Inserted :=
  [Inserted.int obj.ID, Inserted.string ",", Inserted.int obj.AID, Inserted.int obj.«Type»,
    Inserted.int obj.LinkID]

end AisanSurfacemarkFileReader

namespace AisanStreetlightFileReader

/-- The struct AisanStreetlight, DataRW.h lines 1169-1175. -/
structure AisanStreetlight where
  ID : Int
  LID : Int
  PLID : Int
  LinkID : Int

/-- The column names the constructor assigns to `header_`, line 1180. -/
def header_ : String :=
  "ID,LID,PLID,LinkID"

/-- The `operator<<` of AisanStreetlight, lines 1193-1200: its insertions, in order. -/
def AisanStreetlight.write (obj : AisanStreetlight) : List Inserted :=
  [Inserted.int obj.ID, Inserted.string ",", Inserted.int obj.LID, Inserted.int obj.PLID,
    Inserted.int obj.LinkID]

end AisanStreetlightFileReader

namespace AisanUtilitypoleFileReader

/-- The struct AisanUtilitypole, DataRW.h lines 1211-1216. -/
structure AisanUtilitypole where
  ID : Int
  PLID : Int
  LinkID : Int

/-- The column names the constructor assigns to `header_`, line 1221. -/
def header_ : String :=
  "ID,PLID,LinkID"

/-- The `operator<<` of AisanUtilitypole, lines 1234-1240: its insertions, in order. -/
def AisanUtilitypole.write (obj : AisanUtilitypole) : List Inserted :=
  [Inserted.int obj.ID, Inserted.string ",", Inserted.int obj.PLID, Inserted.int obj.LinkID]

end AisanUtilitypoleFileReader

namespace AisanZebrazoneFileReader

/-- The struct AisanZebrazone, DataRW.h lines 1251-1256. -/
structure AisanZebrazone where
  ID : Int
  AID : Int
  LinkID : Int

/-- The column names the constructor assigns to `header_`, line 1261. -/
def header_ : String :=
  "ID,AID,LinkID"

/-- The `operator<<` of AisanZebrazone, lines 1274-1280: its insertions, in order. -/
def AisanZebrazone.write (obj : AisanZebrazone) : List Inserted :=
  [Inserted.int obj.ID, Inserted.string ",", Inserted.int obj.AID, Inserted.int obj.LinkID]

end AisanZebrazoneFileReader

/-- A formatting of doubles that writes the integer part in decimal. -/
def sampleFormat (d : ℚ) : String :=
  toString ⌊d⌋

end UtilityHNS

namespace TrajectoryEvaluatorNS

open PlannerHNS

/-- Everything the translation unit calls but does not define. In/out reference parameters
are passed as an extra argument (the value before the call) and returned as the result. -/
structure External where
  getYaw : geometry_msgs.Quaternion → ℚ
  atan : ℚ → ℚ
  ConvertFromAutowareLaneToLocalLane : autoware_msgs.Lane → List WayPoint → List WayPoint
  ConvertFromLocalLaneToAutowareLane : List WayPoint → autoware_msgs.Lane → autoware_msgs.Lane
  ConvertFromAutowareDetectedObjectToOpenPlannerDetectedObject :
    autoware_msgs.DetectedObject → DetectedObject → DetectedObject
  CompareTrajectories : List WayPoint → List WayPoint → Bool
  FixPathDensity : List WayPoint → ℚ → List WayPoint
  CalcAngleAndCost : List WayPoint → List WayPoint
  SmoothPath : List WayPoint → ℚ → ℚ → ℚ → List WayPoint
  ExtractPartFromPointToDistanceDirectionFast :
    List WayPoint → WayPoint → ℚ → ℚ → List WayPoint → Int → List WayPoint × Int
  doOneStep : TrajectoryCostsCalculator → DoOneStepCall →
    TrajectoryCost × TrajectoryCostsCalculator
  newDetectedObject : DetectedObject
  newLane : autoware_msgs.Lane

/-- The member variables of TrajectoryEvalCore that the callbacks and MainLoop read or
write (publishers, subscribers and rviz marker buffers are not state of the model). -/
structure TrajectoryEvalCore where
  bNewCurrentPos : Bool
  bVehicleStatus : Bool
  bWayGlobalPath : Bool
  bWayGlobalPathToUse : Bool
  bRollOuts : Bool
  bPredictedObjects : Bool
  m_bUseMoveingObjectsPrediction : Bool
  m_CurrentPos : WayPoint
  m_VehicleStatus : VehicleState
  m_CarInfo : CAR_BASIC_INFO
  m_PlanningParams : PlanningParams
  m_CurrentBehavior : BehaviorState
  m_GlobalPaths : List (List WayPoint)
  m_GlobalPathsToUse : List (List WayPoint)
  m_GlobalPathSections : List (List WayPoint)
  m_GeneratedRollOuts : List (List WayPoint)
  m_temp_path : List WayPoint
  t_centerTrajectorySmoothed : List WayPoint
  m_prev_index : List Int
  m_PredictedObjects : List DetectedObject
  m_TrajectoryCostsCalculator : TrajectoryCostsCalculator
  m_ExperimentFolderName : String
deriving DecidableEq

/-- What the constructor does not fix by itself: the parameters loaded by
UpdatePlanningParams and the members it leaves to their default constructors. -/
structure StartUp where
  m_bUseMoveingObjectsPrediction : Bool
  m_PlanningParams : PlanningParams
  m_CarInfo : CAR_BASIC_INFO
  bRollOuts : Bool
  bPredictedObjects : Bool
  m_CurrentPos : WayPoint
  m_VehicleStatus : VehicleState
  m_CurrentBehavior : BehaviorState
  m_ExperimentFolderName : String

/-- The state right after the constructor (lines 24-64): the four flags of lines 26-29 are
false and every container is empty. -/
def TrajectoryEvalCore.initial (c : StartUp) : TrajectoryEvalCore :=
  { bNewCurrentPos := false
    bVehicleStatus := false
    bWayGlobalPath := false
    bWayGlobalPathToUse := false
    bRollOuts := c.bRollOuts
    bPredictedObjects := c.bPredictedObjects
    m_bUseMoveingObjectsPrediction := c.m_bUseMoveingObjectsPrediction
    m_CurrentPos := c.m_CurrentPos
    m_VehicleStatus := c.m_VehicleStatus
    m_CarInfo := c.m_CarInfo
    m_PlanningParams := c.m_PlanningParams
    m_CurrentBehavior := c.m_CurrentBehavior
    m_GlobalPaths := []
    m_GlobalPathsToUse := []
    m_GlobalPathSections := []
    m_GeneratedRollOuts := []
    m_temp_path := []
    t_centerTrajectorySmoothed := []
    m_prev_index := []
    m_PredictedObjects := []
    m_TrajectoryCostsCalculator :=
      { local_roll_outs_ := [], trajectory_costs_ := [], collision_points_ := [],
        safety_border_ := [] }
    m_ExperimentFolderName := c.m_ExperimentFolderName }

/-- Conversion of a double to `int` (truncation toward zero), as in line 262. -/
def doubleToInt (q : ℚ) : Int :=
  if 0 ≤ q then Int.floor q else Int.ceil q

/-- The ROS parameter server as UpdatePlanningParams sees it: for every parameter name
the node asks for, the value that is set, or `none` when the parameter is not set. -/
structure ParameterServer where
  enablePrediction : Option Bool
  horizontalSafetyDistance : Option ℚ
  verticalSafetyDistance : Option ℚ
  enableSwerving : Option Bool
  enableFollowing : Option Bool
  enableTrafficLightBehavior : Option Bool
  enableStopSignBehavior : Option Bool
  maxVelocity : Option ℚ
  minVelocity : Option ℚ
  maxLocalPlanDistance : Option ℚ
  pathDensity : Option ℚ
  rollOutDensity : Option ℚ
  rollOutsNumber : Option Int
  horizonDistance : Option ℚ
  minFollowingDistance : Option ℚ
  minDistanceToAvoid : Option ℚ
  maxDistanceToAvoid : Option ℚ
  speedProfileFactor : Option ℚ
  enableLaneChange : Option Bool
  width : Option ℚ
  length : Option ℚ
  wheelBaseLength : Option ℚ
  turningRadius : Option ℚ
  maxSteerAngle : Option ℚ
  maxAcceleration : Option ℚ
  maxDeceleration : Option ℚ
  experimentName : Option String

/-- The call `_nh.getParam(name, target)`: the target variable receives the value when the
parameter is set and keeps its value otherwise. -/
def getParam {α : Type} (value : Option α) (target : α) : α :=
  match value with
  | some v => v
  | none => target

/-- The folders UpdatePlanningParams asks the logging utility to create (lines 122-124). -/
inductive FolderRequest where
  | CreateLoggingMainFolder
  | CreateExperimentFolder (name : String)
deriving DecidableEq

/-- Lines 76-80: the swerving flag is loaded, and the following flag is forced to true when
swerving is enabled and loaded from the parameter server otherwise. -/
def loadSwervingAndFollowing (nh : ParameterServer) (p : PlanningParams) : PlanningParams :=
  let p1 := { p with enableSwerving := getParam nh.enableSwerving p.enableSwerving }
  if p1.enableSwerving then { p1 with enableFollowing := true }
  else { p1 with enableFollowing := getParam nh.enableFollowing p1.enableFollowing }

/-- Lines 91-95: the roll-out density is loaded, and the number of roll-outs is loaded when
swerving is enabled and set to 0 otherwise. -/
def loadRollOuts (nh : ParameterServer) (p : PlanningParams) : PlanningParams :=
  let p1 := { p with rollOutDensity := getParam nh.rollOutDensity p.rollOutDensity }
  if p1.enableSwerving then
    { p1 with rollOutNumber := getParam nh.rollOutsNumber p1.rollOutNumber }
  else { p1 with rollOutNumber := 0 }

/-- Lines 74-103: the planning parameters after loading, in program order. -/
def loadPlanningParams (nh : ParameterServer) (p : PlanningParams) : PlanningParams :=
  let p1 := { p with
    horizontalSafetyDistancel :=
      getParam nh.horizontalSafetyDistance p.horizontalSafetyDistancel
    verticalSafetyDistance := getParam nh.verticalSafetyDistance p.verticalSafetyDistance }
  let p2 := loadSwervingAndFollowing nh p1
  let p3 := { p2 with
    enableTrafficLightBehavior :=
      getParam nh.enableTrafficLightBehavior p2.enableTrafficLightBehavior
    enableStopSignBehavior := getParam nh.enableStopSignBehavior p2.enableStopSignBehavior
    maxSpeed := getParam nh.maxVelocity p2.maxSpeed
    minSpeed := getParam nh.minVelocity p2.minSpeed
    microPlanDistance := getParam nh.maxLocalPlanDistance p2.microPlanDistance
    pathDensity := getParam nh.pathDensity p2.pathDensity }
  let p4 := loadRollOuts nh p3
  { p4 with
    horizonDistance := getParam nh.horizonDistance p4.horizonDistance
    minFollowingDistance := getParam nh.minFollowingDistance p4.minFollowingDistance
    minDistanceToAvoid := getParam nh.minDistanceToAvoid p4.minDistanceToAvoid
    maxDistanceToAvoid := getParam nh.maxDistanceToAvoid p4.maxDistanceToAvoid
    speedProfileFactor := getParam nh.speedProfileFactor p4.speedProfileFactor
    enableLaneChange := getParam nh.enableLaneChange p4.enableLaneChange }

/-- Lines 105-113: the vehicle description after loading; the speed limits are copied from
the planning parameters loaded before. -/
def loadCarInfo (nh : ParameterServer) (p : PlanningParams) (c : CAR_BASIC_INFO) :
    CAR_BASIC_INFO :=
  { c with
    width := getParam nh.width c.width
    length := getParam nh.length c.length
    wheel_base := getParam nh.wheelBaseLength c.wheel_base
    turning_radius := getParam nh.turningRadius c.turning_radius
    max_steer_angle := getParam nh.maxSteerAngle c.max_steer_angle
    max_acceleration := getParam nh.maxAcceleration c.max_acceleration
    max_deceleration := getParam nh.maxDeceleration c.max_deceleration
    max_speed_forward := p.maxSpeed
    min_speed_forward := p.minSpeed }

/-- Lines 115-120: the experiment folder name after loading, closed by a slash when it is
not empty. -/
def loadExperimentFolderName (nh : ParameterServer) (name : String) : String :=
  let name1 := getParam nh.experimentName name
  if name1.length > 0 then
    if name1.back ≠ '/' then name1.push '/' else name1
  else name1

/-- Lines 70-126: the state after UpdatePlanningParams and the folders it asks for. -/
def TrajectoryEvalCore.UpdatePlanningParams (nh : ParameterServer) (s : TrajectoryEvalCore) :
    TrajectoryEvalCore × List FolderRequest :=
  let params := loadPlanningParams nh s.m_PlanningParams
  let name := loadExperimentFolderName nh s.m_ExperimentFolderName
  ({ s with
     m_bUseMoveingObjectsPrediction :=
       getParam nh.enablePrediction s.m_bUseMoveingObjectsPrediction
     m_PlanningParams := params
     m_CarInfo := loadCarInfo nh params s.m_CarInfo
     m_ExperimentFolderName := name },
    FolderRequest.CreateLoggingMainFolder ::
      (if name.length > 1 then [FolderRequest.CreateExperimentFolder name] else []))

/-- Lines 128-132. -/
def TrajectoryEvalCore.callbackGetCurrentPose (E : External) (s : TrajectoryEvalCore)
    (msg : geometry_msgs.PoseStamped) : TrajectoryEvalCore :=
  { s with
    m_CurrentPos :=
      { s.m_CurrentPos with
        pos := ⟨msg.pose.position.x, msg.pose.position.y, msg.pose.position.z,
                E.getYaw msg.pose.orientation⟩ }
    bNewCurrentPos := true }

/-- Lines 134-142; `now` is the value GetTickCount writes into the time stamp. -/
def TrajectoryEvalCore.callbackGetVehicleStatus (E : External) (s : TrajectoryEvalCore)
    (msg : geometry_msgs.TwistStamped) (now : timespec) : TrajectoryEvalCore :=
  let speed := msg.twist.linear.x
  let steer :=
    if |msg.twist.linear.x| > 25 / 100 then
      E.atan (s.m_CarInfo.wheel_base * msg.twist.angular.z / msg.twist.linear.x)
    else s.m_VehicleStatus.steer
  { s with
    m_VehicleStatus := { speed := speed, steer := steer, tStamp := now }
    m_CurrentPos := { s.m_CurrentPos with v := speed }
    bVehicleStatus := true }

/-- Lines 144-151. -/
def TrajectoryEvalCore.callbackGetCANInfo (s : TrajectoryEvalCore)
    (msg : autoware_can_msgs.CANInfo) (now : timespec) : TrajectoryEvalCore :=
  let speed := msg.speed / (36 / 10)
  { s with
    m_VehicleStatus :=
      { speed := speed
        steer := msg.angle * s.m_CarInfo.max_steer_angle / s.m_CarInfo.max_steer_value
        tStamp := now }
    m_CurrentPos := { s.m_CurrentPos with v := speed }
    bVehicleStatus := true }

/-- Lines 153-161. -/
def TrajectoryEvalCore.callbackGetRobotOdom (E : External) (s : TrajectoryEvalCore)
    (msg : nav_msgs.Odometry) (now : timespec) : TrajectoryEvalCore :=
  let speed := msg.twist.twist.linear.x
  let steer :=
    if |msg.twist.twist.linear.x| > 1 / 10 then
      E.atan (s.m_CarInfo.wheel_base * msg.twist.twist.angular.z / msg.twist.twist.linear.x)
    else s.m_VehicleStatus.steer
  { s with
    m_VehicleStatus := { speed := speed, steer := steer, tStamp := now }
    m_CurrentPos := { s.m_CurrentPos with v := speed }
    bVehicleStatus := true }

/-- The quotient of two doubles as a fallible operation: there is no result when the divisor
is zero. -/
def checkedDiv (a b : ℚ) : Option ℚ :=
  if b = 0 then none else some (a / b)

/-- Lines 134-142 with the division of line 139 made fallible: the callback has no result
when it divides by zero. -/
def TrajectoryEvalCore.callbackGetVehicleStatusChecked (E : External)
    (s : TrajectoryEvalCore) (msg : geometry_msgs.TwistStamped) (now : timespec) :
    Option TrajectoryEvalCore :=
  let speed := msg.twist.linear.x
  let steer : Option ℚ :=
    if |msg.twist.linear.x| > 25 / 100 then
      (checkedDiv (s.m_CarInfo.wheel_base * msg.twist.angular.z) msg.twist.linear.x).map
        E.atan
    else some s.m_VehicleStatus.steer
  steer.map fun angle =>
    { s with
      m_VehicleStatus := { speed := speed, steer := angle, tStamp := now }
      m_CurrentPos := { s.m_CurrentPos with v := speed }
      bVehicleStatus := true }

/-- Lines 153-161 with the division of line 158 made fallible. -/
def TrajectoryEvalCore.callbackGetRobotOdomChecked (E : External) (s : TrajectoryEvalCore)
    (msg : nav_msgs.Odometry) (now : timespec) : Option TrajectoryEvalCore :=
  let speed := msg.twist.twist.linear.x
  let steer : Option ℚ :=
    if |msg.twist.twist.linear.x| > 1 / 10 then
      (checkedDiv (s.m_CarInfo.wheel_base * msg.twist.twist.angular.z)
        msg.twist.twist.linear.x).map E.atan
    else some s.m_VehicleStatus.steer
  steer.map fun angle =>
    { s with
      m_VehicleStatus := { speed := speed, steer := angle, tStamp := now }
      m_CurrentPos := { s.m_CurrentPos with v := speed }
      bVehicleStatus := true }

/-- Lines 260-263. -/
def TrajectoryEvalCore.callbackGetBehaviorState (s : TrajectoryEvalCore)
    (msg : geometry_msgs.TwistStamped) : TrajectoryEvalCore :=
  { s with m_CurrentBehavior := { iTrajectory := doubleToInt msg.twist.angular.z } }

/-- The loop of lines 172-182, started at loop index `i` with the current contents of
`m_temp_path`, `m_GlobalPaths` and `bOldGlobalPath`. The unguarded `m_GlobalPaths.at(i)` of
line 180 is a lookup in the vector as it is after the `push_back` of line 176. -/
def convertGlobalPathsLoop (E : External) :
    List autoware_msgs.Lane → Nat → List WayPoint → List (List WayPoint) → Bool →
      Option (List WayPoint × List (List WayPoint) × Bool)
  | [], _, tmp, paths, bOld => some (tmp, paths, bOld)
  | lane :: rest, i, tmp, paths, bOld =>
    let tmp1 := E.ConvertFromAutowareLaneToLocalLane lane tmp
    let paths1 := paths ++ [tmp1]
    if bOld then
      match paths1.get? i with
      | none => none
      | some held =>
        convertGlobalPathsLoop E rest (i + 1) tmp1 paths1 (E.CompareTrajectories tmp1 held)
    else convertGlobalPathsLoop E rest (i + 1) tmp1 paths1 bOld

/-- The body of the loop of lines 188-197 for one path, without the `push_back` of line 196:
resampling, annotation, three smoothing passes, annotation. -/
def preprocessGlobalPath (E : External) (pathDensity : ℚ) (p : List WayPoint) :
    List WayPoint :=
  let p1 := E.FixPathDensity p pathDensity
  let p2 := E.CalcAngleAndCost p1
  let p3 := E.SmoothPath p2 (48 / 100) (2 / 10) (5 / 100)
  let p4 := E.SmoothPath p3 (48 / 100) (2 / 10) (5 / 100)
  let p5 := E.SmoothPath p4 (48 / 100) (2 / 10) (5 / 100)
  E.CalcAngleAndCost p5

/-- The loop of lines 188-197 over the paths not yet visited: each path is preprocessed in
place and one `0` is appended to `m_prev_index` per path. -/
def preprocessGlobalPathsLoop (E : External) (pathDensity : ℚ) :
    List (List WayPoint) → List Int → List (List WayPoint) × List Int
  | [], prev => ([], prev)
  | p :: rest, prev =>
    let r := preprocessGlobalPathsLoop E pathDensity rest (prev ++ [0])
    (preprocessGlobalPath E pathDensity p :: r.1, r.2)

/-- Lines 163-205. Console output is not modelled. -/
def TrajectoryEvalCore.callbackGetGlobalPlannerPath (E : External) (s : TrajectoryEvalCore)
    (msg : autoware_msgs.LaneArray) : Option TrajectoryEvalCore :=
  if msg.lanes.length > 0 then
    let bOldGlobalPath := decide (s.m_GlobalPaths.length = msg.lanes.length)
    match convertGlobalPathsLoop E msg.lanes 0 s.m_temp_path [] bOldGlobalPath with
    | none => none
    | some (tmp, paths, bOld) =>
      if !bOld then
        let r := preprocessGlobalPathsLoop E s.m_PlanningParams.pathDensity paths s.m_prev_index
        some { s with
               m_temp_path := tmp
               bWayGlobalPath := true
               m_GlobalPaths := r.1
               m_prev_index := r.2 }
      else
        some { s with m_temp_path := tmp, m_GlobalPaths := [] }
  else some s

/-- The loop of lines 214-221, started with the current contents of `m_GeneratedRollOuts`
and `globalPathId_roll_outs`; `path` is a fresh local vector in every iteration. -/
def convertRollOutsLoop (E : External) :
    List autoware_msgs.Lane → List (List WayPoint) → Int → List (List WayPoint) × Int
  | [], rollOuts, id => (rollOuts, id)
  | lane :: rest, rollOuts, id =>
    let path := E.ConvertFromAutowareLaneToLocalLane lane []
    let id1 := match path with
      | [] => id
      | p :: _ => p.gid
    convertRollOutsLoop E rest (rollOuts ++ [path]) id1

/-- Lines 207-238. Console output is not modelled. -/
def TrajectoryEvalCore.callbackGetLocalPlannerPath (E : External) (s : TrajectoryEvalCore)
    (msg : autoware_msgs.LaneArray) : TrajectoryEvalCore :=
  if msg.lanes.length > 0 then
    let r := convertRollOutsLoop E msg.lanes [] (-1)
    let s1 := { s with m_GeneratedRollOuts := r.1 }
    let globalPathId_roll_outs := r.2
    let s2 :=
      if s1.bWayGlobalPath then
        match s1.m_GlobalPaths with
        | (p :: _) :: _ =>
          let globalPathId := p.gid
          if globalPathId_roll_outs = globalPathId then
            { s1 with bWayGlobalPath := false, m_GlobalPathsToUse := s1.m_GlobalPaths }
          else s1
        | _ => s1
      else s1
    { s2 with bRollOuts := true }
  else s

/-- The loop of lines 246-257, started with the current contents of the local `obj` and of
`m_PredictedObjects`. -/
def predictedObjectsLoop (E : External) :
    List autoware_msgs.DetectedObject → DetectedObject → List DetectedObject →
      List DetectedObject
  | [], _, acc => acc
  | m :: rest, obj, acc =>
    if m.id > 0 then
      let obj1 := E.ConvertFromAutowareDetectedObjectToOpenPlannerDetectedObject m obj
      predictedObjectsLoop E rest obj1 (acc ++ [obj1])
    else predictedObjectsLoop E rest obj acc

/-- Lines 240-258. -/
def TrajectoryEvalCore.callbackGetPredictedObjects (E : External) (s : TrajectoryEvalCore)
    (msg : autoware_msgs.DetectedObjectArray) : TrajectoryEvalCore :=
  { s with
    bPredictedObjects := true
    m_PredictedObjects := predictedObjectsLoop E msg.objects E.newDetectedObject [] }

/-- What one iteration of MainLoop does to the outside, in program order. The three rviz
publications carry markers built by visualization helpers and are recorded without
payload. -/
inductive Effect where
  | doOneStep (call : DoOneStepCall)
  | pub_TrajectoryCost (l : autoware_msgs.Lane)
  | pub_LocalWeightedTrajectories (local_lanes : autoware_msgs.LaneArray)
  | pub_LocalWeightedTrajectoriesRviz
  | pub_CollisionPointsRviz
  | pub_SafetyBorderRviz
  | subscribe_lane_waypoints_array
deriving DecidableEq

/-- The loop of lines 280-288, started at loop index `i` over the active paths not yet
visited, with the current `m_prev_index`, `m_GlobalPathSections` and
`t_centerTrajectorySmoothed`. `none` is the `std::out_of_range` of `m_prev_index.at(i)`. -/
def extractSectionsLoop (E : External) (pose : WayPoint) (params : PlanningParams) :
    List (List WayPoint) → Nat → List Int → List (List WayPoint) → List WayPoint →
      Option (List Int × List (List WayPoint) × List WayPoint)
  | [], _, prev, sections, t => some (prev, sections, t)
  | path :: rest, i, prev, sections, _ =>
    match prev.get? i with
    | none => none
    | some hint =>
      let r := E.ExtractPartFromPointToDistanceDirectionFast path pose
        params.horizonDistance params.pathDensity [] hint
      let prev1 := prev.set i r.2
      let prev2 := if r.2 > 0 then prev1.set i (r.2 - 1) else prev1
      extractSectionsLoop E pose params rest (i + 1) prev2 (sections ++ [r.1]) r.1

/-- The loop of lines 305-315, started at loop index `i` over the evaluated roll-outs not
yet visited. `none` is the `std::out_of_range` of `trajectory_costs_.at(i)`. -/
def localLanesLoop (E : External) (costs : List TrajectoryCost) :
    List (List WayPoint) → Nat → List autoware_msgs.Lane → Option (List autoware_msgs.Lane)
  | [], _, lanes => some lanes
  | ro :: rest, i, lanes =>
    match costs.get? i with
    | none => none
    | some tc =>
      let lane := E.ConvertFromLocalLaneToAutowareLane ro E.newLane
      let lane1 :=
        { lane with
          closest_object_distance := tc.closest_obj_distance
          closest_object_velocity := tc.closest_obj_velocity
          cost := tc.cost
          is_blocked := tc.bBlocked
          lane_index := (i : Int) }
      localLanesLoop E costs rest (i + 1) (lanes ++ [lane1])

/-- The arguments of the call of `doOneStep` in line 292, for the first section. -/
def TrajectoryEvalCore.doOneStepArguments (s : TrajectoryEvalCore)
    (section0 : List WayPoint) : DoOneStepCall :=
  { rollOuts := s.m_GeneratedRollOuts
    totalPaths := section0
    currState := s.m_CurrentPos
    params := s.m_PlanningParams
    carInfo := s.m_CarInfo
    vehicleState := s.m_VehicleStatus
    obj_list := s.m_PredictedObjects
    bStaticOnly := !s.m_bUseMoveingObjectsPrediction
    iCurrentIndex := s.m_CurrentBehavior.iTrajectory }

/-- Lines 295-300: the selected-trajectory cost record built from the result `tc`. -/
def selectedTrajectoryLane (E : External) (tc : TrajectoryCost) : autoware_msgs.Lane :=
  { E.newLane with
    closest_object_distance := tc.closest_obj_distance
    closest_object_velocity := tc.closest_obj_velocity
    cost := tc.cost
    is_blocked := tc.bBlocked
    lane_index := tc.index }

/-- Lines 290-302: the evaluation step, run when at least one section was extracted. -/
def evaluateSections (E : External) (s : TrajectoryEvalCore) :
    TrajectoryEvalCore × List Effect :=
  match s.m_GlobalPathSections with
  | [] => (s, [])
  | section0 :: _ =>
    let r := E.doOneStep s.m_TrajectoryCostsCalculator (s.doOneStepArguments section0)
    ({ s with m_TrajectoryCostsCalculator := r.2 },
      [Effect.doOneStep (s.doOneStepArguments section0),
        Effect.pub_TrajectoryCost (selectedTrajectoryLane E r.1)])

/-- Lines 319-332: the three visualization publications. -/
def rvizEffects (calculator : TrajectoryCostsCalculator) : List Effect :=
  if calculator.trajectory_costs_.length > 0 then
    [Effect.pub_LocalWeightedTrajectoriesRviz, Effect.pub_CollisionPointsRviz,
      Effect.pub_SafetyBorderRviz]
  else []

/-- One iteration of the loop of MainLoop after `ros::spinOnce()` (lines 274-336): the new
state and the effects performed, or `none` when a `std::out_of_range` escapes. -/
def TrajectoryEvalCore.MainLoop (E : External) (s : TrajectoryEvalCore) :
    Option (TrajectoryEvalCore × List Effect) :=
  if s.bNewCurrentPos && decide (s.m_GlobalPaths.length > 0) then
    match extractSectionsLoop E s.m_CurrentPos s.m_PlanningParams s.m_GlobalPathsToUse 0
        s.m_prev_index [] s.t_centerTrajectorySmoothed with
    | none => none
    | some (prev, sections, t) =>
      let s1 := { s with
                  m_GlobalPathSections := sections
                  m_prev_index := prev
                  t_centerTrajectorySmoothed := t }
      let r := evaluateSections E s1
      let calculator := r.1.m_TrajectoryCostsCalculator
      match localLanesLoop E calculator.trajectory_costs_ calculator.local_roll_outs_ 0 [] with
      | none => none
      | some lanes =>
        some (r.1, r.2 ++ [Effect.pub_LocalWeightedTrajectories { lanes := lanes }]
          ++ rvizEffects calculator)
  else some (s, [Effect.subscribe_lane_waypoints_array])

/-- What can happen between two points of the node's execution: the arrival of a message
on one of the subscribed topics (dispatched by `ros::spinOnce()`), or one iteration body
of MainLoop. -/
inductive Event where
  | current_pose (msg : geometry_msgs.PoseStamped)
  | current_velocity (msg : geometry_msgs.TwistStamped) (now : timespec)
  | can_info (msg : autoware_can_msgs.CANInfo) (now : timespec)
  | robot_odom (msg : nav_msgs.Odometry) (now : timespec)
  | lane_waypoints_array (msg : autoware_msgs.LaneArray)
  | local_trajectories (msg : autoware_msgs.LaneArray)
  | predicted_objects (msg : autoware_msgs.DetectedObjectArray)
  | current_behavior (msg : geometry_msgs.TwistStamped)
  | tick
deriving DecidableEq

/-- The node's reaction to one event. -/
def TrajectoryEvalCore.step (E : External) (s : TrajectoryEvalCore) :
    Event → Option (TrajectoryEvalCore × List Effect)
  | Event.current_pose msg => some (s.callbackGetCurrentPose E msg, [])
  | Event.current_velocity msg now => some (s.callbackGetVehicleStatus E msg now, [])
  | Event.can_info msg now => some (s.callbackGetCANInfo msg now, [])
  | Event.robot_odom msg now => some (s.callbackGetRobotOdom E msg now, [])
  | Event.lane_waypoints_array msg =>
    (s.callbackGetGlobalPlannerPath E msg).map (fun s1 => (s1, []))
  | Event.local_trajectories msg => some (s.callbackGetLocalPlannerPath E msg, [])
  | Event.predicted_objects msg => some (s.callbackGetPredictedObjects E msg, [])
  | Event.current_behavior msg => some (s.callbackGetBehaviorState msg, [])
  | Event.tick => s.MainLoop E

/-- The node's reaction to a sequence of events: final state and all effects in order. -/
def TrajectoryEvalCore.run (E : External) :
    TrajectoryEvalCore → List Event → Option (TrajectoryEvalCore × List Effect)
  | s, [] => some (s, [])
  | s, e :: es =>
    match s.step E e with
    | none => none
    | some (s1, out1) =>
      match TrajectoryEvalCore.run E s1 es with
      | none => none
      | some (s2, out2) => some (s2, out1 ++ out2)

/-! ### Vocabulary of the synchronizer claims -/

/-- The local paths a lane array converts to in callbackGetGlobalPlannerPath: lane `i` is
converted into `m_temp_path`, whose previous contents are those left by lane `i - 1`. -/
def convertLanes (E : External) : List autoware_msgs.Lane → List WayPoint →
    List (List WayPoint)
  | [], _ => []
  | lane :: rest, tmp =>
    E.ConvertFromAutowareLaneToLocalLane lane tmp ::
      convertLanes E rest (E.ConvertFromAutowareLaneToLocalLane lane tmp)

/-- The contents of `m_temp_path` after a lane array has been converted lane by lane. -/
def finalTempPath (E : External) : List autoware_msgs.Lane → List WayPoint → List WayPoint
  | [], tmp => tmp
  | lane :: rest, tmp => finalTempPath E rest (E.ConvertFromAutowareLaneToLocalLane lane tmp)

/-- The reference path set as it is stored when a message is accepted as new: every
converted path resampled, annotated and smoothed. -/
def preprocessedSet (E : External) (pathDensity : ℚ) (tmp : List WayPoint)
    (msg : autoware_msgs.LaneArray) : List (List WayPoint) :=
  (convertLanes E msg.lanes tmp).map (preprocessGlobalPath E pathDensity)

/-- The path id carried by the first point of the first path of a path set, if there is
one (`m_GlobalPaths.at(0).at(0).gid` under the guard of line 223). -/
def firstPointGid : List (List WayPoint) → Option Int
  | (p :: _) :: _ => some p.gid
  | _ => none

/-- The roll-outs a batch converts to in callbackGetLocalPlannerPath. -/
def convertedRollOuts (E : External) (msg : autoware_msgs.LaneArray) :
    List (List WayPoint) :=
  msg.lanes.map (fun lane => E.ConvertFromAutowareLaneToLocalLane lane [])

/-- The tag of a roll-out batch in the words of the specification: the path id of the first
point of its last non-empty roll-out, and -1 when every roll-out is empty. -/
def rollOutsTag (E : External) (msg : autoware_msgs.LaneArray) : Int :=
  (((convertedRollOuts E msg).filterMap
    (fun path => path.head?.map (fun p => p.gid))).getLast?).getD (-1)

/-- The obstacles a list of obstacle messages converts to, in order: every message is
converted into the one local object `obj` of callbackGetPredictedObjects, whose previous
contents are those left by the message converted before. -/
def convertObjects (E : External) :
    List autoware_msgs.DetectedObject → DetectedObject → List DetectedObject
  | [], _ => []
  | m :: rest, obj =>
    E.ConvertFromAutowareDetectedObjectToOpenPlannerDetectedObject m obj ::
      convertObjects E rest (E.ConvertFromAutowareDetectedObjectToOpenPlannerDetectedObject m obj)

/-- The constructed state of the cost calculator: nothing evaluated yet. -/
def newTrajectoryCostsCalculator : TrajectoryCostsCalculator :=
  { local_roll_outs_ := [], trajectory_costs_ := [], collision_points_ := [],
    safety_border_ := [] }

/-! ### Vocabulary of the claims on one iteration of MainLoop -/

/-- The call of lines 283-284 for one active path and its index hint: the extracted window
and the returned index. -/
def extraction (E : External) (pose : WayPoint) (params : PlanningParams)
    (path : List WayPoint) (hint : Int) : List WayPoint × Int :=
  E.ExtractPartFromPointToDistanceDirectionFast path pose params.horizonDistance
    params.pathDensity [] hint

/-- The hint that lines 283-286 leave in `m_prev_index.at(i)` when the extraction returns
`k`: it is decremented when it is positive. -/
def storedHint (k : Int) : Int :=
  if k > 0 then k - 1 else k

/-- The windows extracted for a list of paths, each with its own hint. -/
def extractedWindows (E : External) (pose : WayPoint) (params : PlanningParams) :
    List (List WayPoint) → List Int → List (List WayPoint)
  | path :: paths, hint :: hints =>
    (extraction E pose params path hint).1 :: extractedWindows E pose params paths hints
  | _, _ => []

/-- The index hints after the extraction for a list of paths: one stored hint per path, the
hints beyond the number of paths as they were. -/
def updatedHints (E : External) (pose : WayPoint) (params : PlanningParams) :
    List (List WayPoint) → List Int → List Int
  | path :: paths, hint :: hints =>
    storedHint (extraction E pose params path hint).2 ::
      updatedHints E pose params paths hints
  | _, hints => hints

/-- The state after the loop of lines 278-288 of an iteration that passed the gate. -/
def TrajectoryEvalCore.afterExtraction (E : External) (s : TrajectoryEvalCore) :
    TrajectoryEvalCore :=
  { s with
    m_GlobalPathSections :=
      extractedWindows E s.m_CurrentPos s.m_PlanningParams s.m_GlobalPathsToUse s.m_prev_index
    m_prev_index :=
      updatedHints E s.m_CurrentPos s.m_PlanningParams s.m_GlobalPathsToUse s.m_prev_index
    t_centerTrajectorySmoothed :=
      ((extractedWindows E s.m_CurrentPos s.m_PlanningParams s.m_GlobalPathsToUse
        s.m_prev_index).getLast?).getD s.t_centerTrajectorySmoothed }

/-- The entry of the per-candidate list for roll-out `i` (lines 307-313). -/
def candidateLane (E : External) (rollOut : List WayPoint) (tc : TrajectoryCost) (i : Nat) :
    autoware_msgs.Lane :=
  { E.ConvertFromLocalLaneToAutowareLane rollOut E.newLane with
    closest_object_distance := tc.closest_obj_distance
    closest_object_velocity := tc.closest_obj_velocity
    cost := tc.cost
    is_blocked := tc.bBlocked
    lane_index := (i : Int) }

/-- The per-candidate list for the roll-outs and costs from position `i` on. -/
def candidateLanes (E : External) :
    List (List WayPoint) → List TrajectoryCost → Nat → List autoware_msgs.Lane
  | rollOut :: rollOuts, tc :: costs, i =>
    candidateLane E rollOut tc i :: candidateLanes E rollOuts costs (i + 1)
  | _, _, _ => []

/-- The calculator holds a cost for every roll-out it holds. -/
def PairedCalculator (calculator : TrajectoryCostsCalculator) : Prop :=
  calculator.local_roll_outs_.length ≤ calculator.trajectory_costs_.length

/-- Assumption on the missing cost calculator: after `doOneStep` it holds a cost for every
roll-out it holds ("one TrajectoryCost per candidate"). -/
def External.PairedReports (E : External) : Prop :=
  ∀ calculator call, PairedCalculator (E.doOneStep calculator call).2

/-! ### The selector of section 4.5 of the specification

`doOneStep` is defined outside the translation unit. The definitions below follow the
words of the specification; the per-candidate cost and closest-obstacle measurements
(steps 1 and 3) are inputs. -/

/-- Modelled from the spec: what the cost evaluator `doOneStep`, which is missing from the
sources, has computed for one candidate after steps 1 and 3 of section 4.5: the combined
cost and the distance and relative velocity of the closest obstacle. -/
structure CandidateScore where
  cost : ℚ
  closest_obj_distance : ℚ
  closest_obj_velocity : ℚ
deriving DecidableEq

/-- Modelled from the spec: step 2 of section 4.5 for the missing `doOneStep`,
`blocked(r) = closestDistance(r) < minDistanceToAvoid`. -/
def specBlocked (minDistanceToAvoid : ℚ) (c : CandidateScore) : Bool :=
  decide (c.closest_obj_distance < minDistanceToAvoid)

/-- Modelled from the spec: the per-candidate report of the missing `doOneStep`, "one
TrajectoryCost per candidate", for the candidates from position `i` on. -/
def specTrajectoryCosts (minDistanceToAvoid : ℚ) :
    List CandidateScore → Nat → List TrajectoryCost
  | [], _ => []
  | c :: rest, i =>
    { index := (i : Int), cost := c.cost, closest_obj_distance := c.closest_obj_distance,
      closest_obj_velocity := c.closest_obj_velocity,
      bBlocked := specBlocked minDistanceToAvoid c } ::
      specTrajectoryCosts minDistanceToAvoid rest (i + 1)

/-- Modelled from the spec: the least cost among a first candidate and the ones after it
(the value of the `argmin` of step 4 of the missing `doOneStep`). -/
def leastCost : TrajectoryCost → List TrajectoryCost → ℚ
  | c, [] => c.cost
  | c, d :: rest => min c.cost (leastCost d rest)

/-- Modelled from the spec: the tie-break of section 4.5 for the missing `doOneStep`, "prefer
the one with the smaller index-distance from the previous tick's selection"; of two
candidates at the same index distance the earlier one is kept. -/
def closestToPrevious (prev : Int) : TrajectoryCost → List TrajectoryCost → TrajectoryCost
  | c, [] => c
  | c, d :: rest =>
    if |c.index - prev| ≤ |(closestToPrevious prev d rest).index - prev| then c
    else closestToPrevious prev d rest

/-- Modelled from the spec: `argmin` with the tie-break of section 4.5 for the missing
`doOneStep`. The candidates whose cost equals the least cost within the tolerance are tied,
and the tie-break chooses among them. The result is `none` for an empty list (and for a
negative tolerance). -/
def specArgmin (tolerance : ℚ) (prev : Int) : List TrajectoryCost → Option TrajectoryCost
  | [] => none
  | c :: rest =>
    match (c :: rest).filter (fun r => decide (r.cost ≤ leastCost c rest + tolerance)) with
    | [] => none
    | t :: ts => some (closestToPrevious prev t ts)

/-- Modelled from the spec: step 4 of section 4.5 for the missing `doOneStep`,
"`select(costs)` = argmin over non-blocked candidates; if all blocked, return the least-bad
blocked candidate and set a global blocked flag". -/
def specSelect (tolerance : ℚ) (prev : Int) (costs : List TrajectoryCost) :
    Option TrajectoryCost :=
  match costs.filter (fun r => !r.bBlocked) with
  | [] => (specArgmin tolerance prev costs).map (fun r => { r with bBlocked := true })
  | r :: rest => specArgmin tolerance prev (r :: rest)

/-! ### The resampling of section 4.1 of the specification

`PlanningHelpers::FixPathDensity` is defined outside the translation unit. The definitions
below follow the words of the specification. Arc length is measured along the path, from
the positions of its points, with the distance helper of the geometry primitives as a
parameter; no field of the points is read for it, because the node resamples a path (line
190) before it annotates it (line 191). -/

/-- Field-by-field conversion of a message waypoint. -/
def sampleWayPoint (w : autoware_msgs.Waypoint) : WayPoint :=
  { pos := ⟨w.pose.position.x, w.pose.position.y, w.pose.position.z, 0⟩
    v := w.v, cost := 0, gid := w.gid }

/-- The number of points of a path, counted from position `hint`, that lie behind the
vehicle along the x axis, added to `hint`. -/
def sampleClosestIndex (path : List WayPoint) (pose : WayPoint) (hint : Nat) : Nat :=
  hint + ((path.drop hint).takeWhile (fun p => decide (p.pos.x < pose.pos.x))).length

/-- Modelled from the spec: the path equality test of section 4.2 is missing from the
sources (PlanningHelpers::CompareTrajectories); here it is "same length and pointwise
equal", with tolerance zero. -/
def sampleCompareTrajectories (p q : List WayPoint) : Bool :=
  decide (p = q)

/-- A concrete `External`: conversions copy the fields, resampling, annotation and
smoothing return the path as it is, horizon extraction returns the points from the closest
index on, and the calculator reports one zero cost per roll-out and selects roll-out 0. -/
def sampleExternal : External :=
  { getYaw := fun q => q.z
    atan := fun x => x
    ConvertFromAutowareLaneToLocalLane := fun lane _ => lane.waypoints.map sampleWayPoint
    ConvertFromLocalLaneToAutowareLane := fun path lane =>
      { lane with
        waypoints := path.map (fun p =>
          { gid := p.gid, pose := ⟨⟨p.pos.x, p.pos.y, p.pos.z⟩, ⟨0, 0, 0, 1⟩⟩, v := p.v }) }
    ConvertFromAutowareDetectedObjectToOpenPlannerDetectedObject := fun m _ =>
      { id := m.id
        center := { pos := ⟨m.pose.position.x, m.pose.position.y, m.pose.position.z, 0⟩,
                    v := m.velocity.linear.x, cost := 0, gid := 0 }
        contour := m.convex_hull.map (fun q => ⟨q.x, q.y, q.z, 0⟩)
        predTrajectories := m.candidate_trajectories.lanes.map
          (fun lane => lane.waypoints.map sampleWayPoint) }
    CompareTrajectories := sampleCompareTrajectories
    FixPathDensity := fun p _ => p
    CalcAngleAndCost := fun p => p
    SmoothPath := fun p _ _ _ => p
    ExtractPartFromPointToDistanceDirectionFast := fun path pose _ _ _ hint =>
      (path.drop (sampleClosestIndex path pose hint.toNat),
        (sampleClosestIndex path pose hint.toNat : Int))
    doOneStep := fun calculator call =>
      ({ index := 0, cost := 0, closest_obj_distance := 0, closest_obj_velocity := 0,
         bBlocked := false },
       { calculator with
         local_roll_outs_ := call.rollOuts
         trajectory_costs_ := call.rollOuts.map (fun _ =>
           { index := 0, cost := 0, closest_obj_distance := 0, closest_obj_velocity := 0,
             bBlocked := false }) })
    newDetectedObject :=
      { id := 0, center := { pos := ⟨0, 0, 0, 0⟩, v := 0, cost := 0, gid := 0 },
        contour := [], predTrajectories := [] }
    newLane :=
      { waypoints := [], lane_index := 0, cost := 0, closest_object_distance := 0,
        closest_object_velocity := 0, is_blocked := false } }

/-- Start-up values of the samples: all parameters zero except a path density of 1 and a
horizon of 100. -/
def sampleStartUp : StartUp :=
  { m_bUseMoveingObjectsPrediction := false
    m_PlanningParams :=
      { horizontalSafetyDistancel := 0, verticalSafetyDistance := 0, enableSwerving := false,
        enableFollowing := false, enableTrafficLightBehavior := false,
        enableStopSignBehavior := false, maxSpeed := 0, minSpeed := 0,
        microPlanDistance := 0, pathDensity := 1, rollOutDensity := 0,
        rollOutNumber := 0, horizonDistance := 100, minFollowingDistance := 0,
        minDistanceToAvoid := 0, maxDistanceToAvoid := 0, speedProfileFactor := 0,
        enableLaneChange := false }
    m_CarInfo :=
      { width := 0, length := 0, wheel_base := 0, turning_radius := 0, max_steer_angle := 0,
        max_steer_value := 0, max_acceleration := 0, max_deceleration := 0,
        max_speed_forward := 0, min_speed_forward := 0 }
    bRollOuts := false
    bPredictedObjects := false
    m_CurrentPos := { pos := ⟨0, 0, 0, 0⟩, v := 0, cost := 0, gid := 0 }
    m_VehicleStatus := { speed := 0, steer := 0, tStamp := ⟨0, 0⟩ }
    m_CurrentBehavior := { iTrajectory := 0 }
    m_ExperimentFolderName := "" }

/-- A message waypoint at `(x, y, 0)` with path id `gid`. -/
def sampleWaypoint (gid : Int) (x y : ℚ) : autoware_msgs.Waypoint :=
  { gid := gid, pose := ⟨⟨x, y, 0⟩, ⟨0, 0, 0, 1⟩⟩, v := 1 }

/-- A lane message through the given waypoints. -/
def sampleLane (ws : List autoware_msgs.Waypoint) : autoware_msgs.Lane :=
  { waypoints := ws, lane_index := 0, cost := 0, closest_object_distance := 0,
    closest_object_velocity := 0, is_blocked := false }

/-- Reference path set A: one path with id 1 along the x axis. -/
def samplePathA : autoware_msgs.LaneArray :=
  { lanes := [sampleLane [sampleWaypoint 1 0 0, sampleWaypoint 1 1 0, sampleWaypoint 1 2 0,
      sampleWaypoint 1 3 0, sampleWaypoint 1 4 0]] }

/-- Reference path set B: one path with id 2, displaced from A. -/
def samplePathB : autoware_msgs.LaneArray :=
  { lanes := [sampleLane [sampleWaypoint 2 0 1, sampleWaypoint 2 1 1, sampleWaypoint 2 2 1]] }

/-- Reference path set C: two parallel paths with id 3. -/
def samplePathC : autoware_msgs.LaneArray :=
  { lanes := [sampleLane [sampleWaypoint 3 0 2, sampleWaypoint 3 1 2],
      sampleLane [sampleWaypoint 3 0 3, sampleWaypoint 3 1 3]] }

/-- A roll-out batch of two candidates generated from the path with id `gid`. -/
def sampleRollOuts (gid : Int) : autoware_msgs.LaneArray :=
  { lanes := [sampleLane [sampleWaypoint gid 0 0, sampleWaypoint gid 1 0],
      sampleLane [sampleWaypoint gid 0 1, sampleWaypoint gid 1 1]] }

/-- A pose message at `(x, 0, 0)`. -/
def samplePose (x : ℚ) : geometry_msgs.PoseStamped :=
  { pose := ⟨⟨x, 0, 0⟩, ⟨0, 0, 0, 1⟩⟩ }

/-- An obstacle message with the given id at the origin. -/
def sampleObject (id : Int) : autoware_msgs.DetectedObject :=
  { id := id, pose := ⟨⟨0, 0, 0⟩, ⟨0, 0, 0, 1⟩⟩, velocity := ⟨⟨0, 0, 0⟩, ⟨0, 0, 0⟩⟩,
    convex_hull := [], candidate_trajectories := { lanes := [] } }

/-- The state the sample node is in after the given events (the constructed state when
an exception escapes on the way). -/
def sampleState (evs : List Event) : TrajectoryEvalCore :=
  match TrajectoryEvalCore.run sampleExternal (TrajectoryEvalCore.initial sampleStartUp) evs with
  | some r => r.1
  | none => TrajectoryEvalCore.initial sampleStartUp

/-- Path A was received and not yet synchronized. -/
def samplePending : TrajectoryEvalCore :=
  sampleState [Event.lane_waypoints_array samplePathA]

/-- Path A was received and synchronized by a roll-out batch with id 1. -/
def sampleActive : TrajectoryEvalCore :=
  sampleState [Event.lane_waypoints_array samplePathA,
    Event.local_trajectories (sampleRollOuts 1)]

/-- Path A is active, the vehicle stands at x = 3 and one iteration of MainLoop has run. -/
def sampleAdvanced : TrajectoryEvalCore :=
  sampleState [Event.lane_waypoints_array samplePathA,
    Event.local_trajectories (sampleRollOuts 1), Event.current_pose (samplePose 3),
    Event.tick]

/-- Path A is active, a pose was received, and path A was sent a second time. -/
def sampleResent : TrajectoryEvalCore :=
  sampleState [Event.lane_waypoints_array samplePathA,
    Event.local_trajectories (sampleRollOuts 1), Event.current_pose (samplePose 3),
    Event.lane_waypoints_array samplePathA]

/-- A parameter server on which swerving is enabled, following is disabled and three
roll-outs are asked for; nothing else is set. -/
def sampleParameters : ParameterServer :=
  { enablePrediction := none, horizontalSafetyDistance := none, verticalSafetyDistance := none,
    enableSwerving := some true, enableFollowing := some false,
    enableTrafficLightBehavior := none, enableStopSignBehavior := none, maxVelocity := none,
    minVelocity := none, maxLocalPlanDistance := none, pathDensity := none,
    rollOutDensity := none, rollOutsNumber := some 3, horizonDistance := none,
    minFollowingDistance := none, minDistanceToAvoid := none, maxDistanceToAvoid := none,
    speedProfileFactor := none, enableLaneChange := none, width := none, length := none,
    wheelBaseLength := none, turningRadius := none, maxSteerAngle := none,
    maxAcceleration := none, maxDeceleration := none, experimentName := none }

/-- Path A is active and a pose at x = 3 was received: the next iteration evaluates. -/
def sampleReady : TrajectoryEvalCore :=
  sampleState [Event.lane_waypoints_array samplePathA,
    Event.local_trajectories (sampleRollOuts 1), Event.current_pose (samplePose 3)]

/-- A parameter server on which swerving is disabled and three roll-outs are asked for. -/
def sampleParametersNoSwerving : ParameterServer :=
  { sampleParameters with enableSwerving := some false }

/-- A velocity report with forward speed `x` and yaw rate 1. -/
def sampleTwist (x : ℚ) : geometry_msgs.TwistStamped :=
  { twist := { linear := ⟨x, 0, 0⟩, angular := ⟨0, 0, 1⟩ } }

/-! ### The loops in closed form -/

theorem convertGlobalPathsLoop_eq (E : External) :
    ∀ (lanes : List autoware_msgs.Lane) (i : Nat) (tmp : List WayPoint)
      (paths : List (List WayPoint)) (bOld : Bool), paths.length = i →
      convertGlobalPathsLoop E lanes i tmp paths bOld =
        some (finalTempPath E lanes tmp, paths ++ convertLanes E lanes tmp,
          bOld && (convertLanes E lanes tmp).all (fun p => E.CompareTrajectories p p)) := by
  intro lanes
  induction lanes with
  | nil => intro i tmp paths bOld _; simp [convertGlobalPathsLoop, finalTempPath, convertLanes]
  | cons lane rest ih =>
    intro i tmp paths bOld hlen
    have hget : (paths ++ [E.ConvertFromAutowareLaneToLocalLane lane tmp]).get? i =
        some (E.ConvertFromAutowareLaneToLocalLane lane tmp) := by
      subst hlen; simp
    have hlen1 : (paths ++ [E.ConvertFromAutowareLaneToLocalLane lane tmp]).length = i + 1 := by
      simp [hlen]
    cases bOld with
    | false =>
      simp [convertGlobalPathsLoop, finalTempPath, convertLanes, ih _ _ _ _ hlen1]
    | true =>
      simp only [convertGlobalPathsLoop, hget, if_true, ih _ _ _ _ hlen1, finalTempPath,
        convertLanes]
      simp

theorem convertLanes_length (E : External) :
    ∀ (lanes : List autoware_msgs.Lane) (tmp : List WayPoint),
      (convertLanes E lanes tmp).length = lanes.length := by
  intro lanes
  induction lanes with
  | nil => intro tmp; rfl
  | cons lane rest ih => intro tmp; simp [convertLanes, ih]

theorem preprocessGlobalPathsLoop_eq (E : External) (d : ℚ) :
    ∀ (paths : List (List WayPoint)) (prev : List Int),
      preprocessGlobalPathsLoop E d paths prev =
        (paths.map (preprocessGlobalPath E d), prev ++ List.replicate paths.length 0) := by
  intro paths
  induction paths with
  | nil => intro prev; simp [preprocessGlobalPathsLoop]
  | cons p rest ih =>
    intro prev
    simp [preprocessGlobalPathsLoop, ih, List.replicate_succ]

theorem convertRollOutsLoop_eq (E : External) :
    ∀ (lanes : List autoware_msgs.Lane) (rollOuts : List (List WayPoint)) (id : Int),
      convertRollOutsLoop E lanes rollOuts id =
        (rollOuts ++ lanes.map (fun lane => E.ConvertFromAutowareLaneToLocalLane lane []),
          (((lanes.map (fun lane => E.ConvertFromAutowareLaneToLocalLane lane [])).filterMap
            (fun path => path.head?.map (fun p => p.gid))).getLast?).getD id) := by
  intro lanes
  induction lanes with
  | nil => intro rollOuts id; simp [convertRollOutsLoop]
  | cons lane rest ih =>
    intro rollOuts id
    cases hp : E.ConvertFromAutowareLaneToLocalLane lane [] with
    | nil => simp [convertRollOutsLoop, hp, ih]
    | cons p ps =>
      simp only [convertRollOutsLoop, hp, ih, List.map_cons, List.filterMap_cons,
        List.head?_cons, Option.map_some', List.append_assoc, List.singleton_append]
      congr 1
      cases (List.filterMap (fun path => Option.map (fun p => p.gid) path.head?)
        (List.map (fun lane => E.ConvertFromAutowareLaneToLocalLane lane []) rest)) with
      | nil => simp
      | cons a l => simp [List.getLast?_eq_getLast _ (List.cons_ne_nil a l)]

/-! ### The reference-path and roll-out callbacks in closed form -/

theorem callbackGetGlobalPlannerPath_empty (E : External) (s : TrajectoryEvalCore)
    (msg : autoware_msgs.LaneArray) (h : msg.lanes = []) :
    s.callbackGetGlobalPlannerPath E msg = some s := by
  simp [TrajectoryEvalCore.callbackGetGlobalPlannerPath, h]

/-- A non-empty set whose number of paths differs from the number held in `m_GlobalPaths`
is accepted as new. -/
theorem callbackGetGlobalPlannerPath_new (E : External) (s : TrajectoryEvalCore)
    (msg : autoware_msgs.LaneArray) (hne : msg.lanes ≠ [])
    (hcount : s.m_GlobalPaths.length ≠ msg.lanes.length) :
    s.callbackGetGlobalPlannerPath E msg =
      some { s with
             m_temp_path := finalTempPath E msg.lanes s.m_temp_path
             bWayGlobalPath := true
             m_GlobalPaths := preprocessedSet E s.m_PlanningParams.pathDensity s.m_temp_path msg
             m_prev_index := s.m_prev_index ++ List.replicate msg.lanes.length 0 } := by
  have hpos : msg.lanes.length > 0 := List.length_pos.mpr hne
  simp [TrajectoryEvalCore.callbackGetGlobalPlannerPath, hpos, hcount,
    convertGlobalPathsLoop_eq, preprocessGlobalPathsLoop_eq, preprocessedSet,
    convertLanes_length]

/-- A non-empty set with as many paths as `m_GlobalPaths` holds is compared path by path
with the vector that was just rebuilt from the same message; when the comparison of a path
with itself succeeds the set is taken for the old one and `m_GlobalPaths` is emptied. -/
theorem callbackGetGlobalPlannerPath_same_count (E : External)
    (hrefl : ∀ p, E.CompareTrajectories p p = true) (s : TrajectoryEvalCore)
    (msg : autoware_msgs.LaneArray) (hne : msg.lanes ≠ [])
    (hcount : s.m_GlobalPaths.length = msg.lanes.length) :
    s.callbackGetGlobalPlannerPath E msg =
      some { s with
             m_temp_path := finalTempPath E msg.lanes s.m_temp_path
             m_GlobalPaths := [] } := by
  have hpos : msg.lanes.length > 0 := List.length_pos.mpr hne
  have hall : (convertLanes E msg.lanes s.m_temp_path).all
      (fun p => E.CompareTrajectories p p) = true := by
    simp [List.all_eq_true, hrefl]
  simp [TrajectoryEvalCore.callbackGetGlobalPlannerPath, hpos, hcount,
    convertGlobalPathsLoop_eq, hall]

/-- The reference-path callback never throws, and whatever it decides it touches only
`m_temp_path`, `bWayGlobalPath`, `m_GlobalPaths` and `m_prev_index`; the index hints are
only ever extended by zeros. -/
theorem callbackGetGlobalPlannerPath_frame (E : External) (s : TrajectoryEvalCore)
    (msg : autoware_msgs.LaneArray) :
    ∃ tmp b paths k, s.callbackGetGlobalPlannerPath E msg =
      some { s with
             m_temp_path := tmp
             bWayGlobalPath := b
             m_GlobalPaths := paths
             m_prev_index := s.m_prev_index ++ List.replicate k 0 } := by
  by_cases hpos : msg.lanes.length > 0
  · cases hb : (decide (s.m_GlobalPaths.length = msg.lanes.length) &&
        (convertLanes E msg.lanes s.m_temp_path).all (fun p => E.CompareTrajectories p p))
    · refine ⟨finalTempPath E msg.lanes s.m_temp_path, true,
        preprocessedSet E s.m_PlanningParams.pathDensity s.m_temp_path msg,
        msg.lanes.length, ?_⟩
      simp [TrajectoryEvalCore.callbackGetGlobalPlannerPath, hpos,
        convertGlobalPathsLoop_eq, hb, preprocessGlobalPathsLoop_eq, preprocessedSet,
        convertLanes_length]
    · refine ⟨finalTempPath E msg.lanes s.m_temp_path, s.bWayGlobalPath, [], 0, ?_⟩
      simp [TrajectoryEvalCore.callbackGetGlobalPlannerPath, hpos,
        convertGlobalPathsLoop_eq, hb]
  · refine ⟨s.m_temp_path, s.bWayGlobalPath, s.m_GlobalPaths, 0, ?_⟩
    simp [TrajectoryEvalCore.callbackGetGlobalPlannerPath, hpos]

/-- The roll-out callback on a non-empty batch: the batch is stored, and the pending set
is promoted exactly when a set is pending and its first point carries the batch's tag. -/
theorem callbackGetLocalPlannerPath_eq (E : External) (s : TrajectoryEvalCore)
    (msg : autoware_msgs.LaneArray) (hne : msg.lanes ≠ []) :
    s.callbackGetLocalPlannerPath E msg =
      if s.bWayGlobalPath = true ∧ firstPointGid s.m_GlobalPaths = some (rollOutsTag E msg) then
        { s with
          m_GeneratedRollOuts := convertedRollOuts E msg
          bWayGlobalPath := false
          m_GlobalPathsToUse := s.m_GlobalPaths
          bRollOuts := true }
      else
        { s with
          m_GeneratedRollOuts := convertedRollOuts E msg
          bRollOuts := true } := by
  have hpos : msg.lanes.length > 0 := List.length_pos.mpr hne
  have htag : (convertRollOutsLoop E msg.lanes [] (-1)).2 = rollOutsTag E msg := by
    simp [convertRollOutsLoop_eq, rollOutsTag, convertedRollOuts]
  have hro : (convertRollOutsLoop E msg.lanes [] (-1)).1 = convertedRollOuts E msg := by
    simp [convertRollOutsLoop_eq, convertedRollOuts]
  unfold TrajectoryEvalCore.callbackGetLocalPlannerPath
  simp only [hpos, if_true, htag, hro]
  cases hb : s.bWayGlobalPath with
  | false => simp
  | true =>
    rcases hg : s.m_GlobalPaths with _ | ⟨_ | ⟨p, ps⟩, rest⟩
    · simp [firstPointGid]
    · simp [firstPointGid]
    · by_cases hid : rollOutsTag E msg = p.gid
      · simp [firstPointGid, hid]
      · have hid2 : ¬ p.gid = rollOutsTag E msg := fun h => hid h.symm
        simp [firstPointGid, hid, hid2]

theorem callbackGetLocalPlannerPath_empty (E : External) (s : TrajectoryEvalCore)
    (msg : autoware_msgs.LaneArray) (h : msg.lanes = []) :
    s.callbackGetLocalPlannerPath E msg = s := by
  simp [TrajectoryEvalCore.callbackGetLocalPlannerPath, h]

/-! ### The obstacle filter -/

theorem predictedObjectsLoop_eq (E : External) :
    ∀ (msgs : List autoware_msgs.DetectedObject) (obj : DetectedObject)
      (acc : List DetectedObject),
      predictedObjectsLoop E msgs obj acc =
        acc ++ convertObjects E (msgs.filter (fun m => decide (m.id > 0))) obj := by
  intro msgs
  induction msgs with
  | nil => intro obj acc; simp [predictedObjectsLoop, convertObjects]
  | cons m rest ih =>
    intro obj acc
    by_cases hm : m.id > 0
    · simp [predictedObjectsLoop, hm, ih, convertObjects]
    · simp [predictedObjectsLoop, hm, ih]

theorem convertObjects_ids (E : External)
    (hid : ∀ m o, (E.ConvertFromAutowareDetectedObjectToOpenPlannerDetectedObject m o).id = m.id) :
    ∀ (msgs : List autoware_msgs.DetectedObject) (obj : DetectedObject),
      (convertObjects E msgs obj).map (fun o => o.id) = msgs.map (fun m => m.id) := by
  intro msgs
  induction msgs with
  | nil => intro obj; rfl
  | cons m rest ih => intro obj; simp [convertObjects, hid, ih]

theorem callbackGetPredictedObjects_ids_pos (E : External)
    (hid : ∀ m o, (E.ConvertFromAutowareDetectedObjectToOpenPlannerDetectedObject m o).id = m.id)
    (s : TrajectoryEvalCore) (msg : autoware_msgs.DetectedObjectArray) :
    ∀ o ∈ (s.callbackGetPredictedObjects E msg).m_PredictedObjects, 0 < o.id := by
  intro o ho
  have hmem : o.id ∈ ((s.callbackGetPredictedObjects E msg).m_PredictedObjects).map
      (fun o => o.id) := List.mem_map_of_mem _ ho
  simp only [TrajectoryEvalCore.callbackGetPredictedObjects, predictedObjectsLoop_eq,
    List.nil_append, convertObjects_ids E hid] at hmem
  rcases List.mem_map.mp hmem with ⟨m, hm, hmo⟩
  have := (List.mem_filter.mp hm).2
  rw [← hmo]
  simpa using this

/-! ### One iteration of MainLoop -/

theorem evaluateSections_nil (E : External) (s : TrajectoryEvalCore)
    (h : s.m_GlobalPathSections = []) : evaluateSections E s = (s, []) := by
  simp [evaluateSections, h]

theorem evaluateSections_cons (E : External) (s : TrajectoryEvalCore)
    (section0 : List WayPoint) (rest : List (List WayPoint))
    (h : s.m_GlobalPathSections = section0 :: rest) :
    evaluateSections E s =
      ({ s with
         m_TrajectoryCostsCalculator :=
           (E.doOneStep s.m_TrajectoryCostsCalculator (s.doOneStepArguments section0)).2 },
        [Effect.doOneStep (s.doOneStepArguments section0),
          Effect.pub_TrajectoryCost (selectedTrajectoryLane E
            (E.doOneStep s.m_TrajectoryCostsCalculator (s.doOneStepArguments section0)).1)]) := by
  simp [evaluateSections, h]

theorem evaluateSections_frame (E : External) (s : TrajectoryEvalCore) :
    (∃ calculator, (evaluateSections E s).1 =
        { s with m_TrajectoryCostsCalculator := calculator }) ∧
    ∀ call, Effect.doOneStep call ∈ (evaluateSections E s).2 →
      s.m_GlobalPathSections.head? = some call.totalPaths ∧
      call.rollOuts = s.m_GeneratedRollOuts ∧ call.currState = s.m_CurrentPos ∧
      call.obj_list = s.m_PredictedObjects := by
  obtain h | ⟨section0, rest, h⟩ :
      s.m_GlobalPathSections = [] ∨ ∃ a l, s.m_GlobalPathSections = a :: l := by
    cases s.m_GlobalPathSections <;> simp
  · rw [evaluateSections_nil E s h]
    exact ⟨⟨s.m_TrajectoryCostsCalculator, rfl⟩, by simp⟩
  · rw [evaluateSections_cons E s section0 rest h]
    refine ⟨⟨_, rfl⟩, ?_⟩
    intro call hcall
    simp only [List.mem_cons, Effect.doOneStep.injEq, List.mem_singleton, reduceCtorEq,
      or_false, List.not_mem_nil] at hcall
    subst hcall
    simp [TrajectoryEvalCore.doOneStepArguments, h]

/-- The gate of line 276 is closed: the iteration only renews the subscription. -/
theorem MainLoop_gate_closed (E : External) (s : TrajectoryEvalCore)
    (h : s.bNewCurrentPos = false ∨ s.m_GlobalPaths = []) :
    s.MainLoop E = some (s, [Effect.subscribe_lane_waypoints_array]) := by
  rcases h with h | h <;> simp [TrajectoryEvalCore.MainLoop, h]

/-- Whatever an iteration of MainLoop does, it writes only `m_GlobalPathSections`,
`m_prev_index`, `t_centerTrajectorySmoothed` and the calculator, and every evaluator call
it makes is given the stored roll-outs, pose and obstacles and the first extracted
section. -/
theorem MainLoop_frame (E : External) (s s1 : TrajectoryEvalCore) (eff : List Effect)
    (h : s.MainLoop E = some (s1, eff)) :
    (∃ sections prev t calculator,
      s1 = { s with
             m_GlobalPathSections := sections
             m_prev_index := prev
             t_centerTrajectorySmoothed := t
             m_TrajectoryCostsCalculator := calculator }) ∧
    ∀ call, Effect.doOneStep call ∈ eff →
      s1.m_GlobalPathSections.head? = some call.totalPaths ∧
      call.rollOuts = s.m_GeneratedRollOuts ∧ call.currState = s.m_CurrentPos ∧
      call.obj_list = s.m_PredictedObjects := by
  unfold TrajectoryEvalCore.MainLoop at h
  split at h
  · split at h
    · exact absurd h (by simp)
    · rename_i prev sections t hex
      dsimp only at h
      split at h
      · exact absurd h (by simp)
      · rename_i lanes hl
        simp only [Option.some.injEq, Prod.mk.injEq] at h
        obtain ⟨h1, h2⟩ := h
        have hf := evaluateSections_frame E
          { s with
            m_GlobalPathSections := sections
            m_prev_index := prev
            t_centerTrajectorySmoothed := t }
        obtain ⟨⟨calculator, hc⟩, hcalls⟩ := hf
        refine ⟨⟨sections, prev, t, calculator, ?_⟩, ?_⟩
        · rw [← h1, hc]
        · intro call hcall
          rw [← h2] at hcall
          have hin : Effect.doOneStep call ∈ (evaluateSections E
              { s with
                m_GlobalPathSections := sections
                m_prev_index := prev
                t_centerTrajectorySmoothed := t }).2 := by
            simp only [List.append_assoc, List.mem_append, List.mem_singleton, reduceCtorEq,
              false_or] at hcall
            rcases hcall with hcall | hcall
            · exact hcall
            · unfold rvizEffects at hcall
              split at hcall <;> simp at hcall
          have := hcalls call hin
          rw [← h1, hc]
          simpa using this
  · simp only [Option.some.injEq, Prod.mk.injEq] at h
    obtain ⟨h1, h2⟩ := h
    refine ⟨⟨s.m_GlobalPathSections, s.m_prev_index, s.t_centerTrajectorySmoothed,
      s.m_TrajectoryCostsCalculator, h1.symm⟩, ?_⟩
    intro call hcall
    rw [← h2] at hcall
    simp at hcall

/-! ### Executions -/

/-- Induction along an execution: a state property kept by every step holds at the end,
and an effect property established by every step from a state with the state property
holds of every effect of the execution. -/
theorem run_induction (E : External) (P : TrajectoryEvalCore → Prop) (Q : Effect → Prop)
    (hstep : ∀ s e s1 out, P s → s.step E e = some (s1, out) → P s1 ∧ ∀ x ∈ out, Q x) :
    ∀ (evs : List Event) (s s2 : TrajectoryEvalCore) (out : List Effect),
      P s → TrajectoryEvalCore.run E s evs = some (s2, out) → P s2 ∧ ∀ x ∈ out, Q x := by
  intro evs
  induction evs with
  | nil =>
    intro s s2 out hP h
    simp only [TrajectoryEvalCore.run, Option.some.injEq, Prod.mk.injEq] at h
    obtain ⟨h1, h2⟩ := h
    subst h1 h2
    exact ⟨hP, by simp⟩
  | cons e es ih =>
    intro s s2 out hP h
    unfold TrajectoryEvalCore.run at h
    split at h
    · exact absurd h (by simp)
    · rename_i s1 out1 hs
      split at h
      · exact absurd h (by simp)
      · rename_i s3 out2 hr
        simp only [Option.some.injEq, Prod.mk.injEq] at h
        obtain ⟨h1, h2⟩ := h
        subst h1 h2
        have h1 := hstep s e s1 out1 hP hs
        have h2 := ih s1 s3 out2 h1.1 hr
        refine ⟨h2.1, ?_⟩
        intro x hx
        rcases List.mem_append.mp hx with hx | hx
        · exact h1.2 x hx
        · exact h2.2 x hx

/-- The roll-out callback writes only the stored roll-outs, the pending flag, the active
set and `bRollOuts`. -/
theorem callbackGetLocalPlannerPath_frame (E : External) (s : TrajectoryEvalCore)
    (msg : autoware_msgs.LaneArray) :
    ∃ rollOuts b active r, s.callbackGetLocalPlannerPath E msg =
      { s with
        m_GeneratedRollOuts := rollOuts
        bWayGlobalPath := b
        m_GlobalPathsToUse := active
        bRollOuts := r } := by
  by_cases hne : msg.lanes = []
  · exact ⟨s.m_GeneratedRollOuts, s.bWayGlobalPath, s.m_GlobalPathsToUse, s.bRollOuts,
      callbackGetLocalPlannerPath_empty E s msg hne⟩
  · rw [callbackGetLocalPlannerPath_eq E s msg hne]
    split
    · exact ⟨_, _, _, _, rfl⟩
    · exact ⟨convertedRollOuts E msg, s.bWayGlobalPath, s.m_GlobalPathsToUse, true, rfl⟩

/-- No step of the node stores an obstacle with a non-positive id, and every evaluator
call made by a step receives the obstacles stored before the step. -/
theorem step_predicted_ids (E : External)
    (hid : ∀ m o, (E.ConvertFromAutowareDetectedObjectToOpenPlannerDetectedObject m o).id = m.id)
    (s : TrajectoryEvalCore) (e : Event) (s1 : TrajectoryEvalCore) (out : List Effect)
    (hP : ∀ o ∈ s.m_PredictedObjects, 0 < o.id) (h : s.step E e = some (s1, out)) :
    (∀ o ∈ s1.m_PredictedObjects, 0 < o.id) ∧
      ∀ x ∈ out, ∀ call, x = Effect.doOneStep call → ∀ o ∈ call.obj_list, 0 < o.id := by
  cases e with
  | current_pose msg =>
    simp only [TrajectoryEvalCore.step, Option.some.injEq, Prod.mk.injEq] at h
    obtain ⟨h1, h2⟩ := h
    subst h1 h2
    exact ⟨hP, by simp⟩
  | current_velocity msg now =>
    simp only [TrajectoryEvalCore.step, Option.some.injEq, Prod.mk.injEq] at h
    obtain ⟨h1, h2⟩ := h
    subst h1 h2
    exact ⟨hP, by simp⟩
  | can_info msg now =>
    simp only [TrajectoryEvalCore.step, Option.some.injEq, Prod.mk.injEq] at h
    obtain ⟨h1, h2⟩ := h
    subst h1 h2
    exact ⟨hP, by simp⟩
  | robot_odom msg now =>
    simp only [TrajectoryEvalCore.step, Option.some.injEq, Prod.mk.injEq] at h
    obtain ⟨h1, h2⟩ := h
    subst h1 h2
    exact ⟨hP, by simp⟩
  | lane_waypoints_array msg =>
    obtain ⟨tmp, b, paths, k, hcb⟩ := callbackGetGlobalPlannerPath_frame E s msg
    simp only [TrajectoryEvalCore.step, hcb, Option.map_some', Option.some.injEq,
      Prod.mk.injEq] at h
    obtain ⟨h1, h2⟩ := h
    subst h1 h2
    exact ⟨hP, by simp⟩
  | local_trajectories msg =>
    obtain ⟨rollOuts, b, active, r, hcb⟩ := callbackGetLocalPlannerPath_frame E s msg
    simp only [TrajectoryEvalCore.step, hcb, Option.some.injEq, Prod.mk.injEq] at h
    obtain ⟨h1, h2⟩ := h
    subst h1 h2
    exact ⟨hP, by simp⟩
  | predicted_objects msg =>
    simp only [TrajectoryEvalCore.step, Option.some.injEq, Prod.mk.injEq] at h
    obtain ⟨h1, h2⟩ := h
    subst h1 h2
    exact ⟨callbackGetPredictedObjects_ids_pos E hid s msg, by simp⟩
  | current_behavior msg =>
    simp only [TrajectoryEvalCore.step, Option.some.injEq, Prod.mk.injEq] at h
    obtain ⟨h1, h2⟩ := h
    subst h1 h2
    exact ⟨hP, by simp⟩
  | tick =>
    simp only [TrajectoryEvalCore.step] at h
    obtain ⟨⟨sections, prev, t, calculator, hs1⟩, hcalls⟩ := MainLoop_frame E s s1 out h
    refine ⟨by rw [hs1]; exact hP, ?_⟩
    intro x hx call hxc o ho
    subst hxc
    rw [(hcalls call hx).2.2.2] at ho
    exact hP o ho

/-! ### The claims -/

/-- C1: the obstacle filter. After callbackGetPredictedObjects the stored obstacle list is
exactly the conversion, in message order, of the entries of that message whose id is
positive: it does not depend on what was stored before, it has one entry per kept message
entry with the same id, every stored id is positive, and in every execution from the
constructed state every call of the cost evaluator receives only obstacles with a positive
id. The only assumption on the missing conversion helper is that it copies the id. -/
theorem callbackGetPredictedObjects_keeps_exactly_positive_ids (E : External)
    (hid : ∀ m o, (E.ConvertFromAutowareDetectedObjectToOpenPlannerDetectedObject m o).id = m.id)
    (s : TrajectoryEvalCore) (msg : autoware_msgs.DetectedObjectArray) :
    (s.callbackGetPredictedObjects E msg).m_PredictedObjects =
        convertObjects E (msg.objects.filter (fun m => decide (m.id > 0))) E.newDetectedObject ∧
    (s.callbackGetPredictedObjects E msg).m_PredictedObjects.map (fun o => o.id) =
        (msg.objects.filter (fun m => decide (m.id > 0))).map (fun m => m.id) ∧
    (∀ o ∈ (s.callbackGetPredictedObjects E msg).m_PredictedObjects, 0 < o.id) ∧
    (∀ (c : StartUp) (evs : List Event) (s2 : TrajectoryEvalCore) (out : List Effect),
      TrajectoryEvalCore.run E (TrajectoryEvalCore.initial c) evs = some (s2, out) →
        ∀ call, Effect.doOneStep call ∈ out → ∀ o ∈ call.obj_list, 0 < o.id) := by
  have h1 : (s.callbackGetPredictedObjects E msg).m_PredictedObjects =
      convertObjects E (msg.objects.filter (fun m => decide (m.id > 0))) E.newDetectedObject := by
    simp [TrajectoryEvalCore.callbackGetPredictedObjects, predictedObjectsLoop_eq]
  refine ⟨h1, ?_, callbackGetPredictedObjects_ids_pos E hid s msg, ?_⟩
  · rw [h1, convertObjects_ids E hid]
  · intro c evs s2 out hrun call hcall
    have h := run_induction E (fun s => ∀ o ∈ s.m_PredictedObjects, 0 < o.id)
      (fun x => ∀ call, x = Effect.doOneStep call → ∀ o ∈ call.obj_list, 0 < o.id)
      (fun s e s1 out hP hs => step_predicted_ids E hid s e s1 out hP hs)
      evs (TrajectoryEvalCore.initial c) s2 out
      (by simp [TrajectoryEvalCore.initial]) hrun
    exact h.2 _ hcall call rfl

theorem callbackGetPredictedObjects_keeps_exactly_positive_ids_witness :
    ((TrajectoryEvalCore.initial sampleStartUp).callbackGetPredictedObjects sampleExternal
      { objects := [sampleObject 5, sampleObject 0, sampleObject (-3), sampleObject 7] }
      ).m_PredictedObjects.map (fun o => o.id) = [5, 7] := by
  have h := (callbackGetPredictedObjects_keeps_exactly_positive_ids sampleExternal
    (fun _ _ => rfl) (TrajectoryEvalCore.initial sampleStartUp)
    { objects := [sampleObject 5, sampleObject 0, sampleObject (-3), sampleObject 7] }).2.1
  rw [h]
  simp [sampleObject]

/-- C2: sync correctness, first half. From the constructed state, a non-empty reference
path set A is accepted and held pending (flag set, nothing active yet); when its first
point, as stored, carries path id g and a non-empty roll-out batch tagged g follows, the
pending flag bWayGlobalPath is false and the active set m_GlobalPathsToUse is the
preprocessed set A. -/
theorem path_then_matching_batch_is_active (E : External) (c : StartUp)
    (A B : autoware_msgs.LaneArray) (g : Int) (hA : A.lanes ≠ []) (hB : B.lanes ≠ [])
    (hg : firstPointGid (preprocessedSet E c.m_PlanningParams.pathDensity [] A) = some g)
    (htag : rollOutsTag E B = g) :
    (∃ s1, (TrajectoryEvalCore.initial c).callbackGetGlobalPlannerPath E A = some s1 ∧
      s1.bWayGlobalPath = true ∧ s1.m_GlobalPathsToUse = [] ∧
      s1.m_GlobalPaths = preprocessedSet E c.m_PlanningParams.pathDensity [] A) ∧
    ∃ s, TrajectoryEvalCore.run E (TrajectoryEvalCore.initial c)
        [Event.lane_waypoints_array A, Event.local_trajectories B] = some (s, []) ∧
      s.bWayGlobalPath = false ∧
      s.m_GlobalPathsToUse = preprocessedSet E c.m_PlanningParams.pathDensity [] A := by
  have hlen : (TrajectoryEvalCore.initial c).m_GlobalPaths.length ≠ A.lanes.length := by
    have : A.lanes.length > 0 := List.length_pos.mpr hA
    simp only [TrajectoryEvalCore.initial, List.length_nil]
    omega
  obtain ⟨s1, hcb, hb, hact, hpaths⟩ :
      ∃ s1, (TrajectoryEvalCore.initial c).callbackGetGlobalPlannerPath E A = some s1 ∧
        s1.bWayGlobalPath = true ∧ s1.m_GlobalPathsToUse = [] ∧
        s1.m_GlobalPaths = preprocessedSet E c.m_PlanningParams.pathDensity [] A :=
    ⟨_, callbackGetGlobalPlannerPath_new E (TrajectoryEvalCore.initial c) A hA hlen,
      rfl, rfl, rfl⟩
  refine ⟨⟨s1, hcb, hb, hact, hpaths⟩, s1.callbackGetLocalPlannerPath E B, ?_, ?_, ?_⟩
  · simp [TrajectoryEvalCore.run, TrajectoryEvalCore.step, hcb]
  · rw [callbackGetLocalPlannerPath_eq E _ B hB]
    simp [hb, hpaths, hg, htag]
  · rw [callbackGetLocalPlannerPath_eq E _ B hB]
    simp [hb, hpaths, hg, htag]

theorem path_then_matching_batch_is_active_witness :
    ∃ s, TrajectoryEvalCore.run sampleExternal (TrajectoryEvalCore.initial sampleStartUp)
        [Event.lane_waypoints_array samplePathA, Event.local_trajectories (sampleRollOuts 1)] =
          some (s, []) ∧
      s.bWayGlobalPath = false ∧
      s.m_GlobalPathsToUse = preprocessedSet sampleExternal 1 [] samplePathA :=
  (path_then_matching_batch_is_active sampleExternal sampleStartUp samplePathA
    (sampleRollOuts 1) 1 (by simp [samplePathA]) (by simp [sampleRollOuts])
    (by rfl) (by rfl)).2

/-- C5: promotion happens exactly on an id match. For every non-empty roll-out batch, if
a set is pending (flag set, first path non-empty) and the path id of its first point equals
the batch's tag, then callbackGetLocalPlannerPath makes the pending set the active one and
clears the flag; in every other case the active set and the flag are unchanged. -/
theorem promotion_exactly_on_id_match (E : External) (s : TrajectoryEvalCore)
    (msg : autoware_msgs.LaneArray) (hne : msg.lanes ≠ []) :
    (s.bWayGlobalPath = true ∧ firstPointGid s.m_GlobalPaths = some (rollOutsTag E msg) →
      (s.callbackGetLocalPlannerPath E msg).m_GlobalPathsToUse = s.m_GlobalPaths ∧
      (s.callbackGetLocalPlannerPath E msg).bWayGlobalPath = false) ∧
    (¬ (s.bWayGlobalPath = true ∧ firstPointGid s.m_GlobalPaths = some (rollOutsTag E msg)) →
      (s.callbackGetLocalPlannerPath E msg).m_GlobalPathsToUse = s.m_GlobalPathsToUse ∧
      (s.callbackGetLocalPlannerPath E msg).bWayGlobalPath = s.bWayGlobalPath) := by
  rw [callbackGetLocalPlannerPath_eq E s msg hne]
  constructor
  · intro h
    rw [if_pos h]
    exact ⟨rfl, rfl⟩
  · intro h
    rw [if_neg h]
    exact ⟨rfl, rfl⟩

theorem promotion_exactly_on_id_match_witness :
    (samplePending.callbackGetLocalPlannerPath sampleExternal
        (sampleRollOuts 1)).m_GlobalPathsToUse = samplePending.m_GlobalPaths ∧
    (samplePending.callbackGetLocalPlannerPath sampleExternal
        (sampleRollOuts 1)).bWayGlobalPath = false :=
  (promotion_exactly_on_id_match sampleExternal samplePending (sampleRollOuts 1)
    (by simp [sampleRollOuts])).1 ⟨by rfl, by rfl⟩

/-- C7: a non-matching roll-out batch. For every non-empty batch that arrives while no set
is pending (Active), or whose tag differs from the path id of the held set, the batch
becomes the stored candidate roll-outs while the active set, the pending flag and the index
hints are unchanged. -/
theorem nonmatching_batch_is_stored_and_keeps_active_path (E : External)
    (s : TrajectoryEvalCore) (msg : autoware_msgs.LaneArray) (hne : msg.lanes ≠ [])
    (h : s.bWayGlobalPath = false ∨
      firstPointGid s.m_GlobalPaths ≠ some (rollOutsTag E msg)) :
    (s.callbackGetLocalPlannerPath E msg).m_GeneratedRollOuts = convertedRollOuts E msg ∧
    (s.callbackGetLocalPlannerPath E msg).m_GlobalPathsToUse = s.m_GlobalPathsToUse ∧
    (s.callbackGetLocalPlannerPath E msg).bWayGlobalPath = s.bWayGlobalPath ∧
    (s.callbackGetLocalPlannerPath E msg).m_prev_index = s.m_prev_index := by
  have hc : ¬ (s.bWayGlobalPath = true ∧
      firstPointGid s.m_GlobalPaths = some (rollOutsTag E msg)) := by
    rintro ⟨hb, hg⟩
    rcases h with h | h
    · rw [h] at hb; exact absurd hb (by simp)
    · exact h hg
  rw [callbackGetLocalPlannerPath_eq E s msg hne, if_neg hc]
  exact ⟨rfl, rfl, rfl, rfl⟩

theorem nonmatching_batch_is_stored_and_keeps_active_path_witness :
    (sampleActive.callbackGetLocalPlannerPath sampleExternal
        (sampleRollOuts 2)).m_GeneratedRollOuts =
      convertedRollOuts sampleExternal (sampleRollOuts 2) ∧
    (sampleActive.callbackGetLocalPlannerPath sampleExternal
        (sampleRollOuts 2)).m_GlobalPathsToUse = sampleActive.m_GlobalPathsToUse ∧
    (sampleActive.callbackGetLocalPlannerPath sampleExternal
        (sampleRollOuts 2)).bWayGlobalPath = sampleActive.bWayGlobalPath ∧
    (sampleActive.callbackGetLocalPlannerPath sampleExternal
        (sampleRollOuts 2)).m_prev_index = sampleActive.m_prev_index :=
  nonmatching_batch_is_stored_and_keeps_active_path sampleExternal sampleActive
    (sampleRollOuts 2) (by simp [sampleRollOuts]) (Or.inl (by rfl))

/-! ### Executions, step by step -/

theorem run_cons_of_step (E : External) (s s1 : TrajectoryEvalCore) (e : Event)
    (es : List Event) (out1 : List Effect) (h : s.step E e = some (s1, out1)) :
    TrajectoryEvalCore.run E s (e :: es) =
      (TrajectoryEvalCore.run E s1 es).map (fun r => (r.1, out1 ++ r.2)) := by
  simp only [TrajectoryEvalCore.run, h]
  cases TrajectoryEvalCore.run E s1 es with
  | none => rfl
  | some r => rfl

theorem run_single (E : External) (s s1 : TrajectoryEvalCore) (e : Event)
    (out1 : List Effect) (h : s.step E e = some (s1, out1)) :
    TrajectoryEvalCore.run E s [e] = some (s1, out1) := by
  rw [run_cons_of_step E s s1 e [] out1 h]
  simp [TrajectoryEvalCore.run]

theorem run_append_of_run (E : External) :
    ∀ (es1 es2 : List Event) (s s1 : TrajectoryEvalCore) (out1 : List Effect),
      TrajectoryEvalCore.run E s es1 = some (s1, out1) →
      TrajectoryEvalCore.run E s (es1 ++ es2) =
        (TrajectoryEvalCore.run E s1 es2).map (fun r => (r.1, out1 ++ r.2)) := by
  intro es1
  induction es1 with
  | nil =>
    intro es2 s s1 out1 h
    simp only [TrajectoryEvalCore.run, Option.some.injEq, Prod.mk.injEq] at h
    obtain ⟨h1, h2⟩ := h
    subst h1 h2
    rw [List.nil_append]
    cases TrajectoryEvalCore.run E s es2 with
    | none => rfl
    | some r => simp
  | cons e es ih =>
    intro es2 s s1 out1 h
    cases hs : s.step E e with
    | none => simp [TrajectoryEvalCore.run, hs] at h
    | some r =>
      obtain ⟨sa, oa⟩ := r
      rw [run_cons_of_step E s sa e es oa hs] at h
      rw [List.cons_append, run_cons_of_step E s sa e (es ++ es2) oa hs]
      cases hr : TrajectoryEvalCore.run E sa es with
      | none => simp [hr] at h
      | some r2 =>
        obtain ⟨sb, ob⟩ := r2
        simp only [hr, Option.map_some', Option.some.injEq, Prod.mk.injEq] at h
        obtain ⟨h1, h2⟩ := h
        subst h1 h2
        rw [ih es2 sa sb ob hr]
        cases TrajectoryEvalCore.run E sb es2 with
        | none => rfl
        | some r3 => simp

/-- An execution that has reached `s1` without effects, continued by one reference-path
message. -/
theorem run_then_global_path (E : External) (es : List Event) (s s1 s2 : TrajectoryEvalCore)
    (msg : autoware_msgs.LaneArray) (h : TrajectoryEvalCore.run E s es = some (s1, []))
    (hcb : s1.callbackGetGlobalPlannerPath E msg = some s2) :
    TrajectoryEvalCore.run E s (es ++ [Event.lane_waypoints_array msg]) = some (s2, []) := by
  rw [run_append_of_run E es _ s s1 [] h,
    run_single E s1 s2 (Event.lane_waypoints_array msg) []
      (by simp [TrajectoryEvalCore.step, hcb])]
  rfl

theorem preprocessedSet_length (E : External) (d : ℚ) (tmp : List WayPoint)
    (msg : autoware_msgs.LaneArray) :
    (preprocessedSet E d tmp msg).length = msg.lanes.length := by
  simp [preprocessedSet, convertLanes_length]

/-- The situation after a path set was received from the constructed state and synchronized
by a matching batch: the node is Active and holds the preprocessed set in both
`m_GlobalPaths` and `m_GlobalPathsToUse`. -/
theorem run_path_then_matching_batch (E : External) (c : StartUp)
    (A R : autoware_msgs.LaneArray) (hA : A.lanes ≠ []) (hR : R.lanes ≠ [])
    (hg : firstPointGid (preprocessedSet E c.m_PlanningParams.pathDensity [] A) =
      some (rollOutsTag E R)) :
    ∃ s, TrajectoryEvalCore.run E (TrajectoryEvalCore.initial c)
        [Event.lane_waypoints_array A, Event.local_trajectories R] = some (s, []) ∧
      s.bWayGlobalPath = false ∧ s.bNewCurrentPos = false ∧
      s.m_GlobalPaths = preprocessedSet E c.m_PlanningParams.pathDensity [] A ∧
      s.m_GlobalPathsToUse = preprocessedSet E c.m_PlanningParams.pathDensity [] A ∧
      s.m_prev_index = List.replicate A.lanes.length 0 := by
  have hlen : (TrajectoryEvalCore.initial c).m_GlobalPaths.length ≠ A.lanes.length := by
    have : A.lanes.length > 0 := List.length_pos.mpr hA
    simp only [TrajectoryEvalCore.initial, List.length_nil]
    omega
  obtain ⟨s1, hcb, hb, hpos, hpaths, hprev⟩ :
      ∃ s1, (TrajectoryEvalCore.initial c).callbackGetGlobalPlannerPath E A = some s1 ∧
        s1.bWayGlobalPath = true ∧ s1.bNewCurrentPos = false ∧
        s1.m_GlobalPaths = preprocessedSet E c.m_PlanningParams.pathDensity [] A ∧
        s1.m_prev_index = List.replicate A.lanes.length 0 :=
    ⟨_, callbackGetGlobalPlannerPath_new E (TrajectoryEvalCore.initial c) A hA hlen,
      rfl, rfl, rfl, by simp [TrajectoryEvalCore.initial]⟩
  refine ⟨s1.callbackGetLocalPlannerPath E R, ?_, ?_⟩
  · simp [TrajectoryEvalCore.run, TrajectoryEvalCore.step, hcb]
  · rw [callbackGetLocalPlannerPath_eq E _ R hR]
    simp [hb, hpos, hpaths, hg, hprev]

/-- An execution that has reached `s1` without effects, continued by one more event. -/
theorem run_snoc (E : External) (es : List Event) (s s1 s2 : TrajectoryEvalCore) (e : Event)
    (out : List Effect) (h : TrajectoryEvalCore.run E s es = some (s1, []))
    (hstep : s1.step E e = some (s2, out)) :
    TrajectoryEvalCore.run E s (es ++ [e]) = some (s2, out) := by
  rw [run_append_of_run E es _ s s1 [] h, run_single E s1 s2 e out hstep]
  rfl

/-! ### The claims on replacement of the reference path -/

/-- C3 (defect of the code): once a set A is active, a non-empty set B with as many paths
as A is never made pending, whatever its points: line 170 empties `m_GlobalPaths` before
line 180 compares, so every path is compared with its own copy, the set is taken for the
old one, and afterwards bWayGlobalPath is still false and `m_GlobalPaths` is empty instead
of holding B. The only assumption on the missing comparison helper is that a path equals
itself. -/
theorem same_count_set_is_not_made_pending (E : External)
    (hrefl : ∀ p, E.CompareTrajectories p p = true) (c : StartUp)
    (A R B : autoware_msgs.LaneArray) (hA : A.lanes ≠ []) (hR : R.lanes ≠ [])
    (hg : firstPointGid (preprocessedSet E c.m_PlanningParams.pathDensity [] A) =
      some (rollOutsTag E R))
    (hB : B.lanes.length = A.lanes.length) :
    ∃ s, TrajectoryEvalCore.run E (TrajectoryEvalCore.initial c)
        [Event.lane_waypoints_array A, Event.local_trajectories R,
          Event.lane_waypoints_array B] = some (s, []) ∧
      s.bWayGlobalPath = false ∧ s.m_GlobalPaths = [] ∧
      s.m_GlobalPathsToUse = preprocessedSet E c.m_PlanningParams.pathDensity [] A := by
  obtain ⟨s2, hrun, hb, _, hpaths, hact, _⟩ := run_path_then_matching_batch E c A R hA hR hg
  have hBne : B.lanes ≠ [] := by
    intro h
    rw [h] at hB
    exact hA (List.length_eq_zero.mp hB.symm)
  have hcount : s2.m_GlobalPaths.length = B.lanes.length := by
    rw [hpaths, preprocessedSet_length, hB]
  have hcb := callbackGetGlobalPlannerPath_same_count E hrefl s2 B hBne hcount
  obtain ⟨s3, hcb3, hb3, hpaths3, hact3⟩ :
      ∃ s3, s2.callbackGetGlobalPlannerPath E B = some s3 ∧
        s3.bWayGlobalPath = s2.bWayGlobalPath ∧ s3.m_GlobalPaths = [] ∧
        s3.m_GlobalPathsToUse = s2.m_GlobalPathsToUse := ⟨_, hcb, rfl, rfl, rfl⟩
  refine ⟨s3, ?_, ?_, hpaths3, ?_⟩
  · exact run_then_global_path E _ _ s2 s3 B hrun hcb3
  · rw [hb3, hb]
  · rw [hact3, hact]

theorem same_count_set_is_not_made_pending_witness :
    convertLanes sampleExternal samplePathB.lanes [] ≠
      convertLanes sampleExternal samplePathA.lanes [] ∧
    ∃ s, TrajectoryEvalCore.run sampleExternal (TrajectoryEvalCore.initial sampleStartUp)
        [Event.lane_waypoints_array samplePathA, Event.local_trajectories (sampleRollOuts 1),
          Event.lane_waypoints_array samplePathB] = some (s, []) ∧
      s.bWayGlobalPath = false ∧ s.m_GlobalPaths = [] ∧
      s.m_GlobalPathsToUse = preprocessedSet sampleExternal 1 [] samplePathA :=
  ⟨by decide,
    same_count_set_is_not_made_pending sampleExternal
      (fun p => by simp [sampleExternal, sampleCompareTrajectories]) sampleStartUp samplePathA
      (sampleRollOuts 1) samplePathB (by simp [samplePathA]) (by simp [sampleRollOuts])
      (by rfl) (by rfl)⟩

/-- C4 (counterexample): the state is not left unchanged when the held set is sent again.
In the sample execution path A is received and synchronized, so that `m_GlobalPaths` holds
the preprocessed A; when the very same message A arrives again, `m_GlobalPaths` is empty
afterwards. -/
theorem resent_set_changes_held_paths :
    TrajectoryEvalCore.run sampleExternal (TrajectoryEvalCore.initial sampleStartUp)
        [Event.lane_waypoints_array samplePathA, Event.local_trajectories (sampleRollOuts 1)] =
      some (sampleActive, []) ∧
    sampleActive.m_GlobalPaths = preprocessedSet sampleExternal 1 [] samplePathA ∧
    sampleActive.m_GlobalPaths ≠ [] ∧
    (sampleActive.callbackGetGlobalPlannerPath sampleExternal samplePathA).map
      (fun s => s.m_GlobalPaths) = some [] ∧
    sampleActive.callbackGetGlobalPlannerPath sampleExternal samplePathA ≠
      some sampleActive := by
  refine ⟨by rfl, by rfl, by decide, by rfl, by decide⟩

/-- C4 (amended): when a reference path set is sent again while the set it was built from is
still held (so that the message has as many paths as `m_GlobalPaths`),
callbackGetGlobalPlannerPath leaves the pending flag, the active set and the index hints as
they were, so the synchronizer stays Active on the same active path, and it empties the
held buffer `m_GlobalPaths`. The only assumption on the missing comparison helper is that a
path equals itself. -/
theorem resent_set_keeps_flag_active_set_and_hints (E : External)
    (hrefl : ∀ p, E.CompareTrajectories p p = true) (s : TrajectoryEvalCore)
    (msg : autoware_msgs.LaneArray) (hne : msg.lanes ≠ [])
    (hcount : s.m_GlobalPaths.length = msg.lanes.length) :
    ∃ s1, s.callbackGetGlobalPlannerPath E msg = some s1 ∧
      s1.bWayGlobalPath = s.bWayGlobalPath ∧
      s1.m_GlobalPathsToUse = s.m_GlobalPathsToUse ∧
      s1.m_prev_index = s.m_prev_index ∧
      s1.m_GlobalPaths = [] :=
  ⟨_, callbackGetGlobalPlannerPath_same_count E hrefl s msg hne hcount, rfl, rfl, rfl, rfl⟩

theorem resent_set_keeps_flag_active_set_and_hints_witness :
    ∃ s1, sampleActive.callbackGetGlobalPlannerPath sampleExternal samplePathA = some s1 ∧
      s1.bWayGlobalPath = sampleActive.bWayGlobalPath ∧
      s1.m_GlobalPathsToUse = sampleActive.m_GlobalPathsToUse ∧
      s1.m_prev_index = sampleActive.m_prev_index ∧
      s1.m_GlobalPaths = [] :=
  resent_set_keeps_flag_active_set_and_hints sampleExternal
    (fun p => by simp [sampleExternal, sampleCompareTrajectories]) sampleActive samplePathA
    (by simp [samplePathA]) (by rfl)

/-- C6 (defect of the code): once A is active and a pose was received, the arrival of a set
B with as many paths as A leaves the active set equal to A, but the following iteration of
MainLoop does not score anything: `m_GlobalPaths` was emptied by line 202 and the gate of
line 276 tests `m_GlobalPaths`, so the iteration only renews the subscription and leaves the
state as it is. The only assumption on the missing comparison helper is that a path equals
itself. -/
theorem same_count_replacement_stops_scoring (E : External)
    (hrefl : ∀ p, E.CompareTrajectories p p = true) (c : StartUp)
    (A R B : autoware_msgs.LaneArray) (P : geometry_msgs.PoseStamped)
    (hA : A.lanes ≠ []) (hR : R.lanes ≠ [])
    (hg : firstPointGid (preprocessedSet E c.m_PlanningParams.pathDensity [] A) =
      some (rollOutsTag E R))
    (hB : B.lanes.length = A.lanes.length) :
    ∃ s, TrajectoryEvalCore.run E (TrajectoryEvalCore.initial c)
        [Event.lane_waypoints_array A, Event.local_trajectories R, Event.current_pose P,
          Event.lane_waypoints_array B] = some (s, []) ∧
      s.bNewCurrentPos = true ∧
      s.m_GlobalPathsToUse = preprocessedSet E c.m_PlanningParams.pathDensity [] A ∧
      s.m_GlobalPathsToUse ≠ [] ∧
      TrajectoryEvalCore.run E s [Event.tick] =
        some (s, [Effect.subscribe_lane_waypoints_array]) := by
  obtain ⟨s2, hrun, _, _, hpaths, hact, _⟩ := run_path_then_matching_batch E c A R hA hR hg
  have hBne : B.lanes ≠ [] := by
    intro h
    rw [h] at hB
    exact hA (List.length_eq_zero.mp hB.symm)
  have hrun3 := run_snoc E _ _ s2 (s2.callbackGetCurrentPose E P) (Event.current_pose P) []
    hrun rfl
  have hcount : (s2.callbackGetCurrentPose E P).m_GlobalPaths.length = B.lanes.length := by
    show s2.m_GlobalPaths.length = B.lanes.length
    rw [hpaths, preprocessedSet_length, hB]
  obtain ⟨s4, hcb4, hpos4, hpaths4, hact4⟩ :
      ∃ s4, (s2.callbackGetCurrentPose E P).callbackGetGlobalPlannerPath E B = some s4 ∧
        s4.bNewCurrentPos = true ∧ s4.m_GlobalPaths = [] ∧
        s4.m_GlobalPathsToUse = s2.m_GlobalPathsToUse :=
    ⟨_, callbackGetGlobalPlannerPath_same_count E hrefl _ B hBne hcount, rfl, rfl, rfl⟩
  have hrun4 := run_snoc E _ _ _ s4 (Event.lane_waypoints_array B) [] hrun3
    (by simp [TrajectoryEvalCore.step, hcb4])
  refine ⟨s4, hrun4, hpos4, by rw [hact4, hact], ?_, ?_⟩
  · rw [hact4, hact]
    intro h
    have hl := preprocessedSet_length E c.m_PlanningParams.pathDensity [] A
    rw [h] at hl
    exact hA (List.length_eq_zero.mp hl.symm)
  · exact run_single E s4 s4 Event.tick _ (MainLoop_gate_closed E s4 (Or.inr hpaths4))

theorem same_count_replacement_stops_scoring_witness :
    convertLanes sampleExternal samplePathB.lanes [] ≠
      convertLanes sampleExternal samplePathA.lanes [] ∧
    ∃ s, TrajectoryEvalCore.run sampleExternal (TrajectoryEvalCore.initial sampleStartUp)
        [Event.lane_waypoints_array samplePathA, Event.local_trajectories (sampleRollOuts 1),
          Event.current_pose (samplePose 3), Event.lane_waypoints_array samplePathB] =
        some (s, []) ∧
      s.bNewCurrentPos = true ∧
      s.m_GlobalPathsToUse = preprocessedSet sampleExternal 1 [] samplePathA ∧
      s.m_GlobalPathsToUse ≠ [] ∧
      TrajectoryEvalCore.run sampleExternal s [Event.tick] =
        some (s, [Effect.subscribe_lane_waypoints_array]) :=
  ⟨by decide,
    same_count_replacement_stops_scoring sampleExternal
      (fun p => by simp [sampleExternal, sampleCompareTrajectories]) sampleStartUp samplePathA
      (sampleRollOuts 1) samplePathB (samplePose 3) (by simp [samplePathA])
      (by simp [sampleRollOuts]) (by rfl) (by rfl)⟩

/-- The part of the second half of sync correctness that the code keeps: while only
iterations of MainLoop run and only roll-out batches arrive whose tag differs from the path
id of the held set, the active set, the held set and the pending flag stay as they are. -/
theorem active_set_kept_without_matching_batch (E : External) (s0 : TrajectoryEvalCore) :
    ∀ (evs : List Event) (s s2 : TrajectoryEvalCore) (out : List Effect),
      (∀ e ∈ evs, e = Event.tick ∨ ∃ msg, e = Event.local_trajectories msg ∧
        firstPointGid s0.m_GlobalPaths ≠ some (rollOutsTag E msg)) →
      (s.m_GlobalPathsToUse = s0.m_GlobalPathsToUse ∧ s.m_GlobalPaths = s0.m_GlobalPaths ∧
        s.bWayGlobalPath = s0.bWayGlobalPath) →
      TrajectoryEvalCore.run E s evs = some (s2, out) →
      s2.m_GlobalPathsToUse = s0.m_GlobalPathsToUse ∧ s2.m_GlobalPaths = s0.m_GlobalPaths ∧
        s2.bWayGlobalPath = s0.bWayGlobalPath := by
  intro evs
  induction evs with
  | nil =>
    intro s s2 out _ hP h
    simp only [TrajectoryEvalCore.run, Option.some.injEq, Prod.mk.injEq] at h
    rw [← h.1]
    exact hP
  | cons e es ih =>
    intro s s2 out hev hP h
    cases hs : s.step E e with
    | none => simp [TrajectoryEvalCore.run, hs] at h
    | some r =>
      obtain ⟨s1, out1⟩ := r
      rw [run_cons_of_step E s s1 e es out1 hs] at h
      cases hr : TrajectoryEvalCore.run E s1 es with
      | none => simp [hr] at h
      | some r2 =>
        obtain ⟨s3, out3⟩ := r2
        simp only [hr, Option.map_some', Option.some.injEq, Prod.mk.injEq] at h
        have hP1 : s1.m_GlobalPathsToUse = s0.m_GlobalPathsToUse ∧
            s1.m_GlobalPaths = s0.m_GlobalPaths ∧
            s1.bWayGlobalPath = s0.bWayGlobalPath := by
          rcases hev e (List.mem_cons_self e es) with he | ⟨msg, he, hmsg⟩
          · subst he
            simp only [TrajectoryEvalCore.step] at hs
            obtain ⟨⟨sections, prev, t, calculator, hs1⟩, _⟩ := MainLoop_frame E s s1 out1 hs
            rw [hs1]
            exact hP
          · subst he
            simp only [TrajectoryEvalCore.step, Option.some.injEq, Prod.mk.injEq] at hs
            rw [← hs.1]
            by_cases hne : msg.lanes = []
            · rw [callbackGetLocalPlannerPath_empty E s msg hne]
              exact hP
            · have hc : ¬ (s.bWayGlobalPath = true ∧
                  firstPointGid s.m_GlobalPaths = some (rollOutsTag E msg)) := by
                rintro ⟨_, hg⟩
                rw [hP.2.1] at hg
                exact hmsg hg
              rw [callbackGetLocalPlannerPath_eq E s msg hne, if_neg hc]
              exact hP
        have := ih s1 s3 out3 (fun e he => hev e (List.mem_cons_of_mem _ he)) hP1 hr
        rw [← h.1]
        exact this

/-! ### Index hints and the gate of MainLoop -/

/-- C8 (defect of the code): the index hint is not reset on a later promotion. Line 196
appends one `0` per accepted path to `m_prev_index` and nothing ever removes or resets an
entry, so when a set B is accepted (its number of paths differs from the held one) and then
promoted by a matching batch, the hint that the next iteration reads for the first path of
B, `m_prev_index.at(0)`, is still the hint `h` left by the previously active path. -/
theorem promotion_keeps_earlier_hint (E : External) (s : TrajectoryEvalCore)
    (B R : autoware_msgs.LaneArray) (h : Int) (hB : B.lanes ≠ []) (hR : R.lanes ≠ [])
    (hcount : s.m_GlobalPaths.length ≠ B.lanes.length)
    (hg : firstPointGid
        (preprocessedSet E s.m_PlanningParams.pathDensity s.m_temp_path B) =
      some (rollOutsTag E R))
    (hhint : s.m_prev_index.get? 0 = some h) :
    ∃ s2, TrajectoryEvalCore.run E s
        [Event.lane_waypoints_array B, Event.local_trajectories R] = some (s2, []) ∧
      s2.bWayGlobalPath = false ∧
      s2.m_GlobalPathsToUse =
        preprocessedSet E s.m_PlanningParams.pathDensity s.m_temp_path B ∧
      s2.m_prev_index.get? 0 = some h := by
  obtain ⟨s1, hcb, hb, hpaths, hprev⟩ :
      ∃ s1, s.callbackGetGlobalPlannerPath E B = some s1 ∧ s1.bWayGlobalPath = true ∧
        s1.m_GlobalPaths =
          preprocessedSet E s.m_PlanningParams.pathDensity s.m_temp_path B ∧
        s1.m_prev_index = s.m_prev_index ++ List.replicate B.lanes.length 0 :=
    ⟨_, callbackGetGlobalPlannerPath_new E s B hB hcount, rfl, rfl, rfl⟩
  have hrun1 : TrajectoryEvalCore.run E s [Event.lane_waypoints_array B] = some (s1, []) :=
    run_single E s s1 _ [] (by simp [TrajectoryEvalCore.step, hcb])
  have hrun2 := run_snoc E _ s s1 (s1.callbackGetLocalPlannerPath E R)
    (Event.local_trajectories R) [] hrun1 rfl
  refine ⟨_, hrun2, ?_, ?_, ?_⟩
  · rw [callbackGetLocalPlannerPath_eq E s1 R hR]
    simp [hb, hpaths, hg]
  · rw [callbackGetLocalPlannerPath_eq E s1 R hR]
    simp [hb, hpaths, hg]
  · have hframe : (s1.callbackGetLocalPlannerPath E R).m_prev_index = s1.m_prev_index := by
      obtain ⟨rollOuts, b, active, r, hcb2⟩ := callbackGetLocalPlannerPath_frame E s1 R
      rw [hcb2]
    rw [hframe, hprev]
    cases hp : s.m_prev_index with
    | nil => rw [hp] at hhint; simp at hhint
    | cons a rest =>
      rw [hp] at hhint
      simpa using hhint

theorem promotion_keeps_earlier_hint_witness :
    (TrajectoryEvalCore.run sampleExternal (TrajectoryEvalCore.initial sampleStartUp)
        [Event.lane_waypoints_array samplePathA, Event.local_trajectories (sampleRollOuts 1),
          Event.current_pose (samplePose 3), Event.tick]).map (fun r => r.1) =
      some sampleAdvanced ∧
    sampleAdvanced.m_prev_index = [2] ∧
    ∃ s2, TrajectoryEvalCore.run sampleExternal sampleAdvanced
        [Event.lane_waypoints_array samplePathC, Event.local_trajectories (sampleRollOuts 3)] =
          some (s2, []) ∧
      s2.bWayGlobalPath = false ∧
      s2.m_GlobalPathsToUse = preprocessedSet sampleExternal 1 [] samplePathC ∧
      s2.m_prev_index.get? 0 = some 2 :=
  ⟨by rfl, by rfl,
    promotion_keeps_earlier_hint sampleExternal sampleAdvanced samplePathC (sampleRollOuts 3) 2
      (by simp [samplePathC]) (by simp [sampleRollOuts]) (by decide) (by rfl) (by rfl)⟩

/-- An iteration that passes the gate while no set is active extracts no section, does not
evaluate, and publishes the per-candidate list of the calculator as it stands. -/
theorem MainLoop_no_active (E : External) (s : TrajectoryEvalCore)
    (hpos : s.bNewCurrentPos = true) (hheld : s.m_GlobalPaths ≠ [])
    (hact : s.m_GlobalPathsToUse = [])
    (hcalc : s.m_TrajectoryCostsCalculator = newTrajectoryCostsCalculator) :
    s.MainLoop E =
      some ({ s with m_GlobalPathSections := [] },
        [Effect.pub_LocalWeightedTrajectories { lanes := [] }]) := by
  have hlen : s.m_GlobalPaths.length > 0 := List.length_pos.mpr hheld
  simp [TrajectoryEvalCore.MainLoop, hpos, hlen, hact, extractSectionsLoop,
    evaluateSections_nil, hcalc, newTrajectoryCostsCalculator, localLanesLoop, rvizEffects]

/-- As long as no set has been promoted the calculator is in its constructed state. -/
theorem step_calculator_untouched (E : External) (s : TrajectoryEvalCore) (e : Event)
    (s1 : TrajectoryEvalCore) (out : List Effect)
    (hP : s.m_GlobalPathsToUse = [] →
      s.m_TrajectoryCostsCalculator = newTrajectoryCostsCalculator)
    (h : s.step E e = some (s1, out)) :
    (s1.m_GlobalPathsToUse = [] →
      s1.m_TrajectoryCostsCalculator = newTrajectoryCostsCalculator) ∧
      ∀ x ∈ out, True := by
  refine ⟨?_, fun _ _ => trivial⟩
  cases e with
  | current_pose msg =>
    simp only [TrajectoryEvalCore.step, Option.some.injEq, Prod.mk.injEq] at h
    rw [← h.1]; exact hP
  | current_velocity msg now =>
    simp only [TrajectoryEvalCore.step, Option.some.injEq, Prod.mk.injEq] at h
    rw [← h.1]; exact hP
  | can_info msg now =>
    simp only [TrajectoryEvalCore.step, Option.some.injEq, Prod.mk.injEq] at h
    rw [← h.1]; exact hP
  | robot_odom msg now =>
    simp only [TrajectoryEvalCore.step, Option.some.injEq, Prod.mk.injEq] at h
    rw [← h.1]; exact hP
  | lane_waypoints_array msg =>
    obtain ⟨tmp, b, paths, k, hcb⟩ := callbackGetGlobalPlannerPath_frame E s msg
    simp only [TrajectoryEvalCore.step, hcb, Option.map_some', Option.some.injEq,
      Prod.mk.injEq] at h
    rw [← h.1]; exact hP
  | local_trajectories msg =>
    simp only [TrajectoryEvalCore.step, Option.some.injEq, Prod.mk.injEq] at h
    rw [← h.1]
    by_cases hne : msg.lanes = []
    · rw [callbackGetLocalPlannerPath_empty E s msg hne]; exact hP
    · rw [callbackGetLocalPlannerPath_eq E s msg hne]
      split
      · rename_i hc
        intro hact
        simp only at hact
        rw [hact] at hc
        simp [firstPointGid] at hc
      · exact hP
  | predicted_objects msg =>
    simp only [TrajectoryEvalCore.step, Option.some.injEq, Prod.mk.injEq] at h
    rw [← h.1]; exact hP
  | current_behavior msg =>
    simp only [TrajectoryEvalCore.step, Option.some.injEq, Prod.mk.injEq] at h
    rw [← h.1]; exact hP
  | tick =>
    simp only [TrajectoryEvalCore.step] at h
    intro hact1
    have hact : s.m_GlobalPathsToUse = [] := by
      obtain ⟨⟨sections, prev, t, calculator, hs1⟩, _⟩ := MainLoop_frame E s s1 out h
      rw [hs1] at hact1
      exact hact1
    by_cases hgate : s.bNewCurrentPos = true ∧ s.m_GlobalPaths ≠ []
    · rw [MainLoop_no_active E s hgate.1 hgate.2 hact (hP hact)] at h
      simp only [Option.some.injEq, Prod.mk.injEq] at h
      rw [← h.1]
      exact hP hact
    · have hclosed : s.bNewCurrentPos = false ∨ s.m_GlobalPaths = [] := by
        by_cases hb : s.bNewCurrentPos = true
        · right
          by_contra hne
          exact hgate ⟨hb, hne⟩
        · left
          simpa using hb
      rw [MainLoop_gate_closed E s hclosed] at h
      simp only [Option.some.injEq, Prod.mk.injEq] at h
      rw [← h.1]
      exact hP hact

/-- C9: warm-up is a no-op. In every state the node reaches from its constructed state, if
no pose has been received or no reference path set has been promoted, the iteration of
MainLoop completes without invoking the cost evaluator and without publishing a
selected-trajectory cost record, and it leaves the index hints and the calculator as they
were. -/
theorem warm_up_tick_does_not_evaluate (E : External) (c : StartUp) (evs : List Event)
    (s : TrajectoryEvalCore) (out : List Effect)
    (hrun : TrajectoryEvalCore.run E (TrajectoryEvalCore.initial c) evs = some (s, out))
    (hwarm : s.bNewCurrentPos = false ∨ s.m_GlobalPathsToUse = []) :
    ∃ s1 eff, s.MainLoop E = some (s1, eff) ∧
      (∀ call, Effect.doOneStep call ∉ eff) ∧
      (∀ l, Effect.pub_TrajectoryCost l ∉ eff) ∧
      s1.m_prev_index = s.m_prev_index ∧
      s1.m_TrajectoryCostsCalculator = s.m_TrajectoryCostsCalculator := by
  have hinv := (run_induction E
    (fun s => s.m_GlobalPathsToUse = [] →
      s.m_TrajectoryCostsCalculator = newTrajectoryCostsCalculator)
    (fun _ => True)
    (fun s e s1 out hP hs => step_calculator_untouched E s e s1 out hP hs)
    evs (TrajectoryEvalCore.initial c) s out
    (by intro _; rfl) hrun).1
  by_cases hgate : s.bNewCurrentPos = true ∧ s.m_GlobalPaths ≠ []
  · have hact : s.m_GlobalPathsToUse = [] := by
      rcases hwarm with hw | hw
      · rw [hw] at hgate; exact absurd hgate.1 (by simp)
      · exact hw
    exact ⟨_, _, MainLoop_no_active E s hgate.1 hgate.2 hact (hinv hact), by simp, by simp,
      rfl, rfl⟩
  · have hclosed : s.bNewCurrentPos = false ∨ s.m_GlobalPaths = [] := by
      by_cases hb : s.bNewCurrentPos = true
      · right
        by_contra hne
        exact hgate ⟨hb, hne⟩
      · left
        simpa using hb
    exact ⟨_, _, MainLoop_gate_closed E s hclosed, by simp, by simp, rfl, rfl⟩

theorem warm_up_tick_does_not_evaluate_witness :
    ∃ s1 eff, (sampleState [Event.lane_waypoints_array samplePathA,
        Event.current_pose (samplePose 3)]).MainLoop sampleExternal = some (s1, eff) ∧
      (∀ call, Effect.doOneStep call ∉ eff) ∧
      (∀ l, Effect.pub_TrajectoryCost l ∉ eff) ∧
      s1.m_prev_index = (sampleState [Event.lane_waypoints_array samplePathA,
        Event.current_pose (samplePose 3)]).m_prev_index ∧
      s1.m_TrajectoryCostsCalculator = (sampleState [Event.lane_waypoints_array samplePathA,
        Event.current_pose (samplePose 3)]).m_TrajectoryCostsCalculator :=
  warm_up_tick_does_not_evaluate sampleExternal sampleStartUp
    [Event.lane_waypoints_array samplePathA, Event.current_pose (samplePose 3)]
    (sampleState [Event.lane_waypoints_array samplePathA, Event.current_pose (samplePose 3)])
    [] (by rfl) (Or.inr (by rfl))

/-- C10 (defect of the code): output is withheld although a pose was received and a set is
active. The gate of line 276 tests the held buffer `m_GlobalPaths`, not the active set
`m_GlobalPathsToUse`; whenever `m_GlobalPaths` is empty (line 202 empties it when a set is
taken for the old one) the iteration neither invokes the cost evaluator nor publishes
anything: it only renews the subscription and leaves the state as it is. -/
theorem tick_withheld_while_held_paths_empty (E : External) (s : TrajectoryEvalCore)
    (hheld : s.m_GlobalPaths = []) :
    s.MainLoop E = some (s, [Effect.subscribe_lane_waypoints_array]) :=
  MainLoop_gate_closed E s (Or.inr hheld)

theorem tick_withheld_while_held_paths_empty_witness :
    TrajectoryEvalCore.run sampleExternal (TrajectoryEvalCore.initial sampleStartUp)
        [Event.lane_waypoints_array samplePathA, Event.local_trajectories (sampleRollOuts 1),
          Event.current_pose (samplePose 3), Event.lane_waypoints_array samplePathA] =
      some (sampleResent, []) ∧
    sampleResent.bNewCurrentPos = true ∧
    sampleResent.m_GlobalPathsToUse = preprocessedSet sampleExternal 1 [] samplePathA ∧
    sampleResent.m_GlobalPathsToUse ≠ [] ∧
    sampleResent.MainLoop sampleExternal =
      some (sampleResent, [Effect.subscribe_lane_waypoints_array]) :=
  ⟨by rfl, by rfl, by rfl, by decide,
    tick_withheld_while_held_paths_empty sampleExternal sampleResent (by rfl)⟩

/-! ### The loops of MainLoop in closed form -/

theorem extractSectionsLoop_eq (E : External) (pose : WayPoint) (params : PlanningParams) :
    ∀ (paths : List (List WayPoint)) (pre rest : List Int) (sections : List (List WayPoint))
      (t : List WayPoint), paths.length ≤ rest.length →
      extractSectionsLoop E pose params paths pre.length (pre ++ rest) sections t =
        some (pre ++ updatedHints E pose params paths rest,
          sections ++ extractedWindows E pose params paths rest,
          ((extractedWindows E pose params paths rest).getLast?).getD t) := by
  intro paths
  induction paths with
  | nil =>
    intro pre rest sections t _
    simp [extractSectionsLoop, updatedHints, extractedWindows]
  | cons path paths ih =>
    intro pre rest sections t hlen
    cases rest with
    | nil => simp at hlen
    | cons h rest1 =>
      have hlen1 : paths.length ≤ rest1.length := by simpa using hlen
      have hget : (pre ++ h :: rest1).get? pre.length = some h := by
        rw [List.get?_eq_getElem?, List.getElem?_append_right (le_refl _)]
        simp
      have hset : ∀ a b : Int, (pre ++ a :: rest1).set pre.length b = pre ++ b :: rest1 := by
        intro a b
        simp
      have hih := ih (pre ++ [storedHint (extraction E pose params path h).2]) rest1
        (sections ++ [(extraction E pose params path h).1])
        (extraction E pose params path h).1 hlen1
      simp only [List.length_append, List.length_singleton, List.append_assoc,
        List.singleton_append] at hih
      have hlast : ((extractedWindows E pose params (path :: paths) (h :: rest1)).getLast?).getD t =
          ((extractedWindows E pose params paths rest1).getLast?).getD
            (extraction E pose params path h).1 := by
        simp only [extractedWindows]
        cases extractedWindows E pose params paths rest1 with
        | nil => simp
        | cons a l => simp [List.getLast?_eq_getLast _ (List.cons_ne_nil a l)]
      rw [hlast]
      simp only [extractSectionsLoop, hget, hset, updatedHints, extractedWindows]
      simp only [extraction, storedHint] at hih ⊢
      by_cases hk : (E.ExtractPartFromPointToDistanceDirectionFast path pose
          params.horizonDistance params.pathDensity [] h).2 > 0
      · simp only [hk, if_true, hset] at hih ⊢
        exact hih
      · simp only [hk, if_false] at hih ⊢
        exact hih

theorem updatedHints_length (E : External) (pose : WayPoint) (params : PlanningParams) :
    ∀ (paths : List (List WayPoint)) (hints : List Int),
      (updatedHints E pose params paths hints).length = hints.length := by
  intro paths
  induction paths with
  | nil => intro hints; simp [updatedHints]
  | cons path paths ih =>
    intro hints
    cases hints with
    | nil => simp [updatedHints]
    | cons h rest => simp [updatedHints, ih]

theorem extractedWindows_length (E : External) (pose : WayPoint) (params : PlanningParams) :
    ∀ (paths : List (List WayPoint)) (hints : List Int), paths.length ≤ hints.length →
      (extractedWindows E pose params paths hints).length = paths.length := by
  intro paths
  induction paths with
  | nil => intro hints _; simp [extractedWindows]
  | cons path paths ih =>
    intro hints hlen
    cases hints with
    | nil => simp at hlen
    | cons h rest =>
      have hlen1 : paths.length ≤ rest.length := by simpa using hlen
      simp [extractedWindows, ih rest hlen1]

theorem localLanesLoop_eq (E : External) :
    ∀ (rollOuts : List (List WayPoint)) (pre rest : List TrajectoryCost)
      (lanes : List autoware_msgs.Lane), rollOuts.length ≤ rest.length →
      localLanesLoop E (pre ++ rest) rollOuts pre.length lanes =
        some (lanes ++ candidateLanes E rollOuts rest pre.length) := by
  intro rollOuts
  induction rollOuts with
  | nil =>
    intro pre rest lanes _
    simp [localLanesLoop, candidateLanes]
  | cons ro rollOuts ih =>
    intro pre rest lanes hlen
    cases rest with
    | nil => simp at hlen
    | cons tc rest1 =>
      have hlen1 : rollOuts.length ≤ rest1.length := by simpa using hlen
      have hget : (pre ++ tc :: rest1).get? pre.length = some tc := by
        rw [List.get?_eq_getElem?, List.getElem?_append_right (le_refl _)]
        simp
      have hih := ih (pre ++ [tc]) rest1 (lanes ++ [candidateLane E ro tc pre.length]) hlen1
      simp only [List.length_append, List.length_singleton, List.append_assoc,
        List.singleton_append] at hih
      simp only [localLanesLoop, hget, candidateLanes]
      exact hih

/-- When the calculator holds fewer costs than roll-outs, `trajectory_costs_.at(i)` of line
309 throws. -/
theorem localLanesLoop_none (E : External) :
    ∀ (rollOuts : List (List WayPoint)) (pre rest : List TrajectoryCost)
      (lanes : List autoware_msgs.Lane), rest.length < rollOuts.length →
      localLanesLoop E (pre ++ rest) rollOuts pre.length lanes = none := by
  intro rollOuts
  induction rollOuts with
  | nil => intro pre rest lanes hlen; simp at hlen
  | cons ro rollOuts ih =>
    intro pre rest lanes hlen
    cases rest with
    | nil =>
      have hget : (pre ++ []).get? pre.length = (none : Option TrajectoryCost) := by
        simp
      simp only [localLanesLoop, hget]
    | cons tc rest1 =>
      have hlen1 : rest1.length < rollOuts.length := by simpa using hlen
      have hget : (pre ++ tc :: rest1).get? pre.length = some tc := by
        rw [List.get?_eq_getElem?, List.getElem?_append_right (le_refl _)]
        simp
      have hih := ih (pre ++ [tc]) rest1 (lanes ++ [candidateLane E ro tc pre.length]) hlen1
      simp only [List.length_append, List.length_singleton, List.append_assoc,
        List.singleton_append] at hih
      simp only [localLanesLoop, hget]
      exact hih

/-- An iteration that passes the gate, as long as there is an index hint for every active
path: the extraction loop completes, and the iteration completes exactly when the loop over
the calculator's roll-outs does. -/
theorem MainLoop_open (E : External) (s : TrajectoryEvalCore)
    (hpos : s.bNewCurrentPos = true) (hheld : s.m_GlobalPaths ≠ [])
    (hlen : s.m_GlobalPathsToUse.length ≤ s.m_prev_index.length) :
    s.MainLoop E =
      match localLanesLoop E
        (evaluateSections E (s.afterExtraction E)).1.m_TrajectoryCostsCalculator.trajectory_costs_
        (evaluateSections E (s.afterExtraction E)).1.m_TrajectoryCostsCalculator.local_roll_outs_
        0 [] with
      | none => none
      | some lanes =>
        some ((evaluateSections E (s.afterExtraction E)).1,
          (evaluateSections E (s.afterExtraction E)).2 ++
            [Effect.pub_LocalWeightedTrajectories { lanes := lanes }] ++
            rvizEffects (evaluateSections E (s.afterExtraction E)).1.m_TrajectoryCostsCalculator) := by
  have hgate : (s.bNewCurrentPos && decide (s.m_GlobalPaths.length > 0)) = true := by
    simp [hpos, List.length_pos.mpr hheld]
  have hex := extractSectionsLoop_eq E s.m_CurrentPos s.m_PlanningParams s.m_GlobalPathsToUse
    [] s.m_prev_index [] s.t_centerTrajectorySmoothed hlen
  simp only [List.length_nil, List.nil_append] at hex
  simp only [TrajectoryEvalCore.MainLoop, hgate, if_true, hex]
  rfl

/-- An iteration that passes the gate in a state with an index hint for every active path
and a calculator that, after the evaluation step, holds a cost for every roll-out: the
iteration completes, and its result and effects are the following. -/
theorem MainLoop_evaluating (E : External) (s : TrajectoryEvalCore)
    (hpos : s.bNewCurrentPos = true) (hheld : s.m_GlobalPaths ≠ [])
    (hlen : s.m_GlobalPathsToUse.length ≤ s.m_prev_index.length)
    (hpair : PairedCalculator (evaluateSections E (s.afterExtraction E)).1.m_TrajectoryCostsCalculator) :
    s.MainLoop E =
      some ((evaluateSections E (s.afterExtraction E)).1,
        (evaluateSections E (s.afterExtraction E)).2 ++
          [Effect.pub_LocalWeightedTrajectories
            { lanes := candidateLanes E
                (evaluateSections E (s.afterExtraction E)).1.m_TrajectoryCostsCalculator.local_roll_outs_
                (evaluateSections E (s.afterExtraction E)).1.m_TrajectoryCostsCalculator.trajectory_costs_
                0 }] ++
          rvizEffects (evaluateSections E (s.afterExtraction E)).1.m_TrajectoryCostsCalculator) := by
  have hl := localLanesLoop_eq E
    (evaluateSections E (s.afterExtraction E)).1.m_TrajectoryCostsCalculator.local_roll_outs_ []
    (evaluateSections E (s.afterExtraction E)).1.m_TrajectoryCostsCalculator.trajectory_costs_
    [] hpair
  simp only [List.length_nil, List.nil_append] at hl
  rw [MainLoop_open E s hpos hheld hlen, hl]

/-! ### Invariants of the executions -/

/-- The three outcomes of the reference-path callback. -/
theorem callbackGetGlobalPlannerPath_cases (E : External) (s : TrajectoryEvalCore)
    (msg : autoware_msgs.LaneArray) :
    s.callbackGetGlobalPlannerPath E msg = some s ∨
    s.callbackGetGlobalPlannerPath E msg =
      some { s with
             m_temp_path := finalTempPath E msg.lanes s.m_temp_path
             bWayGlobalPath := true
             m_GlobalPaths := preprocessedSet E s.m_PlanningParams.pathDensity s.m_temp_path msg
             m_prev_index := s.m_prev_index ++ List.replicate msg.lanes.length 0 } ∨
    s.callbackGetGlobalPlannerPath E msg =
      some { s with
             m_temp_path := finalTempPath E msg.lanes s.m_temp_path
             m_GlobalPaths := [] } := by
  by_cases hpos : msg.lanes.length > 0
  · cases hb : (decide (s.m_GlobalPaths.length = msg.lanes.length) &&
        (convertLanes E msg.lanes s.m_temp_path).all (fun p => E.CompareTrajectories p p))
    · right; left
      simp [TrajectoryEvalCore.callbackGetGlobalPlannerPath, hpos,
        convertGlobalPathsLoop_eq, hb, preprocessGlobalPathsLoop_eq, preprocessedSet,
        convertLanes_length]
    · right; right
      simp [TrajectoryEvalCore.callbackGetGlobalPlannerPath, hpos,
        convertGlobalPathsLoop_eq, hb]
  · left
    simp [TrajectoryEvalCore.callbackGetGlobalPlannerPath, hpos]

/-- Every step keeps an index hint for every held path and for every active path. -/
theorem step_hints (E : External) (s : TrajectoryEvalCore) (e : Event)
    (s1 : TrajectoryEvalCore) (out : List Effect)
    (hP : s.m_GlobalPaths.length ≤ s.m_prev_index.length ∧
      s.m_GlobalPathsToUse.length ≤ s.m_prev_index.length)
    (h : s.step E e = some (s1, out)) :
    (s1.m_GlobalPaths.length ≤ s1.m_prev_index.length ∧
      s1.m_GlobalPathsToUse.length ≤ s1.m_prev_index.length) ∧ ∀ x ∈ out, True := by
  refine ⟨?_, fun _ _ => trivial⟩
  cases e with
  | current_pose msg =>
    simp only [TrajectoryEvalCore.step, Option.some.injEq, Prod.mk.injEq] at h
    rw [← h.1]; exact hP
  | current_velocity msg now =>
    simp only [TrajectoryEvalCore.step, Option.some.injEq, Prod.mk.injEq] at h
    rw [← h.1]; exact hP
  | can_info msg now =>
    simp only [TrajectoryEvalCore.step, Option.some.injEq, Prod.mk.injEq] at h
    rw [← h.1]; exact hP
  | robot_odom msg now =>
    simp only [TrajectoryEvalCore.step, Option.some.injEq, Prod.mk.injEq] at h
    rw [← h.1]; exact hP
  | lane_waypoints_array msg =>
    simp only [TrajectoryEvalCore.step] at h
    rcases callbackGetGlobalPlannerPath_cases E s msg with hcb | hcb | hcb
    · simp only [hcb, Option.map_some', Option.some.injEq, Prod.mk.injEq] at h
      rw [← h.1]; exact hP
    · simp only [hcb, Option.map_some', Option.some.injEq, Prod.mk.injEq] at h
      rw [← h.1]
      constructor
      · simp only [List.length_append, List.length_replicate, preprocessedSet_length]
        omega
      · simp only [List.length_append, List.length_replicate]
        omega
    · simp only [hcb, Option.map_some', Option.some.injEq, Prod.mk.injEq] at h
      rw [← h.1]
      exact ⟨by simp, hP.2⟩
  | local_trajectories msg =>
    simp only [TrajectoryEvalCore.step, Option.some.injEq, Prod.mk.injEq] at h
    rw [← h.1]
    by_cases hne : msg.lanes = []
    · rw [callbackGetLocalPlannerPath_empty E s msg hne]; exact hP
    · rw [callbackGetLocalPlannerPath_eq E s msg hne]
      split
      · exact ⟨hP.1, hP.1⟩
      · exact hP
  | predicted_objects msg =>
    simp only [TrajectoryEvalCore.step, Option.some.injEq, Prod.mk.injEq] at h
    rw [← h.1]; exact hP
  | current_behavior msg =>
    simp only [TrajectoryEvalCore.step, Option.some.injEq, Prod.mk.injEq] at h
    rw [← h.1]; exact hP
  | tick =>
    simp only [TrajectoryEvalCore.step] at h
    by_cases hgate : s.bNewCurrentPos = true ∧ s.m_GlobalPaths ≠ []
    · rw [MainLoop_open E s hgate.1 hgate.2 hP.2] at h
      split at h
      · exact absurd h (by simp)
      · simp only [Option.some.injEq, Prod.mk.injEq] at h
        obtain ⟨⟨calculator, hc⟩, _⟩ := evaluateSections_frame E (s.afterExtraction E)
        rw [← h.1, hc]
        simp only [TrajectoryEvalCore.afterExtraction, updatedHints_length]
        exact hP
    · have hclosed : s.bNewCurrentPos = false ∨ s.m_GlobalPaths = [] := by
        by_cases hb : s.bNewCurrentPos = true
        · right
          by_contra hne
          exact hgate ⟨hb, hne⟩
        · left
          simpa using hb
      rw [MainLoop_gate_closed E s hclosed] at h
      simp only [Option.some.injEq, Prod.mk.injEq] at h
      rw [← h.1]
      exact hP

/-- In every state the node reaches there is an index hint for every held path and for
every active path. -/
theorem reachable_hints (E : External) (c : StartUp) (evs : List Event)
    (s : TrajectoryEvalCore) (out : List Effect)
    (hrun : TrajectoryEvalCore.run E (TrajectoryEvalCore.initial c) evs = some (s, out)) :
    s.m_GlobalPaths.length ≤ s.m_prev_index.length ∧
      s.m_GlobalPathsToUse.length ≤ s.m_prev_index.length :=
  (run_induction E
    (fun s => s.m_GlobalPaths.length ≤ s.m_prev_index.length ∧
      s.m_GlobalPathsToUse.length ≤ s.m_prev_index.length)
    (fun _ => True)
    (fun s e s1 out hP hs => step_hints E s e s1 out hP hs)
    evs (TrajectoryEvalCore.initial c) s out
    (by simp [TrajectoryEvalCore.initial]) hrun).1

theorem evaluateSections_paired (E : External) (hE : E.PairedReports)
    (s : TrajectoryEvalCore) (hP : PairedCalculator s.m_TrajectoryCostsCalculator) :
    PairedCalculator (evaluateSections E s).1.m_TrajectoryCostsCalculator := by
  obtain h | ⟨section0, rest, h⟩ :
      s.m_GlobalPathSections = [] ∨ ∃ a l, s.m_GlobalPathSections = a :: l := by
    cases s.m_GlobalPathSections <;> simp
  · rw [evaluateSections_nil E s h]; exact hP
  · rw [evaluateSections_cons E s section0 rest h]
    exact hE _ _

/-- With a calculator that pairs its reports, every step keeps the calculator paired. -/
theorem step_paired (E : External) (hE : E.PairedReports) (s : TrajectoryEvalCore)
    (e : Event) (s1 : TrajectoryEvalCore) (out : List Effect)
    (hP : PairedCalculator s.m_TrajectoryCostsCalculator)
    (h : s.step E e = some (s1, out)) :
    PairedCalculator s1.m_TrajectoryCostsCalculator ∧ ∀ x ∈ out, True := by
  refine ⟨?_, fun _ _ => trivial⟩
  cases e with
  | current_pose msg =>
    simp only [TrajectoryEvalCore.step, Option.some.injEq, Prod.mk.injEq] at h
    rw [← h.1]; exact hP
  | current_velocity msg now =>
    simp only [TrajectoryEvalCore.step, Option.some.injEq, Prod.mk.injEq] at h
    rw [← h.1]; exact hP
  | can_info msg now =>
    simp only [TrajectoryEvalCore.step, Option.some.injEq, Prod.mk.injEq] at h
    rw [← h.1]; exact hP
  | robot_odom msg now =>
    simp only [TrajectoryEvalCore.step, Option.some.injEq, Prod.mk.injEq] at h
    rw [← h.1]; exact hP
  | lane_waypoints_array msg =>
    obtain ⟨tmp, b, paths, k, hcb⟩ := callbackGetGlobalPlannerPath_frame E s msg
    simp only [TrajectoryEvalCore.step, hcb, Option.map_some', Option.some.injEq,
      Prod.mk.injEq] at h
    rw [← h.1]; exact hP
  | local_trajectories msg =>
    obtain ⟨rollOuts, b, active, r, hcb⟩ := callbackGetLocalPlannerPath_frame E s msg
    simp only [TrajectoryEvalCore.step, hcb, Option.some.injEq, Prod.mk.injEq] at h
    rw [← h.1]; exact hP
  | predicted_objects msg =>
    simp only [TrajectoryEvalCore.step, Option.some.injEq, Prod.mk.injEq] at h
    rw [← h.1]; exact hP
  | current_behavior msg =>
    simp only [TrajectoryEvalCore.step, Option.some.injEq, Prod.mk.injEq] at h
    rw [← h.1]; exact hP
  | tick =>
    simp only [TrajectoryEvalCore.step] at h
    unfold TrajectoryEvalCore.MainLoop at h
    split at h
    · split at h
      · exact absurd h (by simp)
      · rename_i prev sections t hex
        dsimp only at h
        split at h
        · exact absurd h (by simp)
        · simp only [Option.some.injEq, Prod.mk.injEq] at h
          rw [← h.1]
          exact evaluateSections_paired E hE _ hP
    · simp only [Option.some.injEq, Prod.mk.injEq] at h
      rw [← h.1]; exact hP

/-- With a calculator that pairs its reports, the calculator is paired in every state the
node reaches. -/
theorem reachable_paired (E : External) (hE : E.PairedReports) (c : StartUp)
    (evs : List Event) (s : TrajectoryEvalCore) (out : List Effect)
    (hrun : TrajectoryEvalCore.run E (TrajectoryEvalCore.initial c) evs = some (s, out)) :
    PairedCalculator s.m_TrajectoryCostsCalculator :=
  (run_induction E (fun s => PairedCalculator s.m_TrajectoryCostsCalculator) (fun _ => True)
    (fun s e s1 out hP hs => step_paired E hE s e s1 out hP hs)
    evs (TrajectoryEvalCore.initial c) s out
    (by simp [TrajectoryEvalCore.initial, PairedCalculator]) hrun).1

/-- With a calculator that pairs its reports, no iteration of MainLoop throws in a state the
node reaches: the node's executions never end in an exception. -/
theorem reachable_MainLoop_completes (E : External) (hE : E.PairedReports) (c : StartUp)
    (evs : List Event) (s : TrajectoryEvalCore) (out : List Effect)
    (hrun : TrajectoryEvalCore.run E (TrajectoryEvalCore.initial c) evs = some (s, out)) :
    ∃ s1 eff, s.MainLoop E = some (s1, eff) := by
  by_cases hgate : s.bNewCurrentPos = true ∧ s.m_GlobalPaths ≠ []
  · exact ⟨_, _, MainLoop_evaluating E s hgate.1 hgate.2
      (reachable_hints E c evs s out hrun).2
      (evaluateSections_paired E hE _ (reachable_paired E hE c evs s out hrun))⟩
  · have hclosed : s.bNewCurrentPos = false ∨ s.m_GlobalPaths = [] := by
      by_cases hb : s.bNewCurrentPos = true
      · right
        by_contra hne
        exact hgate ⟨hb, hne⟩
      · left
        simpa using hb
    exact ⟨_, _, MainLoop_gate_closed E s hclosed⟩

/-! ### The claims on the indexing and the index hints of MainLoop -/

/-- C11: no exception escapes from the indexing of the extraction loop. In every state the
node reaches from its constructed state there are at least as many index hints as active
paths, so `m_prev_index.at(i)` is in range for every `i` below the number of active paths,
the loop of lines 280-288 completes with one section per active path and as many hints as
before, and `m_GlobalPathSections.at(0)`, read only when the sections are not empty, is in
range. -/
theorem tick_indexing_in_range (E : External) (c : StartUp) (evs : List Event)
    (s : TrajectoryEvalCore) (out : List Effect)
    (hrun : TrajectoryEvalCore.run E (TrajectoryEvalCore.initial c) evs = some (s, out)) :
    s.m_GlobalPathsToUse.length ≤ s.m_prev_index.length ∧
    (∀ i, i < s.m_GlobalPathsToUse.length → ∃ hint, s.m_prev_index.get? i = some hint) ∧
    (∃ prev sections t,
      extractSectionsLoop E s.m_CurrentPos s.m_PlanningParams s.m_GlobalPathsToUse 0
        s.m_prev_index [] s.t_centerTrajectorySmoothed = some (prev, sections, t) ∧
      sections.length = s.m_GlobalPathsToUse.length ∧
      prev.length = s.m_prev_index.length ∧
      (sections ≠ [] → ∃ section0, sections.get? 0 = some section0)) := by
  have hlen := (reachable_hints E c evs s out hrun).2
  refine ⟨hlen, ?_, ?_⟩
  · intro i hi
    have hi2 : i < s.m_prev_index.length := by omega
    exact ⟨s.m_prev_index.get ⟨i, hi2⟩, List.get?_eq_get hi2⟩
  · have hex := extractSectionsLoop_eq E s.m_CurrentPos s.m_PlanningParams
      s.m_GlobalPathsToUse [] s.m_prev_index [] s.t_centerTrajectorySmoothed hlen
    simp only [List.length_nil, List.nil_append] at hex
    refine ⟨_, _, _, hex, extractedWindows_length E _ _ _ _ hlen,
      updatedHints_length E _ _ _ _, ?_⟩
    intro hne
    cases hw : extractedWindows E s.m_CurrentPos s.m_PlanningParams s.m_GlobalPathsToUse
      s.m_prev_index with
    | nil => exact absurd hw hne
    | cons a l => exact ⟨a, rfl⟩

theorem tick_indexing_in_range_witness :
    sampleActive.m_GlobalPathsToUse.length ≤ sampleActive.m_prev_index.length ∧
    (∀ i, i < sampleActive.m_GlobalPathsToUse.length →
      ∃ hint, sampleActive.m_prev_index.get? i = some hint) ∧
    (∃ prev sections t,
      extractSectionsLoop sampleExternal sampleActive.m_CurrentPos
        sampleActive.m_PlanningParams sampleActive.m_GlobalPathsToUse 0
        sampleActive.m_prev_index [] sampleActive.t_centerTrajectorySmoothed =
          some (prev, sections, t) ∧
      sections.length = sampleActive.m_GlobalPathsToUse.length ∧
      prev.length = sampleActive.m_prev_index.length ∧
      (sections ≠ [] → ∃ section0, sections.get? 0 = some section0)) :=
  tick_indexing_in_range sampleExternal sampleStartUp
    [Event.lane_waypoints_array samplePathA, Event.local_trajectories (sampleRollOuts 1)]
    sampleActive [] (by rfl)

theorem updatedHints_get (E : External) (pose : WayPoint) (params : PlanningParams) :
    ∀ (paths : List (List WayPoint)) (hints : List Int) (i : Nat) (path : List WayPoint),
      paths.length ≤ hints.length → paths.get? i = some path →
      ∃ hint, hints.get? i = some hint ∧
        (updatedHints E pose params paths hints).get? i =
          some (storedHint (extraction E pose params path hint).2) ∧
        (extractedWindows E pose params paths hints).get? i =
          some (extraction E pose params path hint).1 := by
  intro paths
  induction paths with
  | nil => intro hints i path _ h; simp at h
  | cons p paths ih =>
    intro hints i path hlen h
    cases hints with
    | nil => simp at hlen
    | cons h0 rest =>
      have hlen1 : paths.length ≤ rest.length := by simpa using hlen
      cases i with
      | zero =>
        simp only [List.get?_cons_zero, Option.some.injEq] at h
        subst h
        exact ⟨h0, rfl, rfl, rfl⟩
      | succ j =>
        simp only [List.get?_cons_succ] at h
        obtain ⟨hint, h1, h2, h3⟩ := ih rest j path hlen1 h
        exact ⟨hint, by simpa using h1, by simpa [updatedHints] using h2,
          by simpa [extractedWindows] using h3⟩

theorem storedHint_of_nonneg (k : Int) (hk : 0 ≤ k) :
    storedHint k = max (k - 1) 0 ∧ 0 ≤ storedHint k := by
  unfold storedHint
  by_cases h : k > 0
  · rw [if_pos h, max_eq_left (by omega)]
    exact ⟨rfl, by omega⟩
  · have hk0 : k = 0 := by omega
    subst hk0
    simp

/-- C12: the index hint stays one step behind the match. An iteration that passes the gate
in a reached state completes (the calculator is assumed to pair its reports), and for each
active path `i` the hint stored afterwards is the index `k` returned by the extraction that
was started from the previous hint of path `i`, decremented when it is positive; for every
returned index that is not negative this is `max (k - 1) 0`, and it is not negative. -/
theorem stored_hint_one_step_behind (E : External) (hE : E.PairedReports) (c : StartUp)
    (evs : List Event) (s : TrajectoryEvalCore) (out : List Effect)
    (hrun : TrajectoryEvalCore.run E (TrajectoryEvalCore.initial c) evs = some (s, out))
    (hpos : s.bNewCurrentPos = true) (hheld : s.m_GlobalPaths ≠ []) :
    ∃ s1 eff, s.MainLoop E = some (s1, eff) ∧
      ∀ i path, s.m_GlobalPathsToUse.get? i = some path →
        ∃ hint, s.m_prev_index.get? i = some hint ∧
          s1.m_prev_index.get? i =
            some (if (E.ExtractPartFromPointToDistanceDirectionFast path s.m_CurrentPos
                s.m_PlanningParams.horizonDistance s.m_PlanningParams.pathDensity [] hint).2 > 0
              then (E.ExtractPartFromPointToDistanceDirectionFast path s.m_CurrentPos
                s.m_PlanningParams.horizonDistance s.m_PlanningParams.pathDensity [] hint).2 - 1
              else (E.ExtractPartFromPointToDistanceDirectionFast path s.m_CurrentPos
                s.m_PlanningParams.horizonDistance s.m_PlanningParams.pathDensity [] hint).2) ∧
          (0 ≤ (E.ExtractPartFromPointToDistanceDirectionFast path s.m_CurrentPos
              s.m_PlanningParams.horizonDistance s.m_PlanningParams.pathDensity [] hint).2 →
            s1.m_prev_index.get? i =
              some (max ((E.ExtractPartFromPointToDistanceDirectionFast path s.m_CurrentPos
                s.m_PlanningParams.horizonDistance s.m_PlanningParams.pathDensity [] hint).2 - 1)
                0) ∧
            ∀ stored, s1.m_prev_index.get? i = some stored → 0 ≤ stored) := by
  have hlen := (reachable_hints E c evs s out hrun).2
  have hpair := evaluateSections_paired E hE (s.afterExtraction E)
    (reachable_paired E hE c evs s out hrun)
  refine ⟨_, _, MainLoop_evaluating E s hpos hheld hlen hpair, ?_⟩
  intro i path hpath
  obtain ⟨hint, h1, h2, _⟩ := updatedHints_get E s.m_CurrentPos s.m_PlanningParams
    s.m_GlobalPathsToUse s.m_prev_index i path hlen hpath
  obtain ⟨⟨calculator, hc⟩, _⟩ := evaluateSections_frame E (s.afterExtraction E)
  have hprev : (evaluateSections E (s.afterExtraction E)).1.m_prev_index =
      updatedHints E s.m_CurrentPos s.m_PlanningParams s.m_GlobalPathsToUse s.m_prev_index := by
    rw [hc]; rfl
  refine ⟨hint, h1, ?_, ?_⟩
  · rw [hprev, h2]; rfl
  · intro hk
    have hs := storedHint_of_nonneg (extraction E s.m_CurrentPos s.m_PlanningParams path hint).2 hk
    rw [hprev, h2]
    refine ⟨by rw [hs.1]; rfl, ?_⟩
    intro stored hst
    simp only [Option.some.injEq] at hst
    rw [← hst]
    exact hs.2

theorem stored_hint_one_step_behind_witness :
    ∃ s1 eff, (sampleState [Event.lane_waypoints_array samplePathA,
        Event.local_trajectories (sampleRollOuts 1),
        Event.current_pose (samplePose 3)]).MainLoop sampleExternal = some (s1, eff) ∧
      s1.m_prev_index.get? 0 = some 2 := by
  obtain ⟨s1, eff, h, hall⟩ := stored_hint_one_step_behind sampleExternal
    (fun _ _ => by simp [PairedCalculator, sampleExternal]) sampleStartUp
    [Event.lane_waypoints_array samplePathA, Event.local_trajectories (sampleRollOuts 1),
      Event.current_pose (samplePose 3)]
    (sampleState [Event.lane_waypoints_array samplePathA,
      Event.local_trajectories (sampleRollOuts 1), Event.current_pose (samplePose 3)])
    [] (by rfl) (by rfl) (by decide)
  refine ⟨s1, eff, h, ?_⟩
  obtain ⟨hint, h1, h2, _⟩ := hall 0 _ (by rfl)
  have hhint : hint = 0 := by
    have : (sampleState [Event.lane_waypoints_array samplePathA,
      Event.local_trajectories (sampleRollOuts 1),
      Event.current_pose (samplePose 3)]).m_prev_index.get? 0 = some 0 := by rfl
    rw [this] at h1
    exact (Option.some.inj h1).symm
  subst hhint
  rw [h2]
  rfl

/-! ### The claims on configuration, roll-out batches and preprocessing -/

/-- C13: configuration of swerving and following. After UpdatePlanningParams the swerving
flag is the configured parameter (or its previous value when the parameter is not set);
when it is true the following flag is true whatever the enableFollowing parameter says, and
when it is false the following flag is the configured enableFollowing parameter, or its
previous value when that parameter is not set. -/
theorem UpdatePlanningParams_swerving_forces_following (nh : ParameterServer)
    (s : TrajectoryEvalCore) :
    (s.UpdatePlanningParams nh).1.m_PlanningParams.enableSwerving =
      getParam nh.enableSwerving s.m_PlanningParams.enableSwerving ∧
    ((s.UpdatePlanningParams nh).1.m_PlanningParams.enableSwerving = true →
      (s.UpdatePlanningParams nh).1.m_PlanningParams.enableFollowing = true) ∧
    ((s.UpdatePlanningParams nh).1.m_PlanningParams.enableSwerving = false →
      (s.UpdatePlanningParams nh).1.m_PlanningParams.enableFollowing =
        match nh.enableFollowing with
        | some configured => configured
        | none => s.m_PlanningParams.enableFollowing) := by
  have hsw : ∀ p : PlanningParams, (loadRollOuts nh p).enableSwerving = p.enableSwerving ∧
      (loadRollOuts nh p).enableFollowing = p.enableFollowing := by
    intro p
    unfold loadRollOuts
    dsimp only
    split <;> exact ⟨rfl, rfl⟩
  have hload : ∀ p : PlanningParams,
      (loadSwervingAndFollowing nh p).enableSwerving =
        getParam nh.enableSwerving p.enableSwerving ∧
      (loadSwervingAndFollowing nh p).enableFollowing =
        (if getParam nh.enableSwerving p.enableSwerving = true then true
          else getParam nh.enableFollowing p.enableFollowing) := by
    intro p
    unfold loadSwervingAndFollowing
    dsimp only
    split <;> exact ⟨rfl, rfl⟩
  have h1 : (s.UpdatePlanningParams nh).1.m_PlanningParams.enableSwerving =
      getParam nh.enableSwerving s.m_PlanningParams.enableSwerving := by
    simp only [TrajectoryEvalCore.UpdatePlanningParams, loadPlanningParams, (hsw _).1]
    exact (hload _).1
  have h2 : (s.UpdatePlanningParams nh).1.m_PlanningParams.enableFollowing =
      (if getParam nh.enableSwerving s.m_PlanningParams.enableSwerving = true then true
        else getParam nh.enableFollowing s.m_PlanningParams.enableFollowing) := by
    simp only [TrajectoryEvalCore.UpdatePlanningParams, loadPlanningParams, (hsw _).2]
    exact (hload _).2
  refine ⟨h1, ?_, ?_⟩
  · intro h
    rw [h1] at h
    rw [h2, if_pos h]
  · intro h
    rw [h1] at h
    rw [h2, if_neg (by simp [h])]
    cases nh.enableFollowing <;> rfl

/-- C17: a roll-out batch replaces the stored candidates wholesale. After
callbackGetLocalPlannerPath on a batch with at least one lane the stored list has exactly
as many paths as the batch has lanes and its i-th path is the conversion of the i-th lane,
whatever was stored before; a batch without lanes leaves the whole state as it is. -/
theorem rollout_batch_replaced_wholesale (E : External) (s : TrajectoryEvalCore)
    (msg : autoware_msgs.LaneArray) :
    (msg.lanes ≠ [] →
      (s.callbackGetLocalPlannerPath E msg).m_GeneratedRollOuts =
        msg.lanes.map (fun lane => E.ConvertFromAutowareLaneToLocalLane lane []) ∧
      (s.callbackGetLocalPlannerPath E msg).m_GeneratedRollOuts.length = msg.lanes.length ∧
      (∀ i lane, msg.lanes.get? i = some lane →
        (s.callbackGetLocalPlannerPath E msg).m_GeneratedRollOuts.get? i =
          some (E.ConvertFromAutowareLaneToLocalLane lane [])) ∧
      (∀ s2 : TrajectoryEvalCore,
        (s2.callbackGetLocalPlannerPath E msg).m_GeneratedRollOuts =
          (s.callbackGetLocalPlannerPath E msg).m_GeneratedRollOuts)) ∧
    (msg.lanes = [] → s.callbackGetLocalPlannerPath E msg = s) := by
  constructor
  · intro hne
    have hro : ∀ s2 : TrajectoryEvalCore,
        (s2.callbackGetLocalPlannerPath E msg).m_GeneratedRollOuts =
          msg.lanes.map (fun lane => E.ConvertFromAutowareLaneToLocalLane lane []) := by
      intro s2
      rw [callbackGetLocalPlannerPath_eq E s2 msg hne]
      split <;> rfl
    refine ⟨hro s, by rw [hro s, List.length_map], ?_, fun s2 => by rw [hro s2, hro s]⟩
    intro i lane hi
    rw [hro s]
    simp only [List.get?_eq_getElem?] at hi ⊢
    simp [hi]
  · exact callbackGetLocalPlannerPath_empty E s msg

/-- C18: preprocessing of an accepted reference path set. When the loop of lines 172-182
ends with bOldGlobalPath false (the set is accepted as new), every converted path is stored
as the result of FixPathDensity with the configured pathDensity, CalcAngleAndCost, three
calls of SmoothPath with 0.48, 0.2 and 0.05, and CalcAngleAndCost again, in the order of
the message and one stored path per lane, and exactly one hint 0 per path is appended to
the index hints. A set with another number of paths than the held one is always accepted. -/
theorem accepted_set_is_preprocessed_in_order (E : External) (s : TrajectoryEvalCore)
    (msg : autoware_msgs.LaneArray) (hne : msg.lanes ≠ []) :
    (∀ tmp paths,
      convertGlobalPathsLoop E msg.lanes 0 s.m_temp_path []
        (decide (s.m_GlobalPaths.length = msg.lanes.length)) = some (tmp, paths, false) →
      ∃ s1, s.callbackGetGlobalPlannerPath E msg = some s1 ∧
        s1.m_GlobalPaths = (convertLanes E msg.lanes s.m_temp_path).map (fun p =>
          E.CalcAngleAndCost
            (E.SmoothPath
              (E.SmoothPath
                (E.SmoothPath
                  (E.CalcAngleAndCost (E.FixPathDensity p s.m_PlanningParams.pathDensity))
                  (48 / 100) (2 / 10) (5 / 100))
                (48 / 100) (2 / 10) (5 / 100))
              (48 / 100) (2 / 10) (5 / 100))) ∧
        s1.m_GlobalPaths.length = msg.lanes.length ∧
        s1.m_prev_index = s.m_prev_index ++ List.replicate msg.lanes.length 0) ∧
    (s.m_GlobalPaths.length ≠ msg.lanes.length →
      ∃ tmp paths, convertGlobalPathsLoop E msg.lanes 0 s.m_temp_path []
        (decide (s.m_GlobalPaths.length = msg.lanes.length)) = some (tmp, paths, false)) := by
  have hpos : msg.lanes.length > 0 := List.length_pos.mpr hne
  constructor
  · intro tmp paths hloop
    have hclosed := convertGlobalPathsLoop_eq E msg.lanes 0 s.m_temp_path []
      (decide (s.m_GlobalPaths.length = msg.lanes.length)) rfl
    rw [hclosed] at hloop
    simp only [Option.some.injEq, Prod.mk.injEq, List.nil_append] at hloop
    obtain ⟨_, _, hb⟩ := hloop
    have hcb : s.callbackGetGlobalPlannerPath E msg =
        some { s with
               m_temp_path := finalTempPath E msg.lanes s.m_temp_path
               bWayGlobalPath := true
               m_GlobalPaths := (convertLanes E msg.lanes s.m_temp_path).map
                 (preprocessGlobalPath E s.m_PlanningParams.pathDensity)
               m_prev_index := s.m_prev_index ++ List.replicate msg.lanes.length 0 } := by
      simp [TrajectoryEvalCore.callbackGetGlobalPlannerPath, hpos, hclosed, hb,
        preprocessGlobalPathsLoop_eq, convertLanes_length]
    refine ⟨_, hcb, ?_, ?_, rfl⟩
    · simp [preprocessGlobalPath]
    · simp [convertLanes_length]
  · intro hcount
    have hclosed := convertGlobalPathsLoop_eq E msg.lanes 0 s.m_temp_path []
      (decide (s.m_GlobalPaths.length = msg.lanes.length)) rfl
    refine ⟨finalTempPath E msg.lanes s.m_temp_path,
      [] ++ convertLanes E msg.lanes s.m_temp_path, ?_⟩
    rw [hclosed]
    simp [hcount]

theorem accepted_set_is_preprocessed_in_order_witness :
    ∃ s1, sampleActive.callbackGetGlobalPlannerPath sampleExternal samplePathC = some s1 ∧
      s1.m_GlobalPaths.length = 2 ∧ s1.m_prev_index = [0, 0, 0] := by
  have hthm := accepted_set_is_preprocessed_in_order sampleExternal sampleActive samplePathC
    (by simp [samplePathC])
  obtain ⟨tmp, paths, hloop⟩ := hthm.2 (by decide)
  obtain ⟨s1, h1, _, h3, h4⟩ := hthm.1 tmp paths hloop
  refine ⟨s1, h1, by rw [h3]; rfl, by rw [h4]; rfl⟩

theorem UpdatePlanningParams_swerving_forces_following_witness :
    ((TrajectoryEvalCore.initial sampleStartUp).UpdatePlanningParams
      sampleParameters).1.m_PlanningParams.enableFollowing = true :=
  (UpdatePlanningParams_swerving_forces_following sampleParameters
    (TrajectoryEvalCore.initial sampleStartUp)).2.1
    (by rw [(UpdatePlanningParams_swerving_forces_following sampleParameters
      (TrajectoryEvalCore.initial sampleStartUp)).1]; rfl)

theorem rollout_batch_replaced_wholesale_witness :
    (sampleActive.callbackGetLocalPlannerPath sampleExternal
      (sampleRollOuts 2)).m_GeneratedRollOuts.length = 2 ∧
    sampleActive.callbackGetLocalPlannerPath sampleExternal { lanes := [] } = sampleActive :=
  ⟨((rollout_batch_replaced_wholesale sampleExternal sampleActive (sampleRollOuts 2)).1
      (by simp [sampleRollOuts])).2.1,
    (rollout_batch_replaced_wholesale sampleExternal sampleActive { lanes := [] }).2 rfl⟩

/-! ### The claims on horizon extraction and on the published reports -/

/-- C19: horizon extraction per iteration. An iteration that passes the gate in a reached
state completes (the calculator is assumed to pair its reports); afterwards
`m_GlobalPathSections` holds, whatever it held before, exactly one window per active path in
the order of `m_GlobalPathsToUse`, the window of path `i` being extracted from that path
with the stored pose, the configured horizonDistance and pathDensity, and the hint
`m_prev_index.at(i)`; and the cost evaluator is called exactly when there is an active
path, with the window of the first active path as its reference section. -/
theorem horizon_windows_per_active_path (E : External) (hE : E.PairedReports) (c : StartUp)
    (evs : List Event) (s : TrajectoryEvalCore) (out : List Effect)
    (hrun : TrajectoryEvalCore.run E (TrajectoryEvalCore.initial c) evs = some (s, out))
    (hpos : s.bNewCurrentPos = true) (hheld : s.m_GlobalPaths ≠ []) :
    ∃ s1 eff, s.MainLoop E = some (s1, eff) ∧
      s1.m_GlobalPathSections.length = s.m_GlobalPathsToUse.length ∧
      (∀ i path, s.m_GlobalPathsToUse.get? i = some path →
        ∃ hint, s.m_prev_index.get? i = some hint ∧
          s1.m_GlobalPathSections.get? i =
            some (E.ExtractPartFromPointToDistanceDirectionFast path s.m_CurrentPos
              s.m_PlanningParams.horizonDistance s.m_PlanningParams.pathDensity [] hint).1) ∧
      (∀ call, Effect.doOneStep call ∈ eff →
        s1.m_GlobalPathSections.get? 0 = some call.totalPaths) ∧
      (s.m_GlobalPathsToUse ≠ [] → ∃ call, Effect.doOneStep call ∈ eff) ∧
      (s.m_GlobalPathsToUse = [] → ∀ call, Effect.doOneStep call ∉ eff) := by
  have hlen := (reachable_hints E c evs s out hrun).2
  have hpair := evaluateSections_paired E hE (s.afterExtraction E)
    (reachable_paired E hE c evs s out hrun)
  have hml := MainLoop_evaluating E s hpos hheld hlen hpair
  obtain ⟨⟨calculator, hc⟩, hcalls⟩ := evaluateSections_frame E (s.afterExtraction E)
  have hsec : (evaluateSections E (s.afterExtraction E)).1.m_GlobalPathSections =
      extractedWindows E s.m_CurrentPos s.m_PlanningParams s.m_GlobalPathsToUse
        s.m_prev_index := by
    rw [hc]; rfl
  have hmem : ∀ call, Effect.doOneStep call ∈
      (evaluateSections E (s.afterExtraction E)).2 ++
        [Effect.pub_LocalWeightedTrajectories
          { lanes := candidateLanes E
              (evaluateSections E (s.afterExtraction E)).1.m_TrajectoryCostsCalculator.local_roll_outs_
              (evaluateSections E (s.afterExtraction E)).1.m_TrajectoryCostsCalculator.trajectory_costs_
              0 }] ++
        rvizEffects (evaluateSections E (s.afterExtraction E)).1.m_TrajectoryCostsCalculator ↔
      Effect.doOneStep call ∈ (evaluateSections E (s.afterExtraction E)).2 := by
    intro call
    simp only [List.append_assoc, List.mem_append, List.mem_singleton, reduceCtorEq,
      false_or]
    constructor
    · rintro (h | h)
      · exact h
      · unfold rvizEffects at h
        split at h <;> simp at h
    · exact Or.inl
  refine ⟨_, _, hml, ?_, ?_, ?_, ?_, ?_⟩
  · rw [hsec]
    exact extractedWindows_length E _ _ _ _ hlen
  · intro i path hpath
    obtain ⟨hint, h1, _, h3⟩ := updatedHints_get E s.m_CurrentPos s.m_PlanningParams
      s.m_GlobalPathsToUse s.m_prev_index i path hlen hpath
    exact ⟨hint, h1, by rw [hsec, h3]; rfl⟩
  · intro call hcall
    have h := (hcalls call ((hmem call).mp hcall)).1
    have hs : (s.afterExtraction E).m_GlobalPathSections =
        (evaluateSections E (s.afterExtraction E)).1.m_GlobalPathSections := by
      rw [hc]
    rw [hs] at h
    revert h
    cases (evaluateSections E (s.afterExtraction E)).1.m_GlobalPathSections with
    | nil => simp
    | cons a l => simp
  · intro hne
    have hw : (s.afterExtraction E).m_GlobalPathSections ≠ [] := by
      intro h0
      have hl := extractedWindows_length E s.m_CurrentPos s.m_PlanningParams
        s.m_GlobalPathsToUse s.m_prev_index hlen
      have h1 : (s.afterExtraction E).m_GlobalPathSections =
          extractedWindows E s.m_CurrentPos s.m_PlanningParams s.m_GlobalPathsToUse
            s.m_prev_index := rfl
      rw [← h1, h0] at hl
      exact hne (List.length_eq_zero.mp hl.symm)
    obtain ⟨section0, rest, hcons⟩ :
        ∃ a l, (s.afterExtraction E).m_GlobalPathSections = a :: l := by
      cases h : (s.afterExtraction E).m_GlobalPathSections with
      | nil => exact absurd h hw
      | cons a l => exact ⟨a, l, rfl⟩
    refine ⟨(s.afterExtraction E).doOneStepArguments section0, (hmem _).mpr ?_⟩
    rw [evaluateSections_cons E _ section0 rest hcons]
    simp
  · intro hnil call hcall
    have h0 : (s.afterExtraction E).m_GlobalPathSections = [] := by
      show extractedWindows E s.m_CurrentPos s.m_PlanningParams s.m_GlobalPathsToUse
        s.m_prev_index = []
      rw [hnil]
      cases s.m_prev_index <;> rfl
    have := (hmem call).mp hcall
    rw [evaluateSections_nil E _ h0] at this
    simp at this

theorem horizon_windows_per_active_path_witness :
    ∃ s1 eff, sampleReady.MainLoop sampleExternal = some (s1, eff) ∧
      s1.m_GlobalPathSections.length = sampleReady.m_GlobalPathsToUse.length ∧
      ∃ call, Effect.doOneStep call ∈ eff := by
  obtain ⟨s1, eff, h, hl, _, _, hex, _⟩ := horizon_windows_per_active_path sampleExternal
    (fun _ _ => by simp [PairedCalculator, sampleExternal]) sampleStartUp
    [Event.lane_waypoints_array samplePathA, Event.local_trajectories (sampleRollOuts 1),
      Event.current_pose (samplePose 3)] sampleReady [] (by rfl) (by rfl) (by decide)
  exact ⟨s1, eff, h, hl, hex (by decide)⟩

theorem candidateLanes_length (E : External) :
    ∀ (rollOuts : List (List WayPoint)) (costs : List TrajectoryCost) (i0 : Nat),
      rollOuts.length ≤ costs.length →
      (candidateLanes E rollOuts costs i0).length = rollOuts.length := by
  intro rollOuts
  induction rollOuts with
  | nil => intro costs i0 _; simp [candidateLanes]
  | cons ro rollOuts ih =>
    intro costs i0 hlen
    cases costs with
    | nil => simp at hlen
    | cons tc rest =>
      have hlen1 : rollOuts.length ≤ rest.length := by simpa using hlen
      simp [candidateLanes, ih rest (i0 + 1) hlen1]

theorem candidateLanes_get (E : External) :
    ∀ (rollOuts : List (List WayPoint)) (costs : List TrajectoryCost) (i0 i : Nat)
      (ro : List WayPoint), rollOuts.length ≤ costs.length → rollOuts.get? i = some ro →
      ∃ tc, costs.get? i = some tc ∧
        (candidateLanes E rollOuts costs i0).get? i = some (candidateLane E ro tc (i0 + i)) := by
  intro rollOuts
  induction rollOuts with
  | nil => intro costs i0 i ro _ h; simp at h
  | cons r rollOuts ih =>
    intro costs i0 i ro hlen h
    cases costs with
    | nil => simp at hlen
    | cons tc rest =>
      have hlen1 : rollOuts.length ≤ rest.length := by simpa using hlen
      cases i with
      | zero =>
        simp only [List.get?_cons_zero, Option.some.injEq] at h
        subst h
        exact ⟨tc, rfl, rfl⟩
      | succ j =>
        simp only [List.get?_cons_succ] at h
        obtain ⟨tc1, h1, h2⟩ := ih rest (i0 + 1) j ro hlen1 h
        refine ⟨tc1, by simpa using h1, ?_⟩
        simp only [candidateLanes, List.get?_cons_succ, h2]
        congr 2
        omega

/-- C20: pairing of the per-candidate report. An iteration that passes the gate in a
reached state completes (the calculator is assumed to pair its reports). The per-candidate
list it publishes has one entry per roll-out held by the calculator, in the same order;
entry `i` is the conversion of roll-out `i` with lane_index `i` and the cost, blocked flag,
closest-obstacle distance and closest-obstacle velocity of `trajectory_costs_[i]`. Every
selected-trajectory cost record it publishes carries the index, cost, blocked flag,
closest-obstacle distance and velocity of the TrajectoryCost returned by the evaluator call
of the same iteration. -/
theorem per_candidate_report_pairing (E : External) (hE : E.PairedReports) (c : StartUp)
    (evs : List Event) (s : TrajectoryEvalCore) (out : List Effect)
    (hrun : TrajectoryEvalCore.run E (TrajectoryEvalCore.initial c) evs = some (s, out))
    (hpos : s.bNewCurrentPos = true) (hheld : s.m_GlobalPaths ≠ []) :
    ∃ s1 eff, s.MainLoop E = some (s1, eff) ∧
      (∀ local_lanes, Effect.pub_LocalWeightedTrajectories local_lanes ∈ eff ↔
        local_lanes.lanes = candidateLanes E s1.m_TrajectoryCostsCalculator.local_roll_outs_
          s1.m_TrajectoryCostsCalculator.trajectory_costs_ 0) ∧
      (candidateLanes E s1.m_TrajectoryCostsCalculator.local_roll_outs_
          s1.m_TrajectoryCostsCalculator.trajectory_costs_ 0).length =
        s1.m_TrajectoryCostsCalculator.local_roll_outs_.length ∧
      (∀ i rollOut, s1.m_TrajectoryCostsCalculator.local_roll_outs_.get? i = some rollOut →
        ∃ tc lane, s1.m_TrajectoryCostsCalculator.trajectory_costs_.get? i = some tc ∧
          (candidateLanes E s1.m_TrajectoryCostsCalculator.local_roll_outs_
            s1.m_TrajectoryCostsCalculator.trajectory_costs_ 0).get? i = some lane ∧
          lane.lane_index = (i : Int) ∧ lane.cost = tc.cost ∧ lane.is_blocked = tc.bBlocked ∧
          lane.closest_object_distance = tc.closest_obj_distance ∧
          lane.closest_object_velocity = tc.closest_obj_velocity ∧
          lane.waypoints = (E.ConvertFromLocalLaneToAutowareLane rollOut E.newLane).waypoints) ∧
      (∀ l, Effect.pub_TrajectoryCost l ∈ eff →
        ∃ call, Effect.doOneStep call ∈ eff ∧
          l.lane_index = (E.doOneStep s.m_TrajectoryCostsCalculator call).1.index ∧
          l.cost = (E.doOneStep s.m_TrajectoryCostsCalculator call).1.cost ∧
          l.is_blocked = (E.doOneStep s.m_TrajectoryCostsCalculator call).1.bBlocked ∧
          l.closest_object_distance =
            (E.doOneStep s.m_TrajectoryCostsCalculator call).1.closest_obj_distance ∧
          l.closest_object_velocity =
            (E.doOneStep s.m_TrajectoryCostsCalculator call).1.closest_obj_velocity) := by
  have hlen := (reachable_hints E c evs s out hrun).2
  have hpair := evaluateSections_paired E hE (s.afterExtraction E)
    (reachable_paired E hE c evs s out hrun)
  have hml := MainLoop_evaluating E s hpos hheld hlen hpair
  refine ⟨_, _, hml, ?_, candidateLanes_length E _ _ 0 hpair, ?_, ?_⟩
  · intro local_lanes
    obtain h | ⟨section0, rest, h⟩ :
        (s.afterExtraction E).m_GlobalPathSections = [] ∨
          ∃ a l, (s.afterExtraction E).m_GlobalPathSections = a :: l := by
      cases (s.afterExtraction E).m_GlobalPathSections <;> simp
    · rw [evaluateSections_nil E _ h]
      unfold rvizEffects
      split <;> (cases local_lanes; simp)
    · rw [evaluateSections_cons E _ section0 rest h]
      unfold rvizEffects
      split <;> (cases local_lanes; simp)
  · intro i rollOut hro
    obtain ⟨tc, h1, h2⟩ := candidateLanes_get E _ _ 0 i rollOut hpair hro
    refine ⟨tc, _, h1, h2, ?_, rfl, rfl, rfl, rfl, rfl⟩
    simp [candidateLane]
  · intro l hl
    obtain h | ⟨section0, rest, h⟩ :
        (s.afterExtraction E).m_GlobalPathSections = [] ∨
          ∃ a l, (s.afterExtraction E).m_GlobalPathSections = a :: l := by
      cases (s.afterExtraction E).m_GlobalPathSections <;> simp
    · rw [evaluateSections_nil E _ h] at hl
      unfold rvizEffects at hl
      split at hl <;> simp at hl
    · rw [evaluateSections_cons E _ section0 rest h] at hl ⊢
      have hl2 : l = selectedTrajectoryLane E
          (E.doOneStep (s.afterExtraction E).m_TrajectoryCostsCalculator
            ((s.afterExtraction E).doOneStepArguments section0)).1 := by
        unfold rvizEffects at hl
        split at hl <;> simpa using hl
      refine ⟨(s.afterExtraction E).doOneStepArguments section0, by simp, ?_⟩
      rw [hl2]
      exact ⟨rfl, rfl, rfl, rfl, rfl⟩

theorem per_candidate_report_pairing_witness :
    ∃ s1 eff, sampleReady.MainLoop sampleExternal = some (s1, eff) ∧
      (candidateLanes sampleExternal s1.m_TrajectoryCostsCalculator.local_roll_outs_
          s1.m_TrajectoryCostsCalculator.trajectory_costs_ 0).length =
        s1.m_TrajectoryCostsCalculator.local_roll_outs_.length ∧
      Effect.pub_LocalWeightedTrajectories
        { lanes := candidateLanes sampleExternal
            s1.m_TrajectoryCostsCalculator.local_roll_outs_
            s1.m_TrajectoryCostsCalculator.trajectory_costs_ 0 } ∈ eff := by
  obtain ⟨s1, eff, h, hiff, hl, _, _⟩ := per_candidate_report_pairing sampleExternal
    (fun _ _ => by simp [PairedCalculator, sampleExternal]) sampleStartUp
    [Event.lane_waypoints_array samplePathA, Event.local_trajectories (sampleRollOuts 1),
      Event.current_pose (samplePose 3)] sampleReady [] (by rfl) (by rfl) (by decide)
  exact ⟨s1, eff, h, hl, (hiff _).mpr rfl⟩

/-! ### The selector of the specification -/

theorem specTrajectoryCosts_get (minD : ℚ) :
    ∀ (scores : List CandidateScore) (i0 j : Nat) (c : CandidateScore),
      scores.get? j = some c →
      (specTrajectoryCosts minD scores i0).get? j =
        some { index := ((i0 + j : Nat) : Int), cost := c.cost,
               closest_obj_distance := c.closest_obj_distance,
               closest_obj_velocity := c.closest_obj_velocity,
               bBlocked := specBlocked minD c } := by
  intro scores
  induction scores with
  | nil => intro i0 j c h; simp at h
  | cons d rest ih =>
    intro i0 j c h
    cases j with
    | zero =>
      simp only [List.get?_cons_zero, Option.some.injEq] at h
      subst h
      simp [specTrajectoryCosts]
    | succ k =>
      simp only [List.get?_cons_succ] at h
      have := ih (i0 + 1) k c h
      simp only [specTrajectoryCosts, List.get?_cons_succ, this]
      congr 3
      omega

theorem specTrajectoryCosts_mem (minD : ℚ) :
    ∀ (scores : List CandidateScore) (i0 : Nat) (tc : TrajectoryCost),
      tc ∈ specTrajectoryCosts minD scores i0 →
      ∃ j c, scores.get? j = some c ∧ tc.index = ((i0 + j : Nat) : Int) ∧
        tc.cost = c.cost ∧ tc.bBlocked = specBlocked minD c := by
  intro scores
  induction scores with
  | nil => intro i0 tc h; simp [specTrajectoryCosts] at h
  | cons d rest ih =>
    intro i0 tc h
    simp only [specTrajectoryCosts, List.mem_cons] at h
    rcases h with h | h
    · exact ⟨0, d, rfl, by rw [h]; simp, by rw [h], by rw [h]⟩
    · obtain ⟨j, c, h1, h2, h3, h4⟩ := ih (i0 + 1) tc h
      refine ⟨j + 1, c, by simpa using h1, ?_, h3, h4⟩
      rw [h2]
      congr 1
      omega

theorem specTrajectoryCosts_of_mem (minD : ℚ) :
    ∀ (scores : List CandidateScore) (i0 : Nat) (c : CandidateScore), c ∈ scores →
      ∃ tc, tc ∈ specTrajectoryCosts minD scores i0 ∧ tc.cost = c.cost ∧
        tc.bBlocked = specBlocked minD c := by
  intro scores
  induction scores with
  | nil => intro i0 c h; simp at h
  | cons d rest ih =>
    intro i0 c h
    rcases List.mem_cons.mp h with h | h
    · subst h
      exact ⟨_, List.mem_cons_self _ _, rfl, rfl⟩
    · obtain ⟨tc, h1, h2, h3⟩ := ih (i0 + 1) c h
      exact ⟨tc, List.mem_cons_of_mem _ h1, h2, h3⟩

theorem leastCost_le : ∀ (rest : List TrajectoryCost) (c r : TrajectoryCost),
    r ∈ c :: rest → leastCost c rest ≤ r.cost := by
  intro rest
  induction rest with
  | nil =>
    intro c r h
    simp only [List.mem_singleton] at h
    subst h
    simp [leastCost]
  | cons d rest ih =>
    intro c r h
    rcases List.mem_cons.mp h with h | h
    · subst h
      exact min_le_left _ _
    · exact le_trans (min_le_right _ _) (ih d r h)

theorem leastCost_attained : ∀ (rest : List TrajectoryCost) (c : TrajectoryCost),
    ∃ r, r ∈ c :: rest ∧ r.cost = leastCost c rest := by
  intro rest
  induction rest with
  | nil => intro c; exact ⟨c, List.mem_singleton_self c, rfl⟩
  | cons d rest ih =>
    intro c
    obtain ⟨r, hr, hrc⟩ := ih d
    by_cases h : c.cost ≤ leastCost d rest
    · exact ⟨c, List.mem_cons_self _ _, by simp [leastCost, min_eq_left h]⟩
    · have h2 : leastCost d rest ≤ c.cost := le_of_lt (not_le.mp h)
      exact ⟨r, List.mem_cons_of_mem _ hr, by simp [leastCost, min_eq_right h2, hrc]⟩

theorem closestToPrevious_mem (prev : Int) : ∀ (ts : List TrajectoryCost) (t : TrajectoryCost),
    closestToPrevious prev t ts ∈ t :: ts := by
  intro ts
  induction ts with
  | nil => intro t; simp [closestToPrevious]
  | cons d rest ih =>
    intro t
    unfold closestToPrevious
    split
    · exact List.mem_cons_self _ _
    · exact List.mem_cons_of_mem _ (ih d)

/-- The `argmin` of the specification on a non-empty list, with a tolerance that is not
negative: the result is one of the candidates and its cost exceeds no candidate's cost by
more than the tolerance. -/
theorem specArgmin_spec (tolerance : ℚ) (prev : Int) (htol : 0 ≤ tolerance)
    (l : List TrajectoryCost) (hne : l ≠ []) :
    ∃ w, specArgmin tolerance prev l = some w ∧ w ∈ l ∧
      ∀ r ∈ l, w.cost ≤ r.cost + tolerance := by
  cases l with
  | nil => exact absurd rfl hne
  | cons c rest =>
    obtain ⟨r0, hr0, hr0c⟩ := leastCost_attained rest c
    have hin : r0 ∈ (c :: rest).filter
        (fun r => decide (r.cost ≤ leastCost c rest + tolerance)) := by
      rw [List.mem_filter]
      refine ⟨hr0, ?_⟩
      simp only [decide_eq_true_eq]
      rw [hr0c]
      linarith
    cases hf : (c :: rest).filter
        (fun r => decide (r.cost ≤ leastCost c rest + tolerance)) with
    | nil => rw [hf] at hin; simp at hin
    | cons t ts =>
      have hw : closestToPrevious prev t ts ∈ (c :: rest).filter
          (fun r => decide (r.cost ≤ leastCost c rest + tolerance)) := by
        rw [hf]
        exact closestToPrevious_mem prev ts t
      rw [List.mem_filter] at hw
      refine ⟨closestToPrevious prev t ts, ?_, hw.1, ?_⟩
      · simp only [specArgmin, hf]
      · intro r hr
        have h1 : (closestToPrevious prev t ts).cost ≤ leastCost c rest + tolerance := by
          simpa using hw.2
        have h2 := leastCost_le rest c r hr
        linarith

/-- The selector of the specification when some candidate is not blocked: the result is a
candidate that is not blocked, and its cost exceeds the cost of no candidate that is not
blocked by more than the tolerance. -/
theorem specSelect_open (tolerance : ℚ) (prev : Int) (htol : 0 ≤ tolerance)
    (costs : List TrajectoryCost) (hopen : ∃ r ∈ costs, r.bBlocked = false) :
    ∃ w, specSelect tolerance prev costs = some w ∧ w ∈ costs ∧ w.bBlocked = false ∧
      ∀ r ∈ costs, r.bBlocked = false → w.cost ≤ r.cost + tolerance := by
  obtain ⟨r0, hr0, hb0⟩ := hopen
  have hin : r0 ∈ costs.filter (fun r => !r.bBlocked) := by
    rw [List.mem_filter]
    exact ⟨hr0, by simp [hb0]⟩
  have hne : costs.filter (fun r => !r.bBlocked) ≠ [] := List.ne_nil_of_mem hin
  obtain ⟨w, hw, hwm, hwc⟩ := specArgmin_spec tolerance prev htol _ hne
  rw [List.mem_filter] at hwm
  refine ⟨w, ?_, hwm.1, by simpa using hwm.2, ?_⟩
  · unfold specSelect
    cases hf : costs.filter (fun r => !r.bBlocked) with
    | nil => exact absurd hf hne
    | cons a l => rw [hf] at hw; exact hw
  · intro r hr hb
    exact hwc r (by rw [List.mem_filter]; exact ⟨hr, by simp [hb]⟩)

/-- The selector of the specification when every candidate is blocked: the result is one of
the candidates, reported with the blocked flag. -/
theorem specSelect_all_blocked (tolerance : ℚ) (prev : Int) (htol : 0 ≤ tolerance)
    (costs : List TrajectoryCost) (hne : costs ≠ [])
    (hall : ∀ r ∈ costs, r.bBlocked = true) :
    ∃ w, w ∈ costs ∧
      specSelect tolerance prev costs = some { w with bBlocked := true } := by
  have hf : costs.filter (fun r => !r.bBlocked) = [] := by
    rw [List.filter_eq_nil_iff]
    intro r hr
    simp [hall r hr]
  obtain ⟨w, hw, hwm, _⟩ := specArgmin_spec tolerance prev htol costs hne
  refine ⟨w, hwm, ?_⟩
  simp only [specSelect, hf, hw, Option.map_some']

/-- C14 (counterexample): the reported index is not always that of a minimum-cost candidate
among the ones that are not blocked. Two candidates, both 10 m from the closest obstacle
with minDistanceToAvoid = 1, have costs 100 and 101; with a tolerance of 5 they are tied,
and with candidate 1 selected in the previous tick the tie-break of section 4.5 selects
candidate 1 again, whose cost 101 is not the least. -/
theorem tied_candidates_select_previous_not_cheapest :
    (specTrajectoryCosts 1 [⟨100, 10, 0⟩, ⟨101, 10, 0⟩] 0).map (fun tc => tc.bBlocked) =
      [false, false] ∧
    (specSelect 5 1 (specTrajectoryCosts 1 [⟨100, 10, 0⟩, ⟨101, 10, 0⟩] 0)).map
      (fun w => ((selectedTrajectoryLane sampleExternal w).lane_index,
        (selectedTrajectoryLane sampleExternal w).cost)) = some (1, 101) ∧
    (100 : ℚ) < 101 := by
  refine ⟨?_, ?_, by norm_num⟩
  · norm_num [specTrajectoryCosts, specBlocked]
  · norm_num [specSelect, specTrajectoryCosts, specBlocked, specArgmin, leastCost,
      closestToPrevious, selectedTrajectoryLane]

/-- C14 (amended): selection excludes blocked candidates. A candidate is marked blocked
exactly when its closest-obstacle distance is below minDistanceToAvoid, and whenever at
least one candidate is not blocked the index reported in the selected-trajectory cost
record is that of a candidate that is not blocked and whose cost exceeds the cost of no
other candidate that is not blocked by more than the tie-break tolerance; with tolerance 0
it is a minimum-cost candidate among the ones that are not blocked. -/
theorem selection_excludes_blocked_up_to_tolerance (E : External) (minD tolerance : ℚ)
    (prev : Int) (scores : List CandidateScore) (htol : 0 ≤ tolerance)
    (hopen : ∃ c ∈ scores, ¬ c.closest_obj_distance < minD) :
    (∀ i c, scores.get? i = some c →
      ∃ tc, (specTrajectoryCosts minD scores 0).get? i = some tc ∧ tc.index = (i : Int) ∧
        (tc.bBlocked = true ↔ c.closest_obj_distance < minD)) ∧
    ∃ w c, specSelect tolerance prev (specTrajectoryCosts minD scores 0) = some w ∧
      (selectedTrajectoryLane E w).lane_index = w.index ∧
      (selectedTrajectoryLane E w).is_blocked = false ∧
      0 ≤ w.index ∧ scores.get? w.index.toNat = some c ∧
      ¬ c.closest_obj_distance < minD ∧ w.cost = c.cost ∧
      (∀ r ∈ scores, ¬ r.closest_obj_distance < minD → c.cost ≤ r.cost + tolerance) ∧
      (tolerance = 0 → ∀ r ∈ scores, ¬ r.closest_obj_distance < minD → c.cost ≤ r.cost) := by
  constructor
  · intro i c hc
    refine ⟨_, specTrajectoryCosts_get minD scores 0 i c hc, by simp, ?_⟩
    simp [specBlocked]
  · have hopen2 : ∃ r ∈ specTrajectoryCosts minD scores 0, r.bBlocked = false := by
      obtain ⟨c, hc, hd⟩ := hopen
      obtain ⟨tc, h1, _, h3⟩ := specTrajectoryCosts_of_mem minD scores 0 c hc
      exact ⟨tc, h1, by rw [h3]; simp [specBlocked, hd]⟩
    obtain ⟨w, hw, hwm, hwb, hwc⟩ := specSelect_open tolerance prev htol _ hopen2
    obtain ⟨j, c, hj, hidx, hcost, hblk⟩ := specTrajectoryCosts_mem minD scores 0 w hwm
    have hnot : ¬ c.closest_obj_distance < minD := by
      rw [hwb] at hblk
      intro hlt
      simp [specBlocked, hlt] at hblk
    have hbound : ∀ r ∈ scores, ¬ r.closest_obj_distance < minD →
        c.cost ≤ r.cost + tolerance := by
      intro r hr hrd
      obtain ⟨tc, h1, h2, h3⟩ := specTrajectoryCosts_of_mem minD scores 0 r hr
      have := hwc tc h1 (by rw [h3]; simp [specBlocked, hrd])
      rw [hcost, h2] at this
      exact this
    refine ⟨w, c, hw, rfl, ?_, ?_, ?_, hnot, hcost, hbound, ?_⟩
    · show w.bBlocked = false
      exact hwb
    · rw [hidx]
      exact Int.ofNat_nonneg _
    · rw [hidx]
      simpa using hj
    · intro h0 r hr hrd
      have := hbound r hr hrd
      rw [h0, add_zero] at this
      exact this

theorem selection_excludes_blocked_up_to_tolerance_witness :
    (specTrajectoryCosts 1 [⟨7, 10, 0⟩, ⟨1, 1 / 2, 0⟩, ⟨9, 3, 0⟩] 0).map
      (fun tc => tc.bBlocked) = [false, true, false] ∧
    ∃ w c, specSelect 0 1 (specTrajectoryCosts 1 [⟨7, 10, 0⟩, ⟨1, 1 / 2, 0⟩, ⟨9, 3, 0⟩] 0) =
        some w ∧
      (selectedTrajectoryLane sampleExternal w).lane_index = w.index ∧
      (selectedTrajectoryLane sampleExternal w).is_blocked = false ∧
      0 ≤ w.index ∧
      ([⟨7, 10, 0⟩, ⟨1, 1 / 2, 0⟩, ⟨9, 3, 0⟩] : List CandidateScore).get? w.index.toNat =
        some c ∧
      ¬ c.closest_obj_distance < 1 ∧ w.cost = c.cost ∧
      (∀ r ∈ ([⟨7, 10, 0⟩, ⟨1, 1 / 2, 0⟩, ⟨9, 3, 0⟩] : List CandidateScore),
        ¬ r.closest_obj_distance < 1 → c.cost ≤ r.cost + 0) ∧
      ((0 : ℚ) = 0 → ∀ r ∈ ([⟨7, 10, 0⟩, ⟨1, 1 / 2, 0⟩, ⟨9, 3, 0⟩] : List CandidateScore),
        ¬ r.closest_obj_distance < 1 → c.cost ≤ r.cost) :=
  ⟨by norm_num [specTrajectoryCosts, specBlocked],
    (selection_excludes_blocked_up_to_tolerance sampleExternal 1 0 1
      [⟨7, 10, 0⟩, ⟨1, 1 / 2, 0⟩, ⟨9, 3, 0⟩] (le_refl 0)
      ⟨⟨7, 10, 0⟩, by simp, by norm_num⟩).2⟩

/-- C15: all-blocked fallback. For every non-empty candidate set in which every candidate's
closest-obstacle distance is below minDistanceToAvoid, the selector returns a candidate,
and the selected-trajectory cost record built from it has is_blocked = true and carries an
index that is a valid position in the candidate list. -/
theorem all_blocked_fallback_reports_a_candidate (E : External) (minD tolerance : ℚ)
    (prev : Int) (scores : List CandidateScore) (htol : 0 ≤ tolerance)
    (hne : scores ≠ []) (hall : ∀ c ∈ scores, c.closest_obj_distance < minD) :
    ∃ w c, specSelect tolerance prev (specTrajectoryCosts minD scores 0) = some w ∧
      (selectedTrajectoryLane E w).is_blocked = true ∧
      (selectedTrajectoryLane E w).lane_index = w.index ∧
      0 ≤ (selectedTrajectoryLane E w).lane_index ∧
      (selectedTrajectoryLane E w).lane_index < (scores.length : Int) ∧
      scores.get? w.index.toNat = some c ∧ w.cost = c.cost := by
  have hne2 : specTrajectoryCosts minD scores 0 ≠ [] := by
    cases scores with
    | nil => exact absurd rfl hne
    | cons a l => simp [specTrajectoryCosts]
  have hall2 : ∀ r ∈ specTrajectoryCosts minD scores 0, r.bBlocked = true := by
    intro r hr
    obtain ⟨j, c, hj, _, _, hblk⟩ := specTrajectoryCosts_mem minD scores 0 r hr
    rw [hblk]
    have hc : c ∈ scores := List.get?_mem hj
    simp [specBlocked, hall c hc]
  obtain ⟨w, hwm, hw⟩ := specSelect_all_blocked tolerance prev htol _ hne2 hall2
  obtain ⟨j, c, hj, hidx, hcost, _⟩ := specTrajectoryCosts_mem minD scores 0 w hwm
  have hjlt : j < scores.length := by
    by_contra hge
    have : scores.get? j = none := List.get?_eq_none.mpr (by omega)
    rw [this] at hj
    exact absurd hj (by simp)
  refine ⟨{ w with bBlocked := true }, c, hw, rfl, rfl, ?_, ?_, ?_, hcost⟩
  · show 0 ≤ w.index
    rw [hidx]
    exact Int.ofNat_nonneg _
  · show w.index < (scores.length : Int)
    rw [hidx]
    simp only [zero_add]
    exact_mod_cast hjlt
  · show scores.get? w.index.toNat = some c
    rw [hidx]
    simpa using hj

theorem all_blocked_fallback_reports_a_candidate_witness :
    ∃ w c, specSelect 0 1
        (specTrajectoryCosts 1 [⟨7, 1 / 10, 0⟩, ⟨1, 1 / 2, 0⟩, ⟨9, 1 / 3, 0⟩] 0) = some w ∧
      (selectedTrajectoryLane sampleExternal w).is_blocked = true ∧
      (selectedTrajectoryLane sampleExternal w).lane_index = w.index ∧
      0 ≤ (selectedTrajectoryLane sampleExternal w).lane_index ∧
      (selectedTrajectoryLane sampleExternal w).lane_index <
        ((([⟨7, 1 / 10, 0⟩, ⟨1, 1 / 2, 0⟩, ⟨9, 1 / 3, 0⟩] : List CandidateScore).length : Nat) :
          Int) ∧
      ([⟨7, 1 / 10, 0⟩, ⟨1, 1 / 2, 0⟩, ⟨9, 1 / 3, 0⟩] : List CandidateScore).get?
        w.index.toNat = some c ∧
      w.cost = c.cost :=
  all_blocked_fallback_reports_a_candidate sampleExternal 1 0 1
    [⟨7, 1 / 10, 0⟩, ⟨1, 1 / 2, 0⟩, ⟨9, 1 / 3, 0⟩] (le_refl 0) (by simp)
    (by
      intro c hc
      simp only [List.mem_cons, List.mem_singleton, List.not_mem_nil, or_false] at hc
      rcases hc with h | h | h <;> (rw [h]; norm_num))

/-! ### The resampling of the specification -/

/-- C21: configuration of the number of roll-outs. After UpdatePlanningParams, when the
swerving flag is false the stored rollOutNumber is 0 whatever the rollOutsNumber parameter
says, and when the swerving flag is true the stored rollOutNumber is the configured
rollOutsNumber parameter, or its previous value when that parameter is not set. -/
theorem UpdatePlanningParams_roll_out_number (nh : ParameterServer)
    (s : TrajectoryEvalCore) :
    ((s.UpdatePlanningParams nh).1.m_PlanningParams.enableSwerving = false →
      (s.UpdatePlanningParams nh).1.m_PlanningParams.rollOutNumber = 0) ∧
    ((s.UpdatePlanningParams nh).1.m_PlanningParams.enableSwerving = true →
      (s.UpdatePlanningParams nh).1.m_PlanningParams.rollOutNumber =
        match nh.rollOutsNumber with
        | some configured => configured
        | none => s.m_PlanningParams.rollOutNumber) := by
  have hroll : ∀ p : PlanningParams,
      (loadRollOuts nh p).enableSwerving = p.enableSwerving ∧
      (loadRollOuts nh p).rollOutNumber =
        (if p.enableSwerving = true then getParam nh.rollOutsNumber p.rollOutNumber
          else 0) := by
    intro p
    unfold loadRollOuts
    dsimp only
    split <;> exact ⟨rfl, rfl⟩
  have hload : ∀ p : PlanningParams,
      (loadSwervingAndFollowing nh p).rollOutNumber = p.rollOutNumber := by
    intro p
    unfold loadSwervingAndFollowing
    dsimp only
    split <;> rfl
  have h1 : (s.UpdatePlanningParams nh).1.m_PlanningParams.enableSwerving =
      (loadSwervingAndFollowing nh { s.m_PlanningParams with
        horizontalSafetyDistancel :=
          getParam nh.horizontalSafetyDistance s.m_PlanningParams.horizontalSafetyDistancel
        verticalSafetyDistance :=
          getParam nh.verticalSafetyDistance
            s.m_PlanningParams.verticalSafetyDistance }).enableSwerving := by
    simp only [TrajectoryEvalCore.UpdatePlanningParams, loadPlanningParams, (hroll _).1]
  have h2 : (s.UpdatePlanningParams nh).1.m_PlanningParams.rollOutNumber =
      (if (s.UpdatePlanningParams nh).1.m_PlanningParams.enableSwerving = true then
        getParam nh.rollOutsNumber s.m_PlanningParams.rollOutNumber else 0) := by
    rw [h1]
    simp only [TrajectoryEvalCore.UpdatePlanningParams, loadPlanningParams, (hroll _).2,
      hload]
  refine ⟨?_, ?_⟩
  · intro h
    rw [h2, if_neg (by simp [h])]
  · intro h
    rw [h2, if_pos h]
    cases nh.rollOutsNumber <;> rfl

theorem UpdatePlanningParams_roll_out_number_witness :
    ((TrajectoryEvalCore.initial sampleStartUp).UpdatePlanningParams
      sampleParametersNoSwerving).1.m_PlanningParams.rollOutNumber = 0 ∧
    ((TrajectoryEvalCore.initial sampleStartUp).UpdatePlanningParams
      sampleParameters).1.m_PlanningParams.rollOutNumber = 3 :=
  ⟨(UpdatePlanningParams_roll_out_number sampleParametersNoSwerving
      (TrajectoryEvalCore.initial sampleStartUp)).1 (by decide),
    (UpdatePlanningParams_roll_out_number sampleParameters
      (TrajectoryEvalCore.initial sampleStartUp)).2 (by decide)⟩

/-- C22: the steering derivation never divides by zero. With the division made fallible,
callbackGetVehicleStatus and callbackGetRobotOdom always have a result, the same as
without the check; the quotient `wheel_base * angular.z / linear.x` enters the stored
steering angle only when `|linear.x| > 0.25` (`> 0.1` for the odometry); for every message
at or below that threshold the stored steering angle keeps its previous value; and in every
case the stored speed and the velocity of the pose are set to `linear.x`. -/
theorem steering_derivation_never_divides_by_zero (E : External) (s : TrajectoryEvalCore)
    (msg : geometry_msgs.TwistStamped) (odom : nav_msgs.Odometry) (now : timespec) :
    (s.callbackGetVehicleStatusChecked E msg now = some (s.callbackGetVehicleStatus E msg now) ∧
      (|msg.twist.linear.x| > 25 / 100 →
        msg.twist.linear.x ≠ 0 ∧
        (s.callbackGetVehicleStatus E msg now).m_VehicleStatus.steer =
          E.atan (s.m_CarInfo.wheel_base * msg.twist.angular.z / msg.twist.linear.x)) ∧
      (|msg.twist.linear.x| ≤ 25 / 100 →
        (s.callbackGetVehicleStatus E msg now).m_VehicleStatus.steer =
          s.m_VehicleStatus.steer) ∧
      (s.callbackGetVehicleStatus E msg now).m_VehicleStatus.speed = msg.twist.linear.x ∧
      (s.callbackGetVehicleStatus E msg now).m_CurrentPos.v = msg.twist.linear.x) ∧
    (s.callbackGetRobotOdomChecked E odom now = some (s.callbackGetRobotOdom E odom now) ∧
      (|odom.twist.twist.linear.x| > 1 / 10 →
        odom.twist.twist.linear.x ≠ 0 ∧
        (s.callbackGetRobotOdom E odom now).m_VehicleStatus.steer =
          E.atan (s.m_CarInfo.wheel_base * odom.twist.twist.angular.z /
            odom.twist.twist.linear.x)) ∧
      (|odom.twist.twist.linear.x| ≤ 1 / 10 →
        (s.callbackGetRobotOdom E odom now).m_VehicleStatus.steer =
          s.m_VehicleStatus.steer) ∧
      (s.callbackGetRobotOdom E odom now).m_VehicleStatus.speed =
        odom.twist.twist.linear.x ∧
      (s.callbackGetRobotOdom E odom now).m_CurrentPos.v = odom.twist.twist.linear.x) := by
  have hne : ∀ (x c : ℚ), 0 < c → |x| > c → x ≠ 0 := by
    intro x c hc hx h0
    rw [h0, abs_zero] at hx
    exact absurd hx (not_lt.mpr hc.le)
  refine ⟨⟨?_, ?_, ?_, rfl, rfl⟩, ⟨?_, ?_, ?_, rfl, rfl⟩⟩
  · unfold TrajectoryEvalCore.callbackGetVehicleStatusChecked
      TrajectoryEvalCore.callbackGetVehicleStatus
    dsimp only
    by_cases h : |msg.twist.linear.x| > 25 / 100
    · rw [if_pos h, if_pos h, checkedDiv, if_neg (hne _ _ (by norm_num) h)]
      rfl
    · rw [if_neg h, if_neg h]
      rfl
  · intro h
    refine ⟨hne _ _ (by norm_num) h, ?_⟩
    unfold TrajectoryEvalCore.callbackGetVehicleStatus
    dsimp only
    rw [if_pos h]
  · intro h
    unfold TrajectoryEvalCore.callbackGetVehicleStatus
    dsimp only
    rw [if_neg (not_lt.mpr h)]
  · unfold TrajectoryEvalCore.callbackGetRobotOdomChecked
      TrajectoryEvalCore.callbackGetRobotOdom
    dsimp only
    by_cases h : |odom.twist.twist.linear.x| > 1 / 10
    · rw [if_pos h, if_pos h, checkedDiv, if_neg (hne _ _ (by norm_num) h)]
      rfl
    · rw [if_neg h, if_neg h]
      rfl
  · intro h
    refine ⟨hne _ _ (by norm_num) h, ?_⟩
    unfold TrajectoryEvalCore.callbackGetRobotOdom
    dsimp only
    rw [if_pos h]
  · intro h
    unfold TrajectoryEvalCore.callbackGetRobotOdom
    dsimp only
    rw [if_neg (not_lt.mpr h)]

theorem steering_derivation_never_divides_by_zero_witness :
    (sampleReady.callbackGetVehicleStatus sampleExternal (sampleTwist 0)
      ⟨0, 0⟩).m_VehicleStatus.steer = sampleReady.m_VehicleStatus.steer ∧
    (sampleReady.callbackGetRobotOdom sampleExternal ⟨sampleTwist 2⟩
      ⟨0, 0⟩).m_VehicleStatus.steer =
        sampleExternal.atan (sampleReady.m_CarInfo.wheel_base * 1 / 2) :=
  ⟨(steering_derivation_never_divides_by_zero sampleExternal sampleReady (sampleTwist 0)
      ⟨sampleTwist 2⟩ ⟨0, 0⟩).1.2.2.1 (by norm_num [sampleTwist]),
    ((steering_derivation_never_divides_by_zero sampleExternal sampleReady (sampleTwist 0)
      ⟨sampleTwist 2⟩ ⟨0, 0⟩).2.2.1 (by norm_num [sampleTwist])).2⟩

end TrajectoryEvaluatorNS

/-!
# Utility functions: the claims
-/

namespace op_utility_ns

/-! ### The C library remainder -/

theorem fmod_multiple {α : Type} [LinearOrderedField α] [FloorRing α] (x y : α) :
    ∃ k : ℤ, fmod x y - x = (k : α) * y :=
  ⟨-trunc (x / y), by unfold fmod; push_cast; ring⟩

theorem fmod_nonneg {α : Type} [LinearOrderedField α] [FloorRing α] (x y : α) (hy : 0 < y)
    (hx : 0 ≤ x) : 0 ≤ fmod x y ∧ fmod x y < y := by
  have hq : 0 ≤ x / y := div_nonneg hx hy.le
  have h1 : ((⌊x / y⌋ : ℤ) : α) * y ≤ x := by
    have := mul_le_mul_of_nonneg_right (Int.floor_le (x / y)) hy.le
    rwa [div_mul_cancel₀ x hy.ne'] at this
  have h2 : x < (((⌊x / y⌋ : ℤ) : α) + 1) * y := by
    have := mul_lt_mul_of_pos_right (Int.lt_floor_add_one (x / y)) hy
    rwa [div_mul_cancel₀ x hy.ne'] at this
  unfold fmod trunc
  rw [if_pos hq]
  constructor <;> linarith

theorem fmod_neg {α : Type} [LinearOrderedField α] [FloorRing α] (x y : α) (hy : 0 < y)
    (hx : x < 0) : -y < fmod x y ∧ fmod x y ≤ 0 := by
  have hq : ¬ 0 ≤ x / y := not_le.mpr (div_neg_of_neg_of_pos hx hy)
  have h1 : x ≤ ((⌈x / y⌉ : ℤ) : α) * y := by
    have := mul_le_mul_of_nonneg_right (Int.le_ceil (x / y)) hy.le
    rwa [div_mul_cancel₀ x hy.ne'] at this
  have h2 : ((⌈x / y⌉ : ℤ) : α) * y < (x / y + 1) * y :=
    mul_lt_mul_of_pos_right (Int.ceil_lt_add_one (x / y)) hy
  rw [add_mul, div_mul_cancel₀ x hy.ne', one_mul] at h2
  unfold fmod trunc
  rw [if_neg hq]
  constructor <;> linarith

/-- The angle that fixNegativeAngle and splitPositiveAngle work on after their first
test: it differs from the argument by a multiple of the turn and lies strictly inside
one turn when the turn is positive, keeping the sign of the argument. -/
theorem reduced_angle {α : Type} [LinearOrderedField α] [FloorRing α] (M_PI : α)
    (hpi : 0 < M_PI) (a : α) :
    (∃ k : ℤ, (if a < -2 * M_PI ∨ a ≥ 2 * M_PI then fmod a (2 * M_PI) else a) - a =
      (k : α) * (2 * M_PI)) ∧
    -(2 * M_PI) ≤ (if a < -2 * M_PI ∨ a ≥ 2 * M_PI then fmod a (2 * M_PI) else a) ∧
    (if a < -2 * M_PI ∨ a ≥ 2 * M_PI then fmod a (2 * M_PI) else a) < 2 * M_PI ∧
    (-(2 * M_PI) ≤ a → a < 2 * M_PI →
      (if a < -2 * M_PI ∨ a ≥ 2 * M_PI then fmod a (2 * M_PI) else a) = a) := by
  have h2 : (0 : α) < 2 * M_PI := by linarith
  by_cases h : a < -2 * M_PI ∨ a ≥ 2 * M_PI
  · rw [if_pos h]
    refine ⟨fmod_multiple a (2 * M_PI), ?_, ?_, ?_⟩
    · rcases lt_or_le a 0 with ha | ha
      · exact (fmod_neg a _ h2 ha).1.le
      · linarith [(fmod_nonneg a _ h2 ha).1]
    · rcases lt_or_le a 0 with ha | ha
      · linarith [(fmod_neg a _ h2 ha).2]
      · exact (fmod_nonneg a _ h2 ha).2
    · intro h3 h4
      rcases h with h | h
      · linarith
      · exact absurd h4 (not_lt.mpr h)
  · rw [if_neg h]
    push_neg at h
    refine ⟨⟨0, by simp⟩, by linarith [h.1], h.2, fun _ _ => rfl⟩

/-! ### The claims on the angle functions -/

/-- C23: fixNegativeAngle normalises to the positive turn. In every linearly ordered field
with a floor function (the real numbers with `M_PI` the number pi among them) and for every
positive value of the constant `M_PI`, the result `r` for an angle `a` satisfies
`0 ≤ r < 2 * M_PI`, `r - a` is an integer multiple of `2 * M_PI`, and `r = a` whenever
`0 ≤ a < 2 * M_PI`. -/
theorem fixNegativeAngle_normalises {α : Type} [LinearOrderedField α] [FloorRing α]
    (M_PI : α) (hpi : 0 < M_PI) (a : α) :
    0 ≤ UtilityH.fixNegativeAngle M_PI a ∧
    UtilityH.fixNegativeAngle M_PI a < 2 * M_PI ∧
    (∃ k : ℤ, UtilityH.fixNegativeAngle M_PI a - a = (k : α) * (2 * M_PI)) ∧
    (0 ≤ a → a < 2 * M_PI → UtilityH.fixNegativeAngle M_PI a = a) := by
  obtain ⟨⟨k, hk⟩, hlow, hhigh, hsame⟩ := reduced_angle M_PI hpi a
  unfold UtilityH.fixNegativeAngle
  dsimp only
  by_cases hneg : (if a < -2 * M_PI ∨ a ≥ 2 * M_PI then fmod a (2 * M_PI) else a) < 0
  · rw [if_pos hneg]
    refine ⟨by linarith, by linarith, ⟨k + 1, ?_⟩, ?_⟩
    · push_cast
      linarith
    · intro h0 h1
      rw [hsame (by linarith) h1] at hneg
      exact absurd hneg (not_lt.mpr h0)
  · rw [if_neg hneg]
    exact ⟨not_lt.mp hneg, hhigh, ⟨k, hk⟩, fun h0 h1 => hsame (by linarith) h1⟩

/-- C24: splitPositiveAngle normalises to the signed half turn. In every linearly ordered
field with a floor function (the real numbers with `M_PI` the number pi among them) and for
every positive value of the constant `M_PI`, the result `r` for an angle `a` satisfies
`-M_PI ≤ r < M_PI`, `r - a` is an integer multiple of `2 * M_PI`, and applying the
function to its own result changes nothing. -/
theorem splitPositiveAngle_normalises {α : Type} [LinearOrderedField α] [FloorRing α]
    (M_PI : α) (hpi : 0 < M_PI) (a : α) :
    -M_PI ≤ UtilityH.splitPositiveAngle M_PI a ∧
    UtilityH.splitPositiveAngle M_PI a < M_PI ∧
    (∃ k : ℤ, UtilityH.splitPositiveAngle M_PI a - a = (k : α) * (2 * M_PI)) ∧
    UtilityH.splitPositiveAngle M_PI (UtilityH.splitPositiveAngle M_PI a) =
      UtilityH.splitPositiveAngle M_PI a := by
  have hrange : ∀ b : α, -M_PI ≤ UtilityH.splitPositiveAngle M_PI b ∧
      UtilityH.splitPositiveAngle M_PI b < M_PI ∧
      (∃ k : ℤ, UtilityH.splitPositiveAngle M_PI b - b = (k : α) * (2 * M_PI)) := by
    intro b
    obtain ⟨⟨k, hk⟩, hlow, hhigh, _⟩ := reduced_angle M_PI hpi b
    unfold UtilityH.splitPositiveAngle
    dsimp only
    by_cases h1 : (if b < -2 * M_PI ∨ b ≥ 2 * M_PI then fmod b (2 * M_PI) else b) ≥ M_PI
    · rw [if_pos h1]
      refine ⟨by linarith, by linarith, ⟨k - 1, ?_⟩⟩
      push_cast
      linarith
    · rw [if_neg h1]
      by_cases h2 : (if b < -2 * M_PI ∨ b ≥ 2 * M_PI then fmod b (2 * M_PI) else b) < -M_PI
      · rw [if_pos h2]
        refine ⟨by linarith, by linarith, ⟨k + 1, ?_⟩⟩
        push_cast
        linarith
      · rw [if_neg h2]
        exact ⟨not_lt.mp h2, not_le.mp h1, ⟨k, hk⟩⟩
  have hfix : ∀ r : α, -M_PI ≤ r → r < M_PI → UtilityH.splitPositiveAngle M_PI r = r := by
    intro r h1 h2
    unfold UtilityH.splitPositiveAngle
    dsimp only
    have hin : (if r < -2 * M_PI ∨ r ≥ 2 * M_PI then fmod r (2 * M_PI) else r) = r :=
      if_neg (by push_neg; constructor <;> linarith)
    rw [hin, if_neg (not_le.mpr h2), if_neg (not_lt.mpr h1)]
  exact ⟨(hrange a).1, (hrange a).2.1, (hrange a).2.2, hfix _ (hrange a).1 (hrange a).2.1⟩


theorem fixNegativeAngle_normalises_witness :
    UtilityH.fixNegativeAngle (22 / 7 : ℚ) 1 = 1 ∧
    0 ≤ UtilityH.fixNegativeAngle Real.pi (-7) ∧
    UtilityH.fixNegativeAngle Real.pi (-7) < 2 * Real.pi :=
  ⟨(fixNegativeAngle_normalises (22 / 7 : ℚ) (by norm_num) 1).2.2.2 (by norm_num)
      (by norm_num),
    (fixNegativeAngle_normalises Real.pi Real.pi_pos (-7)).1,
    (fixNegativeAngle_normalises Real.pi Real.pi_pos (-7)).2.1⟩

theorem splitPositiveAngle_normalises_witness :
    -(22 / 7 : ℚ) ≤ UtilityH.splitPositiveAngle (22 / 7 : ℚ) 5 ∧
    UtilityH.splitPositiveAngle (22 / 7 : ℚ) 5 < 22 / 7 ∧
    UtilityH.splitPositiveAngle Real.pi (UtilityH.splitPositiveAngle Real.pi 5) =
      UtilityH.splitPositiveAngle Real.pi 5 :=
  ⟨(splitPositiveAngle_normalises (22 / 7 : ℚ) (by norm_num) 5).1,
    (splitPositiveAngle_normalises (22 / 7 : ℚ) (by norm_num) 5).2.1,
    (splitPositiveAngle_normalises Real.pi Real.pi_pos 5).2.2.2⟩

/-! ### One call of getPID -/

/-- The four blocks of getPID, field by field. -/
theorem getPID_blocks {α : Type} [Zero α] [Add α] [Sub α] [Mul α] [LT α]
    [∀ a b : α, Decidable (a < b)] (c : PIDController α) (e : α) :
    ((c.applyResets e).accum_err_ = (if c.reset_i_ = true then 0 else c.accum_err_) ∧
      (c.applyResets e).prev_err_ = (if c.reset_d_ = true then e else c.prev_err_) ∧
      (c.applyResets e).reset_i_ = false ∧ (c.applyResets e).reset_d_ = false ∧
      (c.applyResets e).pid_v_ = c.pid_v_ ∧
      (c.applyResets e).enable_limit_ = c.enable_limit_ ∧
      (c.applyResets e).upper_limit_ = c.upper_limit_ ∧
      (c.applyResets e).lower_limit_ = c.lower_limit_ ∧
      (c.applyResets e).kp_ = c.kp_ ∧ (c.applyResets e).ki_ = c.ki_ ∧
      (c.applyResets e).kd_ = c.kd_) ∧
    ((c.accumulate e).accum_err_ =
        (if c.enable_limit_ = false ∨
          (c.lower_limit_ < c.pid_v_ ∧ c.pid_v_ < c.upper_limit_) then c.accum_err_ + e
          else c.accum_err_) ∧
      (c.accumulate e).prev_err_ = c.prev_err_ ∧
      (c.accumulate e).reset_i_ = c.reset_i_ ∧ (c.accumulate e).reset_d_ = c.reset_d_ ∧
      (c.accumulate e).enable_limit_ = c.enable_limit_ ∧
      (c.accumulate e).upper_limit_ = c.upper_limit_ ∧
      (c.accumulate e).lower_limit_ = c.lower_limit_ ∧
      (c.accumulate e).kp_ = c.kp_ ∧ (c.accumulate e).ki_ = c.ki_ ∧
      (c.accumulate e).kd_ = c.kd_) ∧
    (c.limit.pid_lim_ =
        (if c.enable_limit_ = true then
          if c.pid_v_ > c.upper_limit_ then c.upper_limit_
          else if c.pid_v_ < c.lower_limit_ then c.lower_limit_
          else c.pid_lim_
        else c.pid_lim_) ∧
      c.limit.accum_err_ = c.accum_err_ ∧ c.limit.pid_v_ = c.pid_v_ ∧
      c.limit.reset_i_ = c.reset_i_ ∧ c.limit.reset_d_ = c.reset_d_ ∧
      c.limit.enable_limit_ = c.enable_limit_ ∧
      c.limit.upper_limit_ = c.upper_limit_ ∧ c.limit.lower_limit_ = c.lower_limit_ ∧
      c.limit.kp_ = c.kp_ ∧ c.limit.ki_ = c.ki_ ∧ c.limit.kd_ = c.kd_) := by
  refine ⟨?_, ?_, ?_⟩
  · unfold PIDController.applyResets
    cases hi : c.reset_i_ <;> cases hd : c.reset_d_ <;> simp [hi, hd]
  · unfold PIDController.accumulate
    by_cases h : c.enable_limit_ = false ∨ (c.pid_v_ < c.upper_limit_ ∧ c.pid_v_ > c.lower_limit_)
    · rw [if_pos h, if_pos (by tauto)]
      exact ⟨rfl, rfl, rfl, rfl, rfl, rfl, rfl, rfl, rfl, rfl⟩
    · rw [if_neg h, if_neg (by tauto)]
      exact ⟨rfl, rfl, rfl, rfl, rfl, rfl, rfl, rfl, rfl, rfl⟩
  · unfold PIDController.limit
    split_ifs <;> simp

/-- One call of getPID in closed form: the accumulated error, the sum stored in `pid_v_`,
the returned value, and the member variables the call leaves alone. -/
theorem getPID_closed {α : Type} [Zero α] [Add α] [Sub α] [Mul α] [LT α]
    [∀ a b : α, Decidable (a < b)] (c : PIDController α) (e : α) :
    (c.getPID e).1.accum_err_ =
      (if c.enable_limit_ = false ∨
          (c.lower_limit_ < c.pid_v_ ∧ c.pid_v_ < c.upper_limit_) then
        (if c.reset_i_ = true then 0 else c.accum_err_) + e
        else (if c.reset_i_ = true then 0 else c.accum_err_)) ∧
    (c.getPID e).1.pid_v_ =
      c.kp_ * e + c.ki_ * (c.getPID e).1.accum_err_ +
        c.kd_ * (e - (if c.reset_d_ = true then e else c.prev_err_)) ∧
    (c.getPID e).2 =
      (if c.enable_limit_ = true then
        if (c.getPID e).1.pid_v_ > c.upper_limit_ then c.upper_limit_
        else if (c.getPID e).1.pid_v_ < c.lower_limit_ then c.lower_limit_
        else (c.getPID e).1.pid_v_
      else (c.getPID e).1.pid_v_) ∧
    (c.getPID e).1.prev_err_ = e ∧
    (c.getPID e).1.reset_i_ = false ∧ (c.getPID e).1.reset_d_ = false ∧
    (c.getPID e).1.enable_limit_ = c.enable_limit_ ∧
    (c.getPID e).1.upper_limit_ = c.upper_limit_ ∧
    (c.getPID e).1.lower_limit_ = c.lower_limit_ ∧
    (c.getPID e).1.kp_ = c.kp_ ∧ (c.getPID e).1.ki_ = c.ki_ ∧
    (c.getPID e).1.kd_ = c.kd_ := by
  obtain ⟨r1, r2, r3, r4, r5, r6, r7, r8, r9, r10, r11⟩ := (getPID_blocks c e).1
  obtain ⟨a1, a2, a3, a4, a5, a6, a7, a8, a9, a10⟩ :=
    (getPID_blocks (c.applyResets e) e).2.1
  obtain ⟨l1, l2, l3, l4, l5, l6, l7, l8, l9, l10, l11⟩ :=
    (getPID_blocks (((c.applyResets e).accumulate e).evaluate e) e).2.2
  have hacc : (c.getPID e).1.accum_err_ =
      (if c.enable_limit_ = false ∨
          (c.lower_limit_ < c.pid_v_ ∧ c.pid_v_ < c.upper_limit_) then
        (if c.reset_i_ = true then 0 else c.accum_err_) + e
        else (if c.reset_i_ = true then 0 else c.accum_err_)) := by
    show (((c.applyResets e).accumulate e).evaluate e).limit.accum_err_ = _
    rw [l2]
    show ((c.applyResets e).accumulate e).accum_err_ = _
    rw [a1, r1, r5, r6, r7, r8]
  have hsum : (c.getPID e).1.pid_v_ =
      c.kp_ * e + c.ki_ * (c.getPID e).1.accum_err_ +
        c.kd_ * (e - (if c.reset_d_ = true then e else c.prev_err_)) := by
    show (((c.applyResets e).accumulate e).evaluate e).limit.pid_v_ =
      c.kp_ * e + c.ki_ * (((c.applyResets e).accumulate e).evaluate e).limit.accum_err_ + _
    rw [l3, l2]
    show ((c.applyResets e).accumulate e).kp_ * e +
      ((c.applyResets e).accumulate e).ki_ * ((c.applyResets e).accumulate e).accum_err_ +
      ((c.applyResets e).accumulate e).kd_ * (e - ((c.applyResets e).accumulate e).prev_err_) =
      c.kp_ * e + c.ki_ * ((c.applyResets e).accumulate e).accum_err_ + _
    rw [a8, a9, a10, a2, r9, r10, r11, r2]
  have hout : (c.getPID e).2 =
      (if c.enable_limit_ = true then
        if (c.getPID e).1.pid_v_ > c.upper_limit_ then c.upper_limit_
        else if (c.getPID e).1.pid_v_ < c.lower_limit_ then c.lower_limit_
        else (c.getPID e).1.pid_v_
      else (c.getPID e).1.pid_v_) := by
    show (((c.applyResets e).accumulate e).evaluate e).limit.pid_lim_ =
      (if c.enable_limit_ = true then
        if (((c.applyResets e).accumulate e).evaluate e).limit.pid_v_ > c.upper_limit_ then
          c.upper_limit_
        else if (((c.applyResets e).accumulate e).evaluate e).limit.pid_v_ < c.lower_limit_
          then c.lower_limit_
        else (((c.applyResets e).accumulate e).evaluate e).limit.pid_v_
      else (((c.applyResets e).accumulate e).evaluate e).limit.pid_v_)
    rw [l1, l3]
    have e1 : (((c.applyResets e).accumulate e).evaluate e).enable_limit_ =
        c.enable_limit_ := a5.trans r6
    have e2 : (((c.applyResets e).accumulate e).evaluate e).upper_limit_ =
        c.upper_limit_ := a6.trans r7
    have e3 : (((c.applyResets e).accumulate e).evaluate e).lower_limit_ =
        c.lower_limit_ := a7.trans r8
    have e4 : (((c.applyResets e).accumulate e).evaluate e).pid_lim_ =
        (((c.applyResets e).accumulate e).evaluate e).pid_v_ := rfl
    rw [e1, e2, e3, e4]
  refine ⟨hacc, hsum, hout, rfl, ?_, ?_, ?_, ?_, ?_, ?_, ?_, ?_⟩
  · exact l4.trans (a3.trans r3)
  · exact l5.trans (a4.trans r4)
  · exact l6.trans (a5.trans r6)
  · exact l7.trans (a6.trans r7)
  · exact l8.trans (a7.trans r8)
  · exact l9.trans (a8.trans r9)
  · exact l10.trans (a9.trans r10)
  · exact l11.trans (a10.trans r11)

/-! ### Sequences of calls -/

/-- Calls other than setLimit leave the limits and their switch alone. -/
theorem calls_keep_limits {α : Type} [Zero α] [Add α] [Sub α] [Mul α] [LT α]
    [∀ a b : α, Decidable (a < b)] (ops : List (PIDCall α)) :
    ∀ c : PIDController α, (∀ op ∈ ops, op.isSetLimit = false) →
      (c.calls ops).enable_limit_ = c.enable_limit_ ∧
      (c.calls ops).upper_limit_ = c.upper_limit_ ∧
      (c.calls ops).lower_limit_ = c.lower_limit_ := by
  induction ops with
  | nil => intro c _; exact ⟨rfl, rfl, rfl⟩
  | cons op rest ih =>
    intro c h
    have hrest := ih (c.call op) (fun o ho => h o (List.mem_cons_of_mem _ ho))
    have hop : (c.call op).enable_limit_ = c.enable_limit_ ∧
        (c.call op).upper_limit_ = c.upper_limit_ ∧
        (c.call op).lower_limit_ = c.lower_limit_ := by
      have hno := h op (List.mem_cons_self _ _)
      cases op with
      | setLimit upper lower => simp [PIDCall.isSetLimit] at hno
      | getPID e =>
        obtain ⟨_, _, _, _, _, _, h7, h8, h9, _⟩ := getPID_closed c e
        exact ⟨h7, h8, h9⟩
      | getPIDFrom curr_value target_value =>
        obtain ⟨_, _, _, _, _, _, h7, h8, h9, _⟩ :=
          getPID_closed c (target_value - curr_value)
        exact ⟨h7, h8, h9⟩
      | resetD => exact ⟨rfl, rfl, rfl⟩
      | resetI => exact ⟨rfl, rfl, rfl⟩
      | init kp ki kd => exact ⟨rfl, rfl, rfl⟩
    show ((c.call op).calls rest).enable_limit_ = c.enable_limit_ ∧
      ((c.call op).calls rest).upper_limit_ = c.upper_limit_ ∧
      ((c.call op).calls rest).lower_limit_ = c.lower_limit_
    rw [hrest.1, hrest.2.1, hrest.2.2]
    exact hop

/-- Calls other than getPID leave the stored sum `pid_v_` alone. -/
theorem calls_keep_pid_v {α : Type} [Zero α] [Add α] [Sub α] [Mul α] [LT α]
    [∀ a b : α, Decidable (a < b)] (ops : List (PIDCall α)) :
    ∀ c : PIDController α, (∀ op ∈ ops, op.isGetPID = false) →
      (c.calls ops).pid_v_ = c.pid_v_ := by
  induction ops with
  | nil => intro c _; rfl
  | cons op rest ih =>
    intro c h
    have hrest := ih (c.call op) (fun o ho => h o (List.mem_cons_of_mem _ ho))
    have hop : (c.call op).pid_v_ = c.pid_v_ := by
      have hno := h op (List.mem_cons_self _ _)
      cases op with
      | setLimit upper lower => rfl
      | getPID e => simp [PIDCall.isGetPID] at hno
      | getPIDFrom curr_value target_value => simp [PIDCall.isGetPID] at hno
      | resetD => rfl
      | resetI => rfl
      | init kp ki kd => rfl
    show ((c.call op).calls rest).pid_v_ = c.pid_v_
    rw [hrest, hop]

/-! ### The order of the doubles -/

theorem Double.lt_iff (a b : Double) : a < b ↔ Double.blt a b = true := Iff.rfl

theorem Double.le_iff (a b : Double) : a ≤ b ↔ Double.ble a b = true := Iff.rfl

/-- No comparison with NaN holds. -/
theorem Double.nan_unordered (a : Double) :
    ¬ a < Double.nan ∧ ¬ Double.nan < a ∧ ¬ a ≤ Double.nan ∧ ¬ Double.nan ≤ a := by
  simp only [Double.lt_iff, Double.le_iff]
  cases a <;> simp [Double.blt, Double.ble]

/-- Both sides of a comparison that holds are comparable with themselves. -/
theorem Double.le_self_of_le {a b : Double} (h : a ≤ b) : a ≤ a ∧ b ≤ b := by
  simp only [Double.le_iff] at h ⊢
  cases a <;> cases b <;> simp_all [Double.ble]

theorem Double.not_lt_of_le {a b : Double} (h : a ≤ b) : ¬ b < a := by
  simp only [Double.le_iff, Double.lt_iff] at h ⊢
  cases a <;> cases b <;> simp_all [Double.ble, Double.blt]

theorem Double.le_of_not_lt {a b : Double} (ha : a ≠ Double.nan) (hb : b ≠ Double.nan)
    (h : ¬ b < a) : a ≤ b := by
  simp only [Double.le_iff, Double.lt_iff] at h ⊢
  cases a <;> cases b <;> simp_all [Double.ble, Double.blt]

theorem Double.not_lt_of_lt_of_le {a b c : Double} (h1 : a < b) (h2 : b ≤ c) : ¬ c < a := by
  simp only [Double.le_iff, Double.lt_iff] at h1 h2 ⊢
  cases a <;> cases b <;> cases c <;> simp_all [Double.ble, Double.blt]
  linarith

theorem Double.ne_nan_of_le {a b : Double} (h : a ≤ b) : a ≠ Double.nan ∧ b ≠ Double.nan := by
  simp only [Double.le_iff] at h
  cases a <;> cases b <;> simp_all [Double.ble]

theorem Double.finite_add (x y : ℚ) :
    Double.finite x + Double.finite y = Double.finite (x + y) := rfl

theorem Double.finite_sub (x y : ℚ) :
    Double.finite x - Double.finite y = Double.finite (x - y) :=
  congrArg Double.finite (sub_eq_add_neg x y).symm

theorem Double.finite_mul (x y : ℚ) :
    Double.finite x * Double.finite y = Double.finite (x * y) := rfl

theorem Double.finite_lt (x y : ℚ) : Double.finite x < Double.finite y ↔ x < y := by
  simp [Double.lt_iff, Double.blt]

theorem Double.zero_lt_finite (y : ℚ) : (0 : Double) < Double.finite y ↔ 0 < y :=
  Double.finite_lt 0 y

theorem Double.finite_lt_zero (x : ℚ) : Double.finite x < (0 : Double) ↔ x < 0 :=
  Double.finite_lt x 0

theorem Double.finite_sub_zero (x : ℚ) : Double.finite x - (0 : Double) = Double.finite x :=
  (Double.finite_sub x 0).trans (congrArg Double.finite (sub_zero x))

/-! ### The claims on the controller -/

/-- C25 (counterexample): the value returned by getPID is not always within the limits. On
a controller with the gains 1, 0, 0 and the limits -5 and 5, the call getPID(NaN) forms the
sum NaN, and so does the call with an infinite error, whose integral term is zero times
infinity; both comparisons of lines 305 and 307 are false for NaN, so NaN is returned, and
NaN is neither at least -5 nor at most 5. -/
theorem getPID_returns_nan_despite_limits :
    (((PIDController.withGains (Double.finite 1) (Double.finite 0) (Double.finite 0)).setLimit
      (Double.finite 5) (Double.finite (-5))).getPID Double.nan).2 = Double.nan ∧
    (((PIDController.withGains (Double.finite 1) (Double.finite 0) (Double.finite 0)).setLimit
      (Double.finite 5) (Double.finite (-5))).getPID Double.posInf).2 = Double.nan ∧
    Double.finite (-5) ≤ Double.finite 5 ∧
    ¬ Double.finite (-5) ≤ Double.nan ∧ ¬ Double.nan ≤ Double.finite 5 := by
  refine ⟨?_, ?_, by decide, by decide, by decide⟩
  · decide
  · decide

/-- C25 (amended): the output clamp of PIDController on doubles that may be infinite or NaN.
Let `c` be a controller on which setLimit(upper, lower) was called with `lower ≤ upper`,
followed by any calls other than setLimit. A call getPID(e) on `c` forms the sum
`kp * e + ki * accum_err + kd * (e - prev_err)` (with the accumulated error as updated by
this call, and the previous error replaced by `e` when a resetD is pending) and stores it
in `pid_v_`. Whenever the sum is not NaN the returned value lies in `[lower, upper]`; it is
the sum when the sum lies in `[lower, upper]`, `upper` when the sum is above `upper` and
`lower` when it is below `lower`, infinite sums included. When the sum is NaN it is
returned as it is. On a constructed controller on which setLimit was never called the sum
itself is returned. -/
theorem getPID_output_clamped_unless_nan (c0 : PIDController Double) (upper lower : Double)
    (hle : lower ≤ upper) (ops : List (PIDCall Double))
    (hops : ∀ op ∈ ops, op.isSetLimit = false) (e : Double) :
    (((c0.setLimit upper lower).calls ops).getPID e).1.pid_v_ =
      ((c0.setLimit upper lower).calls ops).kp_ * e +
        ((c0.setLimit upper lower).calls ops).ki_ *
          (((c0.setLimit upper lower).calls ops).getPID e).1.accum_err_ +
        ((c0.setLimit upper lower).calls ops).kd_ *
          (e - (if ((c0.setLimit upper lower).calls ops).reset_d_ = true then e
            else ((c0.setLimit upper lower).calls ops).prev_err_)) ∧
    ((((c0.setLimit upper lower).calls ops).getPID e).1.pid_v_ ≠ Double.nan →
      lower ≤ (((c0.setLimit upper lower).calls ops).getPID e).2 ∧
      (((c0.setLimit upper lower).calls ops).getPID e).2 ≤ upper) ∧
    (lower ≤ (((c0.setLimit upper lower).calls ops).getPID e).1.pid_v_ →
      (((c0.setLimit upper lower).calls ops).getPID e).1.pid_v_ ≤ upper →
      (((c0.setLimit upper lower).calls ops).getPID e).2 =
        (((c0.setLimit upper lower).calls ops).getPID e).1.pid_v_) ∧
    ((((c0.setLimit upper lower).calls ops).getPID e).1.pid_v_ > upper →
      (((c0.setLimit upper lower).calls ops).getPID e).2 = upper) ∧
    ((((c0.setLimit upper lower).calls ops).getPID e).1.pid_v_ < lower →
      (((c0.setLimit upper lower).calls ops).getPID e).2 = lower) ∧
    ((((c0.setLimit upper lower).calls ops).getPID e).1.pid_v_ = Double.nan →
      (((c0.setLimit upper lower).calls ops).getPID e).2 = Double.nan) ∧
    (∀ kp ki kd : Double,
      (((PIDController.withGains kp ki kd).calls ops).getPID e).2 =
        (((PIDController.withGains kp ki kd).calls ops).getPID e).1.pid_v_) := by
  obtain ⟨hen, hup, hlo⟩ := calls_keep_limits ops (c0.setLimit upper lower) hops
  have hen1 : ((c0.setLimit upper lower).calls ops).enable_limit_ = true := hen
  have hup1 : ((c0.setLimit upper lower).calls ops).upper_limit_ = upper := hup
  have hlo1 : ((c0.setLimit upper lower).calls ops).lower_limit_ = lower := hlo
  obtain ⟨_, hsum, hout, _⟩ := getPID_closed ((c0.setLimit upper lower).calls ops) e
  rw [hen1, hup1, hlo1, if_pos rfl] at hout
  obtain ⟨hlower, hupper⟩ := Double.le_self_of_le hle
  obtain ⟨hlnan, hunan⟩ := Double.ne_nan_of_le hle
  refine ⟨hsum, ?_, ?_, ?_, ?_, ?_, ?_⟩
  · intro hnan
    rw [hout]
    split_ifs with h1 h2
    · exact ⟨hle, hupper⟩
    · exact ⟨hlower, hle⟩
    · exact ⟨Double.le_of_not_lt hlnan hnan h2, Double.le_of_not_lt hnan hunan h1⟩
  · intro h1 h2
    rw [hout, if_neg (Double.not_lt_of_le h2), if_neg (Double.not_lt_of_le h1)]
  · intro h1
    rw [hout, if_pos h1]
  · intro h1
    rw [hout, if_neg (Double.not_lt_of_lt_of_le h1 hle), if_pos h1]
  · intro h1
    rw [hout, h1, if_neg (Double.nan_unordered upper).1,
      if_neg (Double.nan_unordered lower).2.1]
  · intro kp ki kd
    have hoff := (calls_keep_limits ops (PIDController.withGains kp ki kd) hops).1
    have hoff1 : ((PIDController.withGains kp ki kd).calls ops).enable_limit_ = false :=
      hoff
    obtain ⟨_, _, hret, _⟩ := getPID_closed ((PIDController.withGains kp ki kd).calls ops) e
    rw [hret, hoff1]
    rfl

/-- C26: the accumulation of the integral term. A call getPID(e) leaves in `accum_err_`
the old accumulated error, or 0 when a resetI is pending, plus `e` exactly when the limits
are disabled or the stored sum `pid_v_` lies strictly between `lower_limit_` and
`upper_limit_`, and nothing otherwise; after the call `prev_err_` is `e` and no reset is
pending. The stored sum tested by a call is the unclamped output of the previous call of
getPID, whatever other calls came in between, and 0 on a constructed controller on which
getPID was not called yet. This holds for every number type in which adding zero changes
nothing, the rationals and the doubles with infinities and NaN among them. -/
theorem getPID_accumulates_unless_saturated {α : Type} [AddZeroClass α] [Sub α] [Mul α]
    [LT α] [∀ a b : α, Decidable (a < b)] (c : PIDController α) (e : α) :
    (c.getPID e).1.accum_err_ =
      (if c.reset_i_ = true then 0 else c.accum_err_) +
        (if c.enable_limit_ = false ∨
          (c.lower_limit_ < c.pid_v_ ∧ c.pid_v_ < c.upper_limit_) then e else 0) ∧
    (c.getPID e).1.prev_err_ = e ∧
    (c.getPID e).1.reset_i_ = false ∧ (c.getPID e).1.reset_d_ = false ∧
    (∀ ops : List (PIDCall α), (∀ op ∈ ops, op.isGetPID = false) →
      ((c.getPID e).1.calls ops).pid_v_ =
        c.kp_ * e + c.ki_ * (c.getPID e).1.accum_err_ +
          c.kd_ * (e - (if c.reset_d_ = true then e else c.prev_err_))) ∧
    (∀ (kp ki kd : α) (ops : List (PIDCall α)), (∀ op ∈ ops, op.isGetPID = false) →
      ((PIDController.withGains kp ki kd).calls ops).pid_v_ = 0 ∧
      (PIDController.default.calls ops).pid_v_ = 0) := by
  obtain ⟨hacc, hsum, _, hprev, hri, hrd, _⟩ := getPID_closed c e
  refine ⟨?_, hprev, hri, hrd, ?_, ?_⟩
  · rw [hacc]
    split_ifs <;> simp
  · intro ops hops
    rw [calls_keep_pid_v ops _ hops, hsum]
  · intro kp ki kd ops hops
    exact ⟨calls_keep_pid_v ops _ hops, calls_keep_pid_v ops _ hops⟩

theorem getPID_output_clamped_unless_nan_witness :
    ((((PIDController.withGains (Double.finite 2) (Double.finite 1) (Double.finite 0)).setLimit
      (Double.finite 5) (Double.finite (-5))).calls [PIDCall.resetI]).getPID
        (Double.finite 10)).2 = Double.finite 5 ∧
    ((((PIDController.withGains (Double.finite 2) (Double.finite 1) (Double.finite 1)).setLimit
      (Double.finite 5) (Double.finite (-5))).calls []).getPID Double.negInf).2 =
        Double.finite (-5) :=
  ⟨(getPID_output_clamped_unless_nan
      (PIDController.withGains (Double.finite 2) (Double.finite 1) (Double.finite 0))
      (Double.finite 5) (Double.finite (-5)) (by decide) [PIDCall.resetI]
      (by simp [PIDCall.isSetLimit]) (Double.finite 10)).2.2.2.1
      (by norm_num [PIDController.getPID, PIDController.applyResets,
        PIDController.accumulate, PIDController.evaluate, PIDController.limit,
        PIDController.calls, PIDController.call, PIDController.setLimit,
        PIDController.resetI, PIDController.withGains, Double.finite_add, Double.finite_sub,
        Double.finite_mul, Double.finite_lt, Double.zero_lt_finite, Double.finite_lt_zero,
        Double.finite_sub_zero]),
    (getPID_output_clamped_unless_nan
      (PIDController.withGains (Double.finite 2) (Double.finite 1) (Double.finite 1))
      (Double.finite 5) (Double.finite (-5)) (by decide) []
      (by simp) Double.negInf).2.2.2.2.1 (by decide)⟩

theorem getPID_accumulates_unless_saturated_witness :
    ((((PIDController.withGains 2 1 0).getPID 10).1.calls
      [PIDCall.setLimit 25 0, PIDCall.resetI]).pid_v_ = 30) ∧
    ((((PIDController.withGains 2 1 0).getPID 10).1.calls
      [PIDCall.setLimit 25 0, PIDCall.resetI]).getPID 1).1.accum_err_ = 0 := by
  have h := (getPID_accumulates_unless_saturated (PIDController.withGains 2 1 0) 10).2.2.2.2.1
    [PIDCall.setLimit 25 0, PIDCall.resetI] (by simp [PIDCall.isGetPID])
  refine ⟨?_, ?_⟩
  · rw [h]
    norm_num [PIDController.getPID, PIDController.applyResets, PIDController.accumulate,
      PIDController.evaluate, PIDController.limit, PIDController.withGains]
  · norm_num [PIDController.getPID, PIDController.applyResets, PIDController.accumulate,
      PIDController.evaluate, PIDController.limit, PIDController.calls, PIDController.call,
      PIDController.setLimit, PIDController.resetI, PIDController.withGains]

/-! ### The claims on timestamps -/

theorem wrapLong_of_range (n : Int) (h1 : -(2 ^ 63) ≤ n) (h2 : n < 2 ^ 63) :
    wrapLong n = n := by
  unfold wrapLong
  omega

theorem wrapInt_of_range (n : Int) (h1 : -(2 ^ 31) ≤ n) (h2 : n < 2 ^ 31) :
    wrapInt n = n := by
  unfold wrapInt
  omega

/-- C27: tsCompare is antisymmetric. For two timestamps whose nanosecond fields differ by
less than 2^63 in absolute value (as they do whenever both lie between 0 and 10^9, and
without which the subtraction overflows) and every tolerance `0 ≤ tol < 2^31`, swapping the
timestamps negates the result; and the result is 0 exactly when the two `tv_sec` fields are
equal and `|t1.tv_nsec - t2.tv_nsec| ≤ tol`. -/
theorem tsCompare_antisymmetric (t1 t2 : PlannerHNS.timespec) (tol : Int) (htol : 0 ≤ tol)
    (hint : tol < 2 ^ 31) (hlow : -(2 ^ 63) < t1.tv_nsec - t2.tv_nsec)
    (hhigh : t1.tv_nsec - t2.tv_nsec < 2 ^ 63) :
    UtilityH.tsCompare t2 t1 tol = -UtilityH.tsCompare t1 t2 tol ∧
    (UtilityH.tsCompare t1 t2 tol = 0 ↔
      t1.tv_sec = t2.tv_sec ∧ |t1.tv_nsec - t2.tv_nsec| ≤ tol) := by
  have hd1 : wrapLong (t1.tv_nsec - t2.tv_nsec) = t1.tv_nsec - t2.tv_nsec :=
    wrapLong_of_range _ (by omega) hhigh
  have hd2 : wrapLong (t2.tv_nsec - t1.tv_nsec) = t2.tv_nsec - t1.tv_nsec :=
    wrapLong_of_range _ (by omega) (by omega)
  have ht : wrapInt (-tol) = -tol := wrapInt_of_range _ (by omega) (by omega)
  unfold UtilityH.tsCompare
  dsimp only
  rw [hd1, hd2, ht, abs_le]
  constructor
  · split_ifs <;> omega
  · split_ifs with h1 h2 h3 h4
    · exact ⟨fun h => absurd h (by decide), fun h => absurd h.1 (by omega)⟩
    · exact ⟨fun h => absurd h (by decide), fun h => absurd h.1 (by omega)⟩
    · exact ⟨fun h => absurd h (by decide), fun h => absurd h.2.1 (by omega)⟩
    · exact ⟨fun h => absurd h (by decide), fun h => absurd h.2.2 (by omega)⟩
    · exact ⟨fun _ => ⟨by omega, by omega, by omega⟩, fun _ => rfl⟩

theorem tsCompare_antisymmetric_witness :
    UtilityH.tsCompare ⟨5, 100⟩ ⟨5, 900⟩ 10 = -UtilityH.tsCompare ⟨5, 900⟩ ⟨5, 100⟩ 10 ∧
    UtilityH.tsCompare ⟨5, 900⟩ ⟨5, 100⟩ 10 = 1 :=
  ⟨(tsCompare_antisymmetric ⟨5, 900⟩ ⟨5, 100⟩ 10 (by decide) (by decide) (by decide)
    (by decide)).1, by decide⟩

/-- The quotient of C++ by a billion, for both signs of the dividend. -/
theorem tdiv_billion (t : Int) :
    (0 ≤ t → Int.tdiv t 1000000000 = t / 1000000000) ∧
    (t < 0 → Int.tdiv t 1000000000 = -((-t) / 1000000000)) := by
  constructor
  · intro h
    exact Int.tdiv_eq_ediv h (by norm_num)
  · intro h
    have h1 : Int.tdiv (-(-t)) 1000000000 = -Int.tdiv (-t) 1000000000 := Int.neg_tdiv _ _
    rw [neg_neg] at h1
    rw [h1, Int.tdiv_eq_ediv (by omega) (by norm_num)]

/-- C28: the round trip between a nanosecond count and a timespec. For every count `t` that
a 64-bit `time_t` can hold, getLongTime(getTimeSpec(t)) = t (the division rounds toward
zero, so a negative count gives fields that are both negative or zero); and for every
timespec with `tv_sec ≥ 0` and `0 ≤ tv_nsec < 10^9` whose nanosecond count fits into 64
bits, getTimeSpec(getLongTime(ts)) = ts. -/
theorem timestamp_round_trip :
    (∀ t : Int, -(2 ^ 63) ≤ t → t < 2 ^ 63 →
      UtilityH.getLongTime (UtilityH.getTimeSpec t) = t) ∧
    (∀ ts : PlannerHNS.timespec, 0 ≤ ts.tv_sec → 0 ≤ ts.tv_nsec → ts.tv_nsec < 1000000000 →
      ts.tv_sec * 1000000000 + ts.tv_nsec < 2 ^ 63 →
      UtilityH.getTimeSpec (UtilityH.getLongTime ts) = ts) := by
  constructor
  · intro t h1 h2
    unfold UtilityH.getLongTime UtilityH.getTimeSpec
    dsimp only
    rcases lt_or_le t 0 with hneg | hpos
    · rw [(tdiv_billion t).2 hneg]
      rw [wrapLong_of_range (-(-t / 1000000000)) (by omega) (by omega)]
      rw [wrapLong_of_range (-(-t / 1000000000) * 1000000000) (by omega) (by omega)]
      rw [wrapLong_of_range (t - -(-t / 1000000000) * 1000000000) (by omega) (by omega)]
      rw [wrapLong_of_range _ (by omega) (by omega)]
      omega
    · rw [(tdiv_billion t).1 hpos]
      rw [wrapLong_of_range (t / 1000000000) (by omega) (by omega)]
      rw [wrapLong_of_range (t / 1000000000 * 1000000000) (by omega) (by omega)]
      rw [wrapLong_of_range (t - t / 1000000000 * 1000000000) (by omega) (by omega)]
      rw [wrapLong_of_range _ (by omega) (by omega)]
      omega
  · intro ts h1 h2 h3 h4
    obtain ⟨sec, nsec⟩ := ts
    simp only at h1 h2 h3 h4
    unfold UtilityH.getLongTime UtilityH.getTimeSpec
    dsimp only
    rw [wrapLong_of_range (sec * 1000000000) (by omega) (by omega)]
    rw [wrapLong_of_range (sec * 1000000000 + nsec) (by omega) (by omega)]
    rw [(tdiv_billion _).1 (by omega)]
    have hq : (sec * 1000000000 + nsec) / 1000000000 = sec := by omega
    rw [hq]
    rw [wrapLong_of_range sec (by omega) (by omega)]
    rw [wrapLong_of_range (sec * 1000000000) (by omega) (by omega)]
    rw [wrapLong_of_range _ (by omega) (by omega)]
    congr 1
    omega

theorem timestamp_round_trip_witness :
    UtilityH.getLongTime (UtilityH.getTimeSpec (-1500000000)) = -1500000000 ∧
    UtilityH.getTimeSpec (UtilityH.getLongTime ⟨3, 7⟩) = ⟨3, 7⟩ :=
  ⟨timestamp_round_trip.1 (-1500000000) (by decide) (by decide),
    timestamp_round_trip.2 ⟨3, 7⟩ (by decide) (by decide) (by decide) (by decide)⟩

/-! ### The claim on the momentum scale factor -/

/-- C29, counterexample: at the speed 10 the ramp `0.3 + (0.7 / 3.6) * (v - 6.4)` has
reached 1, above the plateau value 0.9, and between the speeds 19 and 20 the result
decreases. -/
theorem momentum_scale_factor_leaves_plateau_values :
    UtilityH.getMomentumScaleFactor 10 = 1 ∧
    ¬ UtilityH.getMomentumScaleFactor 10 ≤ 9 / 10 ∧
    (64 / 10 : ℚ) ≤ 19 ∧ (19 : ℚ) ≤ 20 ∧
    UtilityH.getMomentumScaleFactor 20 < UtilityH.getMomentumScaleFactor 19 := by
  refine ⟨by norm_num [UtilityH.getMomentumScaleFactor],
    by norm_num [UtilityH.getMomentumScaleFactor], by norm_num, by norm_num,
    by norm_num [UtilityH.getMomentumScaleFactor]⟩

/-- C29, amended: the result of getMomentumScaleFactor is 0.6 for `v < 0.3`, 0.3 for
`0.3 ≤ v < 6.4`, `0.3 + (0.7 / 3.6) * (v - 6.4)` for `6.4 ≤ v < 20` and 0.9 for `v ≥ 20`;
it is never below 0.3 and always below 53/18; it is above 0.9 exactly for the speeds
`332/35 < v < 20`; and it is non-decreasing on `[6.4, 20)` and constant on `[20, ∞)`. -/
theorem getMomentumScaleFactor_piecewise_and_bounds (v w : ℚ) :
    (v < 3 / 10 → UtilityH.getMomentumScaleFactor v = 6 / 10) ∧
    (3 / 10 ≤ v → v < 64 / 10 → UtilityH.getMomentumScaleFactor v = 3 / 10) ∧
    (64 / 10 ≤ v → v < 20 →
      UtilityH.getMomentumScaleFactor v = 3 / 10 + (7 / 10) / (36 / 10) * (v - 64 / 10)) ∧
    (20 ≤ v → UtilityH.getMomentumScaleFactor v = 9 / 10) ∧
    3 / 10 ≤ UtilityH.getMomentumScaleFactor v ∧
    UtilityH.getMomentumScaleFactor v < 53 / 18 ∧
    (9 / 10 < UtilityH.getMomentumScaleFactor v ↔ 332 / 35 < v ∧ v < 20) ∧
    (64 / 10 ≤ v → v ≤ w → w < 20 →
      UtilityH.getMomentumScaleFactor v ≤ UtilityH.getMomentumScaleFactor w) := by
  have hf : ∀ u : ℚ, UtilityH.getMomentumScaleFactor u =
      if u < 3 / 10 then 6 / 10
      else if u < 64 / 10 then 3 / 10
      else if u < 20 then 3 / 10 + (7 / 10) / (36 / 10) * (u - 64 / 10)
      else 9 / 10 := by
    intro u
    unfold UtilityH.getMomentumScaleFactor
    dsimp only
    split_ifs <;> ring
  have hramp : ∀ u : ℚ, 64 / 10 ≤ u → u < 20 →
      UtilityH.getMomentumScaleFactor u = 3 / 10 + (7 / 10) / (36 / 10) * (u - 64 / 10) := by
    intro u h1 h2
    rw [hf u, if_neg (by linarith), if_neg (by linarith), if_pos h2]
  refine ⟨?_, ?_, hramp v, ?_, ?_, ?_, ?_, ?_⟩
  · intro h
    rw [hf v, if_pos h]
  · intro h1 h2
    rw [hf v, if_neg (by linarith), if_pos h2]
  · intro h
    rw [hf v, if_neg (by linarith), if_neg (by linarith), if_neg (by linarith)]
  · rw [hf v]
    split_ifs with h1 h2 h3
    · norm_num
    · norm_num
    · push_neg at h2
      linarith
    · norm_num
  · rw [hf v]
    split_ifs with h1 h2 h3
    · norm_num
    · norm_num
    · linarith
    · norm_num
  · rw [hf v]
    split_ifs with h1 h2 h3
    · exact ⟨fun h => absurd h (by norm_num), fun h => by linarith [h.1]⟩
    · exact ⟨fun h => absurd h (by norm_num), fun h => by linarith [h.1]⟩
    · push_neg at h2
      exact ⟨fun h => ⟨by linarith, h3⟩, fun h => by linarith [h.1]⟩
    · push_neg at h3
      exact ⟨fun h => absurd h (by norm_num), fun h => by linarith [h.2]⟩
  · intro h1 h2 h3
    rw [hramp v h1 (by linarith), hramp w (by linarith) h3]
    linarith

theorem getMomentumScaleFactor_piecewise_and_bounds_witness :
    UtilityH.getMomentumScaleFactor 7 ≤ UtilityH.getMomentumScaleFactor 8 ∧
    UtilityH.getMomentumScaleFactor 25 = 9 / 10 ∧
    UtilityH.getMomentumScaleFactor 0 = 6 / 10 :=
  ⟨(getMomentumScaleFactor_piecewise_and_bounds 7 8).2.2.2.2.2.2.2 (by norm_num)
      (by norm_num) (by norm_num),
    (getMomentumScaleFactor_piecewise_and_bounds 25 0).2.2.2.1 (by norm_num),
    (getMomentumScaleFactor_piecewise_and_bounds 0 0).1 (by norm_num)⟩

end op_utility_ns

/-!
# Vector-map records: the claim
-/

namespace UtilityHNS

theorem digitChar_ne_comma (m : Nat) (h : m < 10) : Nat.digitChar m ≠ ',' := by
  interval_cases m <;> decide

theorem toDigitsCore_no_comma (fuel : Nat) :
    ∀ (n : Nat) (acc : List Char), (∀ c ∈ acc, c ≠ ',') →
      ∀ c ∈ Nat.toDigitsCore 10 fuel n acc, c ≠ ',' := by
  induction fuel with
  | zero => intro n acc h; simpa [Nat.toDigitsCore] using h
  | succ fuel ih =>
    intro n acc h
    have hd : Nat.digitChar (n % 10) ≠ ',' :=
      digitChar_ne_comma _ (Nat.mod_lt _ (by norm_num))
    have hcons : ∀ c ∈ Nat.digitChar (n % 10) :: acc, c ≠ ',' := by
      intro c hc
      rcases List.mem_cons.mp hc with h1 | h1
      · rw [h1]; exact hd
      · exact h c h1
    unfold Nat.toDigitsCore
    dsimp only
    split_ifs
    · exact hcons
    · exact ih _ _ hcons

theorem Nat_text_no_comma (n : Nat) : ',' ∉ (toString n).toList := by
  intro h
  exact toDigitsCore_no_comma _ n [] (by simp) ',' h rfl

/-- The decimal text of an `int` contains no comma. -/
theorem Int_text_no_comma (n : Int) : ',' ∉ (toString n).toList := by
  cases n with
  | ofNat m => exact Nat_text_no_comma m
  | negSucc m =>
    intro h
    have h1 : (toString (Int.negSucc m)).toList = '-' :: (toString (m + 1)).toList := rfl
    rw [h1] at h
    rcases List.mem_cons.mp h with h2 | h2
    · exact absurd h2 (by decide)
    · exact Nat_text_no_comma _ h2

theorem commas_int (fmt : ℚ → String) (n : Int) :
    List.count ',' ((Inserted.int n).text fmt) = 0 :=
  List.count_eq_zero_of_not_mem (Int_text_no_comma n)

theorem commas_double (fmt : ℚ → String) (hfmt : ∀ d, ',' ∉ (fmt d).toList) (d : ℚ) :
    List.count ',' ((Inserted.double d).text fmt) = 0 :=
  List.count_eq_zero_of_not_mem (hfmt d)

theorem commas_separator (fmt : ℚ → String) :
    List.count ',' ((Inserted.string ",").text fmt) = 1 := rfl

theorem commas_string (fmt : ℚ → String) (s : String) (h : ',' ∉ s.toList) :
    List.count ',' ((Inserted.string s).text fmt) = 0 :=
  List.count_eq_zero_of_not_mem h

theorem commas_written_cons (fmt : ℚ → String) (x : Inserted) (rest : List Inserted) :
    List.count ',' (written fmt (x :: rest)) =
      List.count ',' (x.text fmt) + List.count ',' (written fmt rest) := by
  show List.count ',' (x.text fmt ++ written fmt rest) = _
  rw [List.count_append]

theorem commas_written_nil (fmt : ℚ → String) : List.count ',' (written fmt []) = 0 := rfl


/-! ### The claim on the rows and the headers -/

/-- C30: the rows written by the `operator<<` of the vector-map records against their
headers. Whenever the formatting of doubles writes no comma: for AisanPoints, AisanNode,
AisanLine, AisanCenterLine, AisanArea, AisanIntersection, AisanStopLine, AisanRoadSign,
AisanSignal, AisanVector, AisanCurb, AisanCrossWalk and AisanWayarea the row of every record
has as many comma-separated fields as `header_` has column names; the row of every
AisanLane has at least 26 fields while its header names 23 columns; and the row of every
AisanGutter, AisanPole, AisanPoledata, AisanRoadEdge, AisanSurfacemark, AisanStreetlight,
AisanUtilitypole and AisanZebrazone, and of every AisanWhiteline and AisanIdx whose strings
contain no comma, has exactly 2 fields while the header names 3 to 6 columns, because only
the first separator is written. -/
theorem rows_against_headers (fmt : ℚ → String) (hfmt : ∀ d, ',' ∉ (fmt d).toList) :
    ((∀ obj : AisanPointsFileReader.AisanPoints,
        fieldCount (written fmt obj.write) =
          fieldCount AisanPointsFileReader.header_.toList) ∧
      (∀ obj : AisanNodesFileReader.AisanNode,
        fieldCount (written fmt obj.write) =
          fieldCount AisanNodesFileReader.header_.toList) ∧
      (∀ obj : AisanLinesFileReader.AisanLine,
        fieldCount (written fmt obj.write) =
          fieldCount AisanLinesFileReader.header_.toList) ∧
      (∀ obj : AisanCenterLinesFileReader.AisanCenterLine,
        fieldCount (written fmt obj.write) =
          fieldCount AisanCenterLinesFileReader.header_.toList) ∧
      (∀ obj : AisanAreasFileReader.AisanArea,
        fieldCount (written fmt obj.write) =
          fieldCount AisanAreasFileReader.header_.toList) ∧
      (∀ obj : AisanIntersectionFileReader.AisanIntersection,
        fieldCount (written fmt obj.write) =
          fieldCount AisanIntersectionFileReader.header_.toList) ∧
      (∀ obj : AisanStopLineFileReader.AisanStopLine,
        fieldCount (written fmt obj.write) =
          fieldCount AisanStopLineFileReader.header_.toList) ∧
      (∀ obj : AisanRoadSignFileReader.AisanRoadSign,
        fieldCount (written fmt obj.write) =
          fieldCount AisanRoadSignFileReader.header_.toList) ∧
      (∀ obj : AisanSignalFileReader.AisanSignal,
        fieldCount (written fmt obj.write) =
          fieldCount AisanSignalFileReader.header_.toList) ∧
      (∀ obj : AisanVectorFileReader.AisanVector,
        fieldCount (written fmt obj.write) =
          fieldCount AisanVectorFileReader.header_.toList) ∧
      (∀ obj : AisanCurbFileReader.AisanCurb,
        fieldCount (written fmt obj.write) =
          fieldCount AisanCurbFileReader.header_.toList) ∧
      (∀ obj : AisanCrossWalkFileReader.AisanCrossWalk,
        fieldCount (written fmt obj.write) =
          fieldCount AisanCrossWalkFileReader.header_.toList) ∧
      (∀ obj : AisanWayareaFileReader.AisanWayarea,
        fieldCount (written fmt obj.write) =
          fieldCount AisanWayareaFileReader.header_.toList)) ∧
    (fieldCount AisanLanesFileReader.header_.toList = 23 ∧
      ∀ obj : AisanLanesFileReader.AisanLane, 26 ≤ fieldCount (written fmt obj.write)) ∧
    ((fieldCount AisanGutterFileReader.header_.toList = 4 ∧
        ∀ obj : AisanGutterFileReader.AisanGutter,
          fieldCount (written fmt obj.write) = 2) ∧
      (fieldCount AisanPoleFileReader.header_.toList = 4 ∧
        ∀ obj : AisanPoleFileReader.AisanPole,
          fieldCount (written fmt obj.write) = 2) ∧
      (fieldCount AisanPoledataFileReader.header_.toList = 3 ∧
        ∀ obj : AisanPoledataFileReader.AisanPoledata,
          fieldCount (written fmt obj.write) = 2) ∧
      (fieldCount AisanRoadEdgeFileReader.header_.toList = 3 ∧
        ∀ obj : AisanRoadEdgeFileReader.AisanRoadEdge,
          fieldCount (written fmt obj.write) = 2) ∧
      (fieldCount AisanSurfacemarkFileReader.header_.toList = 4 ∧
        ∀ obj : AisanSurfacemarkFileReader.AisanSurfacemark,
          fieldCount (written fmt obj.write) = 2) ∧
      (fieldCount AisanStreetlightFileReader.header_.toList = 4 ∧
        ∀ obj : AisanStreetlightFileReader.AisanStreetlight,
          fieldCount (written fmt obj.write) = 2) ∧
      (fieldCount AisanUtilitypoleFileReader.header_.toList = 3 ∧
        ∀ obj : AisanUtilitypoleFileReader.AisanUtilitypole,
          fieldCount (written fmt obj.write) = 2) ∧
      (fieldCount AisanZebrazoneFileReader.header_.toList = 3 ∧
        ∀ obj : AisanZebrazoneFileReader.AisanZebrazone,
          fieldCount (written fmt obj.write) = 2) ∧
      (fieldCount AisanWhitelinesFileReader.header_.toList = 6 ∧
        ∀ obj : AisanWhitelinesFileReader.AisanWhiteline,
          ',' ∉ obj.Color.toList →
          fieldCount (written fmt obj.write) = 2) ∧
      (fieldCount AisanIdxFileReader.header_.toList = 3 ∧
        ∀ obj : AisanIdxFileReader.AisanIdx,
          ',' ∉ obj.KIND.toList → ',' ∉ obj.fname.toList →
          fieldCount (written fmt obj.write) = 2)) := by
  refine ⟨⟨?_, ?_, ?_, ?_, ?_, ?_, ?_, ?_, ?_, ?_, ?_, ?_, ?_⟩, ⟨by decide, ?_⟩,
    ⟨⟨by decide, ?_⟩, ⟨by decide, ?_⟩, ⟨by decide, ?_⟩, ⟨by decide, ?_⟩, ⟨by decide, ?_⟩,
      ⟨by decide, ?_⟩, ⟨by decide, ?_⟩, ⟨by decide, ?_⟩, ⟨by decide, ?_⟩, ⟨by decide, ?_⟩⟩⟩
  · intro obj
    have hrow : List.count ',' (written fmt obj.write) = 9 := by
      simp only [AisanPointsFileReader.AisanPoints.write, commas_written_cons,
        commas_written_nil, commas_int, commas_double fmt hfmt, commas_separator]
    show List.count ',' (written fmt obj.write) + 1 = _
    rw [hrow]
    decide
  · intro obj
    have hrow : List.count ',' (written fmt obj.write) = 1 := by
      simp only [AisanNodesFileReader.AisanNode.write, commas_written_cons,
        commas_written_nil, commas_int, commas_double fmt hfmt, commas_separator]
    show List.count ',' (written fmt obj.write) + 1 = _
    rw [hrow]
    decide
  · intro obj
    have hrow : List.count ',' (written fmt obj.write) = 4 := by
      simp only [AisanLinesFileReader.AisanLine.write, commas_written_cons,
        commas_written_nil, commas_int, commas_double fmt hfmt, commas_separator]
    show List.count ',' (written fmt obj.write) + 1 = _
    rw [hrow]
    decide
  · intro obj
    have hrow : List.count ',' (written fmt obj.write) = 9 := by
      simp only [AisanCenterLinesFileReader.AisanCenterLine.write, commas_written_cons,
        commas_written_nil, commas_int, commas_double fmt hfmt, commas_separator]
    show List.count ',' (written fmt obj.write) + 1 = _
    rw [hrow]
    decide
  · intro obj
    have hrow : List.count ',' (written fmt obj.write) = 2 := by
      simp only [AisanAreasFileReader.AisanArea.write, commas_written_cons,
        commas_written_nil, commas_int, commas_double fmt hfmt, commas_separator]
    show List.count ',' (written fmt obj.write) + 1 = _
    rw [hrow]
    decide
  · intro obj
    have hrow : List.count ',' (written fmt obj.write) = 2 := by
      simp only [AisanIntersectionFileReader.AisanIntersection.write, commas_written_cons,
        commas_written_nil, commas_int, commas_double fmt hfmt, commas_separator]
    show List.count ',' (written fmt obj.write) + 1 = _
    rw [hrow]
    decide
  · intro obj
    have hrow : List.count ',' (written fmt obj.write) = 4 := by
      simp only [AisanStopLineFileReader.AisanStopLine.write, commas_written_cons,
        commas_written_nil, commas_int, commas_double fmt hfmt, commas_separator]
    show List.count ',' (written fmt obj.write) + 1 = _
    rw [hrow]
    decide
  · intro obj
    have hrow : List.count ',' (written fmt obj.write) = 4 := by
      simp only [AisanRoadSignFileReader.AisanRoadSign.write, commas_written_cons,
        commas_written_nil, commas_int, commas_double fmt hfmt, commas_separator]
    show List.count ',' (written fmt obj.write) + 1 = _
    rw [hrow]
    decide
  · intro obj
    have hrow : List.count ',' (written fmt obj.write) = 4 := by
      simp only [AisanSignalFileReader.AisanSignal.write, commas_written_cons,
        commas_written_nil, commas_int, commas_double fmt hfmt, commas_separator]
    show List.count ',' (written fmt obj.write) + 1 = _
    rw [hrow]
    decide
  · intro obj
    have hrow : List.count ',' (written fmt obj.write) = 3 := by
      simp only [AisanVectorFileReader.AisanVector.write, commas_written_cons,
        commas_written_nil, commas_int, commas_double fmt hfmt, commas_separator]
    show List.count ',' (written fmt obj.write) + 1 = _
    rw [hrow]
    decide
  · intro obj
    have hrow : List.count ',' (written fmt obj.write) = 5 := by
      simp only [AisanCurbFileReader.AisanCurb.write, commas_written_cons,
        commas_written_nil, commas_int, commas_double fmt hfmt, commas_separator]
    show List.count ',' (written fmt obj.write) + 1 = _
    rw [hrow]
    decide
  · intro obj
    have hrow : List.count ',' (written fmt obj.write) = 4 := by
      simp only [AisanCrossWalkFileReader.AisanCrossWalk.write, commas_written_cons,
        commas_written_nil, commas_int, commas_double fmt hfmt, commas_separator]
    show List.count ',' (written fmt obj.write) + 1 = _
    rw [hrow]
    decide
  · intro obj
    have hrow : List.count ',' (written fmt obj.write) = 2 := by
      simp only [AisanWayareaFileReader.AisanWayarea.write, commas_written_cons,
        commas_written_nil, commas_int, commas_double fmt hfmt, commas_separator]
    show List.count ',' (written fmt obj.write) + 1 = _
    rw [hrow]
    decide
  · intro obj
    have hrow : List.count ',' (written fmt obj.write) =
        25 + List.count ',' ((Inserted.char obj.LaneDir).text fmt) := by
      simp only [AisanLanesFileReader.AisanLane.write, commas_written_cons,
          commas_written_nil, commas_int, commas_double fmt hfmt, commas_separator]
      omega
    show 26 ≤ List.count ',' (written fmt obj.write) + 1
    omega
  · intro obj
    have hrow : List.count ',' (written fmt obj.write) = 1 := by
      simp only [AisanGutterFileReader.AisanGutter.write, commas_written_cons,
        commas_written_nil, commas_int, commas_double fmt hfmt, commas_separator]
    show List.count ',' (written fmt obj.write) + 1 = 2
    rw [hrow]
  · intro obj
    have hrow : List.count ',' (written fmt obj.write) = 1 := by
      simp only [AisanPoleFileReader.AisanPole.write, commas_written_cons,
        commas_written_nil, commas_int, commas_double fmt hfmt, commas_separator]
    show List.count ',' (written fmt obj.write) + 1 = 2
    rw [hrow]
  · intro obj
    have hrow : List.count ',' (written fmt obj.write) = 1 := by
      simp only [AisanPoledataFileReader.AisanPoledata.write, commas_written_cons,
        commas_written_nil, commas_int, commas_double fmt hfmt, commas_separator]
    show List.count ',' (written fmt obj.write) + 1 = 2
    rw [hrow]
  · intro obj
    have hrow : List.count ',' (written fmt obj.write) = 1 := by
      simp only [AisanRoadEdgeFileReader.AisanRoadEdge.write, commas_written_cons,
        commas_written_nil, commas_int, commas_double fmt hfmt, commas_separator]
    show List.count ',' (written fmt obj.write) + 1 = 2
    rw [hrow]
  · intro obj
    have hrow : List.count ',' (written fmt obj.write) = 1 := by
      simp only [AisanSurfacemarkFileReader.AisanSurfacemark.write, commas_written_cons,
        commas_written_nil, commas_int, commas_double fmt hfmt, commas_separator]
    show List.count ',' (written fmt obj.write) + 1 = 2
    rw [hrow]
  · intro obj
    have hrow : List.count ',' (written fmt obj.write) = 1 := by
      simp only [AisanStreetlightFileReader.AisanStreetlight.write, commas_written_cons,
        commas_written_nil, commas_int, commas_double fmt hfmt, commas_separator]
    show List.count ',' (written fmt obj.write) + 1 = 2
    rw [hrow]
  · intro obj
    have hrow : List.count ',' (written fmt obj.write) = 1 := by
      simp only [AisanUtilitypoleFileReader.AisanUtilitypole.write, commas_written_cons,
        commas_written_nil, commas_int, commas_double fmt hfmt, commas_separator]
    show List.count ',' (written fmt obj.write) + 1 = 2
    rw [hrow]
  · intro obj
    have hrow : List.count ',' (written fmt obj.write) = 1 := by
      simp only [AisanZebrazoneFileReader.AisanZebrazone.write, commas_written_cons,
        commas_written_nil, commas_int, commas_double fmt hfmt, commas_separator]
    show List.count ',' (written fmt obj.write) + 1 = 2
    rw [hrow]
  · intro obj h0
    have hrow : List.count ',' (written fmt obj.write) = 1 := by
      simp only [AisanWhitelinesFileReader.AisanWhiteline.write, commas_written_cons,
        commas_written_nil, commas_int, commas_double fmt hfmt, commas_separator,
        commas_string fmt _ h0]
    show List.count ',' (written fmt obj.write) + 1 = 2
    rw [hrow]
  · intro obj h0 h1
    have hrow : List.count ',' (written fmt obj.write) = 1 := by
      simp only [AisanIdxFileReader.AisanIdx.write, commas_written_cons,
        commas_written_nil, commas_int, commas_double fmt hfmt, commas_separator,
        commas_string fmt _ h0, commas_string fmt _ h1]
    show List.count ',' (written fmt obj.write) + 1 = 2
    rw [hrow]

theorem rows_against_headers_witness :
    written sampleFormat (AisanZebrazoneFileReader.AisanZebrazone.write ⟨1, 2, 3⟩) =
      "1,23".toList ∧
    fieldCount (written sampleFormat (AisanZebrazoneFileReader.AisanZebrazone.write ⟨1, 2, 3⟩))
      = 2 ∧
    fieldCount AisanZebrazoneFileReader.header_.toList = 3 :=
  ⟨by decide,
    (rows_against_headers sampleFormat
      (fun d => Int_text_no_comma ⌊d⌋)).2.2.2.2.2.2.2.2.2.1.2 ⟨1, 2, 3⟩,
    (rows_against_headers sampleFormat
      (fun d => Int_text_no_comma ⌊d⌋)).2.2.2.2.2.2.2.2.2.1.1⟩

end UtilityHNS
